import Mathlib

/-!
# collectd `src/openvpn.c`: status-file detection and parsing

A shallow embedding of the OpenVPN plugin's format detector, field splitter,
the five per-format parsers, the collection driver, the configuration callback
and the initialisation, followed by theorems about them.

Conventions of the embedding

* A C string is the list of its bytes before the terminating NUL (`CStr`).
* An open stream (`FILE`) is the sequence of strings that successive `fgets`
  calls return before the first `NULL`, together with the cause of that
  `NULL`: end-of-file, or a read error (then `ferror` is set).
* `plugin_dispatch_values` appends the submitted value list to an output list.
  Of the value list an observation records the type, the two instance labels
  and the values. The labels are what `sstrncpy` stores in the name buffers of
  `DATA_MAX_NAME_LEN` bytes: the first 63 bytes of the string handed to the
  submit function. The type strings are shorter than their buffer and are
  stored in full. Host and plugin name are the same for every value list and
  are left out.
* `derive_t` values are 64-bit patterns, kept as naturals below `2 ^ 64`;
  addition and subtraction are taken modulo `2 ^ 64`.
* `sum_users` grows by at most one per line read, so the `long long` cannot
  wrap on a file that exists; it is kept as an integer.
* The file-scope variables are passed as a state (`plugin_state`). The answers
  of the allocator are an input of `openvpn_config`; an access to `vpn_list`
  outside the array, possible only after a failed `realloc`, is undefined and
  makes the result `none`.
-/

namespace OpenVPN

/-- A C string: its bytes up to, not including, the terminating NUL. -/
abbrev CStr := List Char

/-! ## Marker strings and version tags (lines 32-49) -/

def V1STRING : CStr :=
  "Common Name,Real Address,Bytes Received,Bytes Sent,Connected Since\n".toList

def V2STRING : CStr :=
  "HEADER,CLIENT_LIST,Common Name,Real Address,Virtual Address,Bytes Received,Bytes Sent,Connected Since,Connected Since (time_t)\n".toList

def V3STRING : CStr :=
  "HEADER CLIENT_LIST Common Name Real Address Virtual Address Bytes Received Bytes Sent Connected Since Connected Since (time_t)\n".toList

def V4STRING : CStr :=
  "HEADER,CLIENT_LIST,Common Name,Real Address,Virtual Address,Bytes Received,Bytes Sent,Connected Since,Connected Since (time_t),Username\n".toList

def VSSTRING : CStr := "OpenVPN STATISTICS\n".toList

/-- Status-version 1. -/
def MULTI1 : Int := 1
/-- Status-version 2. -/
def MULTI2 : Int := 2
/-- Status-version 3. -/
def MULTI3 : Int := 3
/-- Status-version 4. -/
def MULTI4 : Int := 4
/-- Single mode. -/
def SINGLE : Int := 10

/-! ## Global policy flags (lines 57-60) -/

/-- The four file-scope flags read by the parsers. -/
structure Policy where
  new_naming_schema : Bool
  collect_compression : Bool
  collect_user_count : Bool
  collect_individual_users : Bool
deriving DecidableEq, Repr

/-- The initial values of the flags (lines 57-60). -/
def Policy.default : Policy :=
  { new_naming_schema := false, collect_compression := true,
    collect_user_count := false, collect_individual_users := true }

/-! ## Streams -/

/-- An open stream: `lines` are the strings successive `fgets` calls return
before the first `NULL`; `error` tells whether that `NULL` is due to a read
error (so that `ferror` is set from then on) rather than end-of-file. -/
structure FILE where
  lines : List CStr
  error : Bool
deriving DecidableEq, Repr

/-! ## libc helpers -/

/-- One call of `strtok_r (ptr, delim, &saveptr)` on the string `s` that `ptr`
(or `saveptr`) points at: leading delimiters are skipped; if nothing is left
the result is `NULL`; otherwise the token runs up to the next delimiter, which
is overwritten by NUL, and `saveptr` is left just behind it (or at the end). -/
def strtok_r (delim : List Char) (s : CStr) : Option (CStr × CStr) :=
  match s.dropWhile (fun c => delim.contains c) with
  | [] => none
  | c :: cs =>
    some ((c :: cs).takeWhile (fun d => !delim.contains d),
          ((c :: cs).dropWhile (fun d => !delim.contains d)).drop 1)

/-- C `isspace` in the "C" locale. -/
def isspace (c : Char) : Bool :=
  c == ' ' || c == '\t' || c == '\n' || c == '\x0b' || c == '\x0c' || c == '\r'

/-- C `isdigit`. -/
def isdigit (c : Char) : Bool := decide ('0' ≤ c) && decide (c ≤ '9')

/-- Value of the longest prefix of decimal digits, accumulated from `acc`. -/
def digits_value : Nat → CStr → Nat
  | acc, [] => acc
  | acc, c :: cs =>
    if isdigit c then digits_value (acc * 10 + (c.toNat - '0'.toNat)) cs else acc

def LLONG_MAX : Int := 2 ^ 63 - 1
def LLONG_MIN : Int := -(2 ^ 63)

/-- C `atoll`, i.e. `strtoll (nptr, NULL, 10)`: leading white space, an
optional sign, then decimal digits; no digits give 0; a value out of range is
clamped to `LLONG_MIN` or `LLONG_MAX`. -/
def atoll (nptr : CStr) : Int :=
  match nptr.dropWhile isspace with
  | '-' :: t => max LLONG_MIN (-(digits_value 0 t : Int))
  | '+' :: t => min LLONG_MAX (digits_value 0 t : Int)
  | s => min LLONG_MAX (digits_value 0 s : Int)

/-- C `tolower` in the "C" locale. -/
def tolower (c : Char) : Char :=
  if 'A' ≤ c ∧ c ≤ 'Z' then Char.ofNat (c.toNat + 32) else c

/-- C `strcasecmp`: the strings are compared byte by byte after `tolower`; the
result is negative, zero or positive (here -1, 0 or 1). -/
def strcasecmp : CStr → CStr → Int
  | [], [] => 0
  | [], _ :: _ => -1
  | _ :: _, [] => 1
  | a :: as, b :: bs =>
    if tolower a = tolower b then strcasecmp as bs
    else if (tolower a).toNat < (tolower b).toNat then -1 else 1

/-- C `strrchr (s, c)` for a byte `c` other than NUL: the part of `s` that
starts at the last occurrence of `c`, or `NULL` when `c` does not occur. -/
def strrchr : CStr → Char → Option CStr
  | [], _ => none
  | x :: xs, c =>
    match strrchr xs c with
    | some r => some r
    | none => if x = c then some (x :: xs) else none

/-! ## 64-bit `derive_t` arithmetic -/

/-- Modelled from the spec: `derive_t` is declared in `plugin.h`, not in this
file; the spec and the comment at line 249 speak of unsigned 64-bit counters.
A `derive_t` is kept as its 64-bit pattern, a natural below `2 ^ 64`, which is
the same for a signed and an unsigned reading. This is the conversion of a
`long long` to that pattern. -/
def to_derive (v : Int) : Nat := (v % 2 ^ 64).toNat

/-- Modelled from the spec: `a - b` on `derive_t`, modulo `2 ^ 64`. -/
def derive_sub (a b : Nat) : Nat := (a + 2 ^ 64 - b % 2 ^ 64) % 2 ^ 64

/-- Modelled from the spec: `a + b` on `derive_t`, modulo `2 ^ 64`. -/
def derive_add (a b : Nat) : Nat := (a + b) % 2 ^ 64

/-! ## Field splitters (lines 76-95) -/

/-- The `while` loop shared by `openvpn_strsplit` and `strsplit`, entered with
`r = size - i - 1` free slots behind the one being filled: a `NULL` token ends
the loop; otherwise the token is stored, `i` is incremented, and the loop
breaks when `i >= size`. The result lists `fields[0 .. i-1]`. -/
def strsplit_loop (delim : List Char) : Nat → CStr → List CStr
  | r, ptr =>
    match strtok_r delim ptr with
    | none => []
    | some (tok, saveptr) =>
      match r with
      | 0 => [tok]
      | r + 1 => tok :: strsplit_loop delim r saveptr

/-- Function `openvpn_strsplit (string, fields, size)`: the fields stored; the C return
value is their number. With `size = 0` the first token is still stored, as in
the C loop, which tests `i >= size` only after the increment. -/
def openvpn_strsplit (string : CStr) (size : Nat) : List CStr :=
  strsplit_loop [','] (size - 1) string

/-- Modelled from the spec: `strsplit` of `common.c` is not part of this file.
The comment at `openvpn_strsplit` says that function is a copy of it with the
delimiter changed to a comma, and the spec names white space as the other
delimiter; the delimiter string of `strsplit` is `" \t\r\n"`. -/
def strsplit (string : CStr) (size : Nat) : List CStr :=
  strsplit_loop [' ', '\t', '\r', '\n'] (size - 1) string

/-! ## Observations and the submit functions (lines 98-172) -/

/-- Modelled from the spec: `value_t` of `plugin.h`, one value of a value
list, either a gauge or a derive counter. The gauge handed to
`numusers_submit` is a count of lines and is recorded as that integer. -/
inductive value_t where
  | gauge (v : Int)
  | derive (v : Nat)
deriving DecidableEq, Repr

/-- Modelled from the spec: `value_list_t` of `plugin.h`, reduced to what the
spec calls a metric observation, i.e. what a submit function hands to
`plugin_dispatch_values`: the type, the contents of the plugin instance and
type instance buffers (absent when the argument is `NULL` and nothing is
copied), and the values. -/
structure value_list_t where
  type : String
  plugin_instance : Option CStr
  type_instance : Option CStr
  values : List value_t
deriving DecidableEq, Repr

/-- Modelled from the spec: `DATA_MAX_NAME_LEN` of `plugin.h`, which is not
part of this file: the size in bytes of the name buffers of a value list
(`plugin_instance`, `type_instance`), 64 in this version of collectd. -/
def DATA_MAX_NAME_LEN : Nat := 64

/-- Modelled from the spec: `sstrncpy (dest, src, n)` of `common.c`, which is
not part of this file: `strncpy (dest, src, n)` followed by
`dest[n - 1] = 0`. The string left in `dest` is the first `n - 1` bytes of
`src`, all of `src` when it is shorter than `n`. -/
def sstrncpy (src : CStr) (n : Nat) : CStr := src.take (n - 1)

/-- The guarded copy `if (x != NULL) sstrncpy (vl.buf, x, sizeof (vl.buf))` of
the three submit functions into a name buffer of the value list: the label
stored, or `none` when `x` is `NULL` and the buffer is left as initialised. -/
def name_buffer (x : Option CStr) : Option CStr :=
  match x with
  | none => none
  | some s => some (sstrncpy s DATA_MAX_NAME_LEN)

/-- The value list dispatched by `numusers_submit (pinst, tinst, value)`. -/
def numusers_submit (pinst tinst : Option CStr) (value : Int) : value_list_t :=
  { type := "users", plugin_instance := name_buffer pinst, type_instance := name_buffer tinst,
    values := [value_t.gauge value] }

/-- The value list dispatched by `iostats_submit (pinst, tinst, rx, tx)`. -/
def iostats_submit (pinst tinst : Option CStr) (rx tx : Nat) : value_list_t :=
  { type := "if_octets", plugin_instance := name_buffer pinst,
    type_instance := name_buffer tinst,
    values := [value_t.derive rx, value_t.derive tx] }

/-- The value list dispatched by
`compression_submit (pinst, tinst, uncompressed, compressed)`. -/
def compression_submit (pinst tinst : Option CStr) (uncompressed compressed : Nat) :
    value_list_t :=
  { type := "compression", plugin_instance := name_buffer pinst,
    type_instance := name_buffer tinst,
    values := [value_t.derive uncompressed, value_t.derive compressed] }

/-- What a read function leaves behind: its return value and the value lists
it dispatched, in order. -/
structure read_result where
  ret : Int
  out : List value_list_t
deriving DecidableEq, Repr

/-! ## `single_read` (lines 174-264) -/

/-- The eight counters of `single_read`. -/
structure single_state where
  link_rx : Nat
  link_tx : Nat
  tun_rx : Nat
  tun_tx : Nat
  pre_compress : Nat
  post_compress : Nat
  pre_decompress : Nat
  post_decompress : Nat
deriving DecidableEq, Repr

/-- The counters as initialised at lines 187-194. -/
def single_init : single_state :=
  { link_rx := 0, link_tx := 0, tun_rx := 0, tun_tx := 0,
    pre_compress := 0, post_compress := 0, pre_decompress := 0, post_decompress := 0 }

/-- The body of the `while` loop of `single_read` for one line (lines 198-244). -/
def single_line (st : single_state) (buffer : CStr) : single_state :=
  let fields := openvpn_strsplit buffer 4
  if fields.length ≠ 2 then st
  else if fields.getD 0 [] = "TUN/TAP read bytes".toList then
    { st with tun_tx := to_derive (atoll (fields.getD 1 [])) }
  else if fields.getD 0 [] = "TUN/TAP write bytes".toList then
    { st with tun_rx := to_derive (atoll (fields.getD 1 [])) }
  else if fields.getD 0 [] = "TCP/UDP read bytes".toList then
    { st with link_rx := to_derive (atoll (fields.getD 1 [])) }
  else if fields.getD 0 [] = "TCP/UDP write bytes".toList then
    { st with link_tx := to_derive (atoll (fields.getD 1 [])) }
  else if fields.getD 0 [] = "pre-compress bytes".toList then
    { st with pre_compress := to_derive (atoll (fields.getD 1 [])) }
  else if fields.getD 0 [] = "post-compress bytes".toList then
    { st with post_compress := to_derive (atoll (fields.getD 1 [])) }
  else if fields.getD 0 [] = "pre-decompress bytes".toList then
    { st with pre_decompress := to_derive (atoll (fields.getD 1 [])) }
  else if fields.getD 0 [] = "post-decompress bytes".toList then
    { st with post_decompress := to_derive (atoll (fields.getD 1 [])) }
  else st

/-- The `while (fgets ...)` loop of `single_read`: it has no `break`, so it
runs the body over every line in turn. -/
def single_loop (lines : List CStr) (st : single_state) : single_state :=
  lines.foldl single_line st

/-- Line 250: `(((link_rx - pre_decompress) + post_decompress) - tun_rx)`. -/
def overhead_rx (st : single_state) : Nat :=
  derive_sub (derive_add (derive_sub st.link_rx st.pre_decompress) st.post_decompress) st.tun_rx

/-- Line 251: `(((link_tx - post_compress) + pre_compress) - tun_tx)`. -/
def overhead_tx (st : single_state) : Nat :=
  derive_sub (derive_add (derive_sub st.link_tx st.post_compress) st.pre_compress) st.tun_tx

/-- Function `single_read (name, fh)` under the policy `p`: the loop, then
the traffic, overhead and (if enabled) compression value lists; it returns 1. -/
def single_read (p : Policy) (name : CStr) (fh : FILE) : read_result :=
  let st := single_loop fh.lines single_init
  let out1 := [iostats_submit (some name) (some "traffic".toList) st.link_rx st.link_tx]
  let out2 := out1 ++
    [iostats_submit (some name) (some "overhead".toList) (overhead_rx st) (overhead_tx st)]
  let out3 :=
    if p.collect_compression then
      out2 ++
        [compression_submit (some name) (some "data_in".toList)
           st.post_decompress st.pre_decompress,
         compression_submit (some name) (some "data_out".toList)
           st.pre_compress st.post_compress]
    else out2
  { ret := 1, out := out3 }

/-! ## `multi1_read` (lines 267-327) -/

/-- The locals of `multi1_read` and the value lists dispatched so far. -/
structure multi1_state where
  found_header : Bool
  sum_users : Int
  out : List value_list_t
deriving DecidableEq, Repr

/-- The `while (fgets ...)` loop of `multi1_read`. The second component tells
how the loop ended: `true` when `fgets` returned `NULL`, `false` when the
`break` at the "ROUTING TABLE" line was taken. -/
def multi1_loop (p : Policy) (name : CStr) : List CStr → multi1_state → multi1_state × Bool
  | [], st => (st, true)
  | buffer :: rest, st =>
    if buffer = "ROUTING TABLE\n".toList then (st, false)
    else if buffer = V1STRING then
      multi1_loop p name rest { st with found_header := true }
    else if st.found_header = false then multi1_loop p name rest st
    else
      let fields := openvpn_strsplit buffer 10
      if fields.length < 4 then multi1_loop p name rest st
      else
        let st1 :=
          if p.collect_user_count then { st with sum_users := st.sum_users + 1 } else st
        let st2 :=
          if p.collect_individual_users then
            if p.new_naming_schema then
              { st1 with out := st1.out ++
                  [iostats_submit (some name) (some (fields.getD 0 []))
                     (to_derive (atoll (fields.getD 2 [])))
                     (to_derive (atoll (fields.getD 3 [])))] }
            else
              { st1 with out := st1.out ++
                  [iostats_submit (some (fields.getD 0 [])) none
                     (to_derive (atoll (fields.getD 2 [])))
                     (to_derive (atoll (fields.getD 3 [])))] }
          else st1
        multi1_loop p name rest st2

/-- The locals on entry: `found_header = 0`, `sum_users = 0`. -/
def multi1_init : multi1_state := { found_header := false, sum_users := 0, out := [] }

/-- Function `multi1_read (name, fh)` under the policy `p`. The error indicator of the
stream is set only once `fgets` has failed, so `ferror (fh)` holds after the
loop exactly when the loop ran into `NULL` and that `NULL` was a read error. -/
def multi1_read (p : Policy) (name : CStr) (fh : FILE) : read_result :=
  let r := multi1_loop p name fh.lines multi1_init
  if r.2 && fh.error then { ret := 0, out := r.1.out }
  else if p.collect_user_count then
    { ret := 1, out := r.1.out ++ [numusers_submit (some name) (some name) r.1.sum_users] }
  else { ret := 1, out := r.1.out }

/-! ## `multi2_read`, `multi3_read`, `multi4_read` (lines 330-518) -/

/-- The locals of `multi2_read` (and of its two siblings) and the value lists
dispatched so far. -/
structure multi_state where
  sum_users : Int
  read : Int
  out : List value_list_t
deriving DecidableEq, Repr

/-- The locals as initialised on entry: `read = 0`, `sum_users = 0`. -/
def multi_init : multi_state := { sum_users := 0, read := 0, out := [] }

/-- The body of the loop of `multi2_read` for one line (lines 340-379). -/
def multi2_line (p : Policy) (name : CStr) (st : multi_state) (buffer : CStr) : multi_state :=
  let fields := openvpn_strsplit buffer 10
  if fields.length ≠ 8 then st
  else if fields.getD 0 [] ≠ "CLIENT_LIST".toList then st
  else
    let st1 :=
      if p.collect_user_count then { st with sum_users := st.sum_users + 1 } else st
    let st2 :=
      if p.collect_individual_users then
        if p.new_naming_schema then
          { st1 with out := st1.out ++
              [iostats_submit (some name) (some (fields.getD 1 []))
                 (to_derive (atoll (fields.getD 4 [])))
                 (to_derive (atoll (fields.getD 5 [])))] }
        else
          { st1 with out := st1.out ++
              [iostats_submit (some (fields.getD 1 [])) none
                 (to_derive (atoll (fields.getD 4 [])))
                 (to_derive (atoll (fields.getD 5 [])))] }
      else st1
    { st2 with read := 1 }

/-- The body of the loop of `multi3_read` for one line (lines 402-444); the
line is split by `strsplit`, not by `openvpn_strsplit`. -/
def multi3_line (p : Policy) (name : CStr) (st : multi_state) (buffer : CStr) : multi_state :=
  let fields := strsplit buffer 15
  if fields.length ≠ 12 then st
  else if fields.getD 0 [] ≠ "CLIENT_LIST".toList then st
  else
    let st1 :=
      if p.collect_user_count then { st with sum_users := st.sum_users + 1 } else st
    let st2 :=
      if p.collect_individual_users then
        if p.new_naming_schema then
          { st1 with out := st1.out ++
              [iostats_submit (some name) (some (fields.getD 1 []))
                 (to_derive (atoll (fields.getD 4 [])))
                 (to_derive (atoll (fields.getD 5 [])))] }
        else
          { st1 with out := st1.out ++
              [iostats_submit (some (fields.getD 1 [])) none
                 (to_derive (atoll (fields.getD 4 [])))
                 (to_derive (atoll (fields.getD 5 [])))] }
      else st1
    { st2 with read := 1 }

/-- The body of the loop of `multi4_read` for one line (lines 467-508). -/
def multi4_line (p : Policy) (name : CStr) (st : multi_state) (buffer : CStr) : multi_state :=
  let fields := openvpn_strsplit buffer 11
  if fields.length ≠ 9 then st
  else if fields.getD 0 [] ≠ "CLIENT_LIST".toList then st
  else
    let st1 :=
      if p.collect_user_count then { st with sum_users := st.sum_users + 1 } else st
    let st2 :=
      if p.collect_individual_users then
        if p.new_naming_schema then
          { st1 with out := st1.out ++
              [iostats_submit (some name) (some (fields.getD 1 []))
                 (to_derive (atoll (fields.getD 4 [])))
                 (to_derive (atoll (fields.getD 5 [])))] }
        else
          { st1 with out := st1.out ++
              [iostats_submit (some (fields.getD 1 [])) none
                 (to_derive (atoll (fields.getD 4 [])))
                 (to_derive (atoll (fields.getD 5 [])))] }
      else st1
    { st2 with read := 1 }

/-- The part of `multi2_read`, `multi3_read` and `multi4_read` behind the loop
(lines 382-388, 447-453, 511-517). -/
def multi_finish (p : Policy) (name : CStr) (st : multi_state) : read_result :=
  if p.collect_user_count then
    { ret := 1, out := st.out ++ [numusers_submit (some name) (some name) st.sum_users] }
  else { ret := st.read, out := st.out }

/-- The `while (fgets ...)` loop of `multi2_read`: it has no `break`, so it
runs the body over every line in turn. -/
def multi2_loop (p : Policy) (name : CStr) (lines : List CStr) (st : multi_state) :
    multi_state :=
  lines.foldl (multi2_line p name) st

/-- Function `multi2_read (name, fh)` under the policy `p`. -/
def multi2_read (p : Policy) (name : CStr) (fh : FILE) : read_result :=
  multi_finish p name (multi2_loop p name fh.lines multi_init)

/-- The `while (fgets ...)` loop of `multi3_read`: it has no `break`, so it
runs the body over every line in turn. -/
def multi3_loop (p : Policy) (name : CStr) (lines : List CStr) (st : multi_state) :
    multi_state :=
  lines.foldl (multi3_line p name) st

/-- Function `multi3_read (name, fh)` under the policy `p`. -/
def multi3_read (p : Policy) (name : CStr) (fh : FILE) : read_result :=
  multi_finish p name (multi3_loop p name fh.lines multi_init)

/-- The `while (fgets ...)` loop of `multi4_read`: it has no `break`, so it
runs the body over every line in turn. -/
def multi4_loop (p : Policy) (name : CStr) (lines : List CStr) (st : multi_state) :
    multi_state :=
  lines.foldl (multi4_line p name) st

/-- Function `multi4_read (name, fh)` under the policy `p`. -/
def multi4_read (p : Policy) (name : CStr) (fh : FILE) : read_result :=
  multi_finish p name (multi4_loop p name fh.lines multi_init)

/-! ## `version_detect` (lines 573-646) -/

/-- The `while (fgets ...)` loop of `version_detect`, entered with
`version = 0`: the first line equal to a marker sets the version and breaks. -/
def version_detect_loop : List CStr → Int
  | [] => 0
  | buffer :: rest =>
    if buffer = VSSTRING then SINGLE
    else if buffer = V1STRING then MULTI1
    else if buffer = V2STRING then MULTI2
    else if buffer = V3STRING then MULTI3
    else if buffer = V4STRING then MULTI4
    else version_detect_loop rest

/-- Function `version_detect (filename)`. `fopen` maps a path to the stream it opens,
or to `none` when it fails; `filename` is `none` for a `NULL` pointer. -/
def version_detect (fopen : CStr → Option FILE) (filename : Option CStr) : Int :=
  match filename with
  | none => 0
  | some [] => 0
  | some (c :: cs) =>
    match fopen (c :: cs) with
    | none => 0
    | some fh => version_detect_loop fh.lines

/-! ## The list of status files (lines 39-55) -/

/-- One entry of `vpn_list`: `struct vpn_status_s`. -/
structure vpn_status_t where
  file : CStr
  version : Int
  name : CStr
deriving DecidableEq, Repr

/-- The file-scope state of the plugin: the array `vpn_list` points to (empty
for `NULL`), the counter `vpn_num`, and the four flags. The two agree,
`vpn_num` being the length of the array, except after a failed `realloc`
(see `openvpn_config`). -/
structure plugin_state where
  vpn_list : List vpn_status_t
  vpn_num : Nat
  policy : Policy
deriving DecidableEq, Repr

/-- The state at load time: `vpn_list = NULL`, `vpn_num = 0`, default flags. -/
def plugin_init : plugin_state :=
  { vpn_list := [], vpn_num := 0, policy := Policy.default }

/-! ## `openvpn_read` (lines 521-571) -/

/-- The `switch` of `openvpn_read`: the read function selected by the stored
version; a version outside the five cases leaves `vpn_read = 0`. -/
def vpn_read (p : Policy) (e : vpn_status_t) (fh : FILE) : read_result :=
  if e.version = SINGLE then single_read p e.name fh
  else if e.version = MULTI1 then multi1_read p e.name fh
  else if e.version = MULTI2 then multi2_read p e.name fh
  else if e.version = MULTI3 then multi3_read p e.name fh
  else if e.version = MULTI4 then multi4_read p e.name fh
  else { ret := 0, out := [] }

/-- The `for` loop of `openvpn_read` with `n = vpn_num - i` rounds to go over
the entries from `vpn_list[i]` on, `read` so far and the value lists
dispatched so far. An entry that is not in the array (`vpn_list` freed) makes
the access undefined: `none`. `read` is at most `vpn_num`, an `int`, so the
sum does not wrap. -/
def openvpn_read_loop (fopen : CStr → Option FILE) (p : Policy) :
    Nat → List vpn_status_t → Int → List value_list_t → Option (Int × List value_list_t)
  | 0, _, read, out => some (read, out)
  | _ + 1, [], _, _ => none
  | n + 1, e :: rest, read, out =>
    match fopen e.file with
    | none => openvpn_read_loop fopen p n rest read out
    | some fh =>
      openvpn_read_loop fopen p n rest (read + (vpn_read p e fh).ret)
        (out ++ (vpn_read p e fh).out)

/-- Function `openvpn_read ()` in the state `st`, `fopen` mapping a path to the
stream it opens or to `none` when it fails: the return value and everything
dispatched during the cycle. -/
def openvpn_read (fopen : CStr → Option FILE) (st : plugin_state) : Option read_result :=
  match openvpn_read_loop fopen st.policy st.vpn_num st.vpn_list 0 [] with
  | none => none
  | some (read, out) => some { ret := if read ≠ 0 then 0 else -1, out := out }

/-! ## `openvpn_config` (lines 648-775) -/

/-- What the allocator answers during one call of `openvpn_config`: whether
`sstrdup`, `malloc` and `realloc` return a non-`NULL` pointer. -/
structure alloc_t where
  sstrdup_ok : Bool
  malloc_ok : Bool
  realloc_ok : Bool
deriving DecidableEq, Repr

/-- Lines 675-686: the name of a status file, the part of the path behind its
last '/' or the whole path. -/
def status_name (status_file : CStr) : CStr :=
  match strrchr status_file '/' with
  | none => status_file
  | some filename => filename.drop 1

/-- Lines 688-699: the scan of `vpn_list[0 .. vpn_num - 1]` for an entry whose
name equals `name` up to case, with `n` rounds to go: `some true` when a clone
is found; `none` when an entry is not in the array, which makes the access
undefined. -/
def clone_scan (name : CStr) : Nat → List vpn_status_t → Option Bool
  | 0, _ => some false
  | _ + 1, [] => none
  | n + 1, e :: rest =>
    if strcasecmp e.name name = 0 then some true else clone_scan name n rest

/-- Function `openvpn_config (key, value)` in the state `st`: the return value
and the new state, or `none` when the call runs into an undefined access.
`IS_TRUE` and `IS_FALSE` are the macros of `collectd.h`, taken as parameters;
`fopen` is the file system of `version_detect`; `alloc` the answers of the
allocator. When `realloc` fails the code frees `vpn_list` and leaves `vpn_num`
as it is. -/
def openvpn_config (IS_TRUE IS_FALSE : CStr → Bool) (fopen : CStr → Option FILE)
    (alloc : alloc_t) (st : plugin_state) (key value : CStr) : Option (Int × plugin_state) :=
  if strcasecmp "StatusFile".toList key = 0 then
    if version_detect fopen (some value) = 0 then some (1, st)
    else if alloc.sstrdup_ok = false then some (1, st)
    else
      match clone_scan (status_name value) st.vpn_num st.vpn_list with
      | none => none
      | some true => some (1, st)
      | some false =>
        if alloc.malloc_ok = false then some (1, st)
        else if alloc.realloc_ok = false then some (1, { st with vpn_list := [] })
        else
          some (0, { st with
            vpn_list := st.vpn_list.take st.vpn_num ++
              [{ file := value, version := version_detect fopen (some value),
                 name := status_name value }],
            vpn_num := st.vpn_num + 1 })
  else if strcasecmp "CollectCompression".toList key = 0
      || strcasecmp "Compression".toList key = 0 then
    some (0, { st with policy :=
      { st.policy with collect_compression := if IS_FALSE value then false else true } })
  else if strcasecmp "ImprovedNamingSchema".toList key = 0 then
    some (0, { st with policy :=
      { st.policy with new_naming_schema := if IS_TRUE value then true else false } })
  else if strcasecmp "CollectUserCount".toList key = 0 then
    some (0, { st with policy :=
      { st.policy with collect_user_count := if IS_TRUE value then true else false } })
  else if strcasecmp "CollectIndividualUsers".toList key = 0 then
    some (0, { st with policy :=
      { st.policy with collect_individual_users := if IS_FALSE value then false else true } })
  else some (-1, st)

/-! ## `openvpn_init` (lines 793-809) -/

/-- The callbacks a plugin registers. -/
inductive callback_t where
  | read
  | shutdown
deriving DecidableEq, Repr

/-- Function `openvpn_init ()` under the flags `p`: the return value and the
callbacks registered, in order. -/
def openvpn_init (p : Policy) : Int × List callback_t :=
  if !p.collect_individual_users && !p.collect_compression && !p.collect_user_count then
    (-1, [])
  else (0, [callback_t.read, callback_t.shutdown])

/-! ## Specification vocabulary -/

/-- The five marker strings that `version_detect` compares lines with. -/
def markers : List CStr := [VSSTRING, V1STRING, V2STRING, V3STRING, V4STRING]

/-- The `if_octets` value list of one connection record: common name `cn`,
received bytes `rx`, sent bytes `tx`; the instance labels follow the naming
schema, `name` being the display name of the source, and are cut to the 63
bytes that fit a name buffer. -/
def client_values (p : Policy) (name cn : CStr) (rx tx : Nat) : value_list_t :=
  { type := "if_octets",
    plugin_instance := if p.new_naming_schema then some (name.take 63) else some (cn.take 63),
    type_instance := if p.new_naming_schema then some (cn.take 63) else none,
    values := [value_t.derive rx, value_t.derive tx] }

/-- The line that ends the client list of a status-version 1 file. -/
def routing_table_line : CStr := "ROUTING TABLE\n".toList

/-- A line is a candidate data line of status-version 1 when it is not the
header and splits into at least four comma-separated fields. -/
def multi1_data_line (l : CStr) : Bool :=
  decide (l ≠ V1STRING) && decide (4 ≤ (openvpn_strsplit l 10).length)

/-- The qualifying connection lines of a status-version 1 file: the data lines
behind the first header line and before the first "ROUTING TABLE" line. -/
def multi1_qualifying (lines : List CStr) : List CStr :=
  ((lines.takeWhile (fun l => decide (l ≠ routing_table_line))).dropWhile
    (fun l => decide (l ≠ V1STRING))).filter multi1_data_line

/-- The connection observation of a status-version 1 line: fields 0, 2, 3. -/
def multi1_client (p : Policy) (name l : CStr) : value_list_t :=
  client_values p name ((openvpn_strsplit l 10).getD 0 [])
    (to_derive (atoll ((openvpn_strsplit l 10).getD 2 [])))
    (to_derive (atoll ((openvpn_strsplit l 10).getD 3 [])))

/-- A list of fields is a client record of `n` fields when it has exactly `n`
entries and the first one is "CLIENT_LIST". -/
def client_list_fields (n : Nat) (fields : List CStr) : Bool :=
  decide (fields.length = n) && decide (fields.getD 0 [] = "CLIENT_LIST".toList)

/-- The connection observation of a "CLIENT_LIST" record: fields 1, 4, 5. -/
def client_list_values (p : Policy) (name : CStr) (fields : List CStr) : value_list_t :=
  client_values p name (fields.getD 1 []) (to_derive (atoll (fields.getD 4 [])))
    (to_derive (atoll (fields.getD 5 [])))

/-- Qualifying connection line of status-version 2. -/
def multi2_qualifies (l : CStr) : Bool := client_list_fields 8 (openvpn_strsplit l 10)
/-- Qualifying connection line of status-version 3. -/
def multi3_qualifies (l : CStr) : Bool := client_list_fields 12 (strsplit l 15)
/-- Qualifying connection line of status-version 4. -/
def multi4_qualifies (l : CStr) : Bool := client_list_fields 9 (openvpn_strsplit l 11)

/-- The connection observation of a status-version 2 line. -/
def multi2_client (p : Policy) (name l : CStr) : value_list_t :=
  client_list_values p name (openvpn_strsplit l 10)
/-- The connection observation of a status-version 3 line. -/
def multi3_client (p : Policy) (name l : CStr) : value_list_t :=
  client_list_values p name (strsplit l 15)
/-- The connection observation of a status-version 4 line. -/
def multi4_client (p : Policy) (name l : CStr) : value_list_t :=
  client_list_values p name (openvpn_strsplit l 11)

/-- The effect on the locals of one line of a version 2, 3 or 4 file, in terms
of a qualification test `q` and the observation `o` of a qualifying line. -/
def multi_step (p : Policy) (q : CStr → Bool) (o : CStr → value_list_t)
    (st : multi_state) (l : CStr) : multi_state :=
  if q l then
    { sum_users := if p.collect_user_count then st.sum_users + 1 else st.sum_users,
      read := 1,
      out := if p.collect_individual_users then st.out ++ [o l] else st.out }
  else st

/-- The connection records among dispatched value lists: those of type
`if_octets`. -/
def records (out : List value_list_t) : List value_list_t :=
  out.filter (fun v => decide (v.type = "if_octets"))

/-- The configured sources that `fopen` opens, each with its stream, in the
order of the list. -/
def opened (fopen : CStr → Option FILE) (l : List vpn_status_t) : List (vpn_status_t × FILE) :=
  l.filterMap (fun e => (fopen e.file).map (fun fh => (e, fh)))

/-- A sample file system for the worked examples: a version 2 status file with
one client, a single-mode file whose name is the same up to case, a
single-mode file without directory part, and a text file of no known format;
no other path opens. -/
def sample_fopen : CStr → Option FILE := fun path =>
  if path = "/var/run/openvpn/server.status".toList then
    some (FILE.mk
      [V2STRING,
       "CLIENT_LIST,bob,10.8.0.2,1.2.3.4,500,600,Thu Jun 18 04:23:03 2015,1434601383\n".toList,
       "END\n".toList] false)
  else if path = "/etc/openvpn/SERVER.STATUS".toList then
    some (FILE.mk [VSSTRING, "TCP/UDP read bytes,1000\n".toList, "END\n".toList] false)
  else if path = "tunnel.status".toList then
    some (FILE.mk [VSSTRING, "TCP/UDP read bytes,1000\n".toList, "END\n".toList] false)
  else if path = "/tmp/notes.txt".toList then
    some (FILE.mk ["hello\n".toList] false)
  else none

/-- One call of the configuration callback: the file system and the answers
of the allocator at the time of the call, and the key and value passed. -/
structure config_call where
  fopen : CStr → Option FILE
  alloc : alloc_t
  key : CStr
  value : CStr

/-- The state after a sequence of `openvpn_config` calls, or `none` when one
of them runs into an undefined access. -/
def run_config (IS_TRUE IS_FALSE : CStr → Bool) : plugin_state → List config_call →
    Option plugin_state
  | st, [] => some st
  | st, c :: cs =>
    match openvpn_config IS_TRUE IS_FALSE c.fopen c.alloc st c.key c.value with
    | none => none
    | some r => run_config IS_TRUE IS_FALSE r.2 cs

/-- The display names of a list of sources are pairwise distinct under
`strcasecmp`. -/
def names_distinct (l : List vpn_status_t) : Prop :=
  l.Pairwise (fun a b => strcasecmp a.name b.name ≠ 0)

/-- The stored version is one of the five known ones. -/
def version_known (v : Int) : Prop :=
  v = SINGLE ∨ v = MULTI1 ∨ v = MULTI2 ∨ v = MULTI3 ∨ v = MULTI4

/-- A sample reading of the macro `IS_TRUE` for the worked examples. -/
def sample_is_true (v : CStr) : Bool := decide (strcasecmp "true".toList v = 0)

/-- A sample reading of the macro `IS_FALSE` for the worked examples. -/
def sample_is_false (v : CStr) : Bool := decide (strcasecmp "false".toList v = 0)

/-- A sample configuration over `sample_fopen`, every allocation succeeding:
a version 2 status file, a file with the same name up to case, a file of
unknown format, the user-count flag, and a single-mode status file. -/
def sample_calls : List config_call :=
  [config_call.mk sample_fopen (alloc_t.mk true true true)
     "StatusFile".toList "/var/run/openvpn/server.status".toList,
   config_call.mk sample_fopen (alloc_t.mk true true true)
     "statusfile".toList "/etc/openvpn/SERVER.STATUS".toList,
   config_call.mk sample_fopen (alloc_t.mk true true true)
     "StatusFile".toList "/tmp/notes.txt".toList,
   config_call.mk sample_fopen (alloc_t.mk true true true)
     "CollectUserCount".toList "true".toList,
   config_call.mk sample_fopen (alloc_t.mk true true true)
     "StatusFile".toList "tunnel.status".toList]

/-- The fields `fs` lie in the string `l` from left to right as its successive
tokens: each field is preceded by delimiters only and followed by a delimiter
or by the end of the string, and the next field lies behind that delimiter. -/
def laid_out (delim : List Char) : List CStr → CStr → Prop
  | [], _ => True
  | f :: fs, l =>
    ∃ pre post, (∀ c ∈ pre, c ∈ delim) ∧ l = pre ++ f ++ post ∧
      ((post = [] ∧ fs = []) ∨ ∃ d rest, d ∈ delim ∧ post = d :: rest ∧ laid_out delim fs rest)

/-- A line is accepted by `single_read` for the label `label`: it splits into
exactly two fields and the first one is the label. -/
def label_line (label l : CStr) : Bool :=
  decide ((openvpn_strsplit l 4).length = 2) &&
    decide ((openvpn_strsplit l 4).getD 0 [] = label)

/-- The numeric value of the second field of a line, as stored in a counter. -/
def line_value (l : CStr) : Nat := to_derive (atoll ((openvpn_strsplit l 4).getD 1 []))

/-- The value of the last line accepted for `label`, or `d` when there is no
such line. -/
def last_value_from (d : Nat) (label : CStr) (lines : List CStr) : Nat :=
  match (lines.filter (label_line label)).getLast? with
  | none => d
  | some l => line_value l

/-- The value of the last line accepted for `label`, or 0 when there is no
such line. -/
def last_value (label : CStr) (lines : List CStr) : Nat := last_value_from 0 label lines

/-- The labels that `single_read` compares the first field with. -/
def single_labels : List CStr :=
  ["TUN/TAP read bytes".toList, "TUN/TAP write bytes".toList, "TCP/UDP read bytes".toList,
   "TCP/UDP write bytes".toList, "pre-compress bytes".toList, "post-compress bytes".toList,
   "pre-decompress bytes".toList, "post-decompress bytes".toList]

/-- The label `L` is recognised by the single-mode parser: some line that
splits into exactly two fields, the first being `L`, changes what `single_read`
dispatches for some file, i.e. the file with that line and the file without it
give different value lists. -/
def recognized (L : CStr) : Prop :=
  ∃ (p : Policy) (name : CStr) (pre post : List CStr) (l : CStr) (err : Bool),
    (openvpn_strsplit l 4).length = 2 ∧ (openvpn_strsplit l 4).getD 0 [] = L ∧
    (single_read p name (FILE.mk (pre ++ l :: post) err)).out ≠
      (single_read p name (FILE.mk (pre ++ post) err)).out

/-- The maximal non-empty comma-free runs of a line, from left to right: the
line is cut at every comma and the empty pieces are left out. -/
def comma_runs (l : CStr) : List CStr :=
  (l.splitOn ',').filter (fun f => decide (f ≠ []))

/-! ## Lemmas: the name buffers -/

@[simp]
theorem name_buffer_some (s : CStr) : name_buffer (some s) = some (s.take 63) := rfl

@[simp]
theorem name_buffer_none : name_buffer none = none := rfl

/-! ## Lemmas: format detection -/

theorem mem_markers (x : CStr) :
    x ∈ markers ↔ x = VSSTRING ∨ x = V1STRING ∨ x = V2STRING ∨ x = V3STRING ∨ x = V4STRING := by
  simp [markers]

theorem version_detect_loop_skip (pre rest : List CStr) (h : ∀ x ∈ pre, x ∉ markers) :
    version_detect_loop (pre ++ rest) = version_detect_loop rest := by
  induction pre with
  | nil => rfl
  | cons b pre ih =>
    have hb : b ∉ markers := h b (List.mem_cons_self _ _)
    rw [mem_markers] at hb
    have hrest : ∀ x ∈ pre, x ∉ markers := fun x hx => h x (List.mem_cons_of_mem _ hx)
    simp only [not_or] at hb
    obtain ⟨h0, h1, h2, h3, h4⟩ := hb
    simp only [List.cons_append, version_detect_loop, if_neg h0, if_neg h1, if_neg h2,
      if_neg h3, if_neg h4]
    exact ih hrest

theorem version_detect_loop_eq_zero (lines : List CStr) :
    version_detect_loop lines = 0 ↔ ∀ x ∈ lines, x ∉ markers := by
  induction lines with
  | nil => simp [version_detect_loop]
  | cons b rest ih =>
    simp only [version_detect_loop, List.mem_cons, forall_eq_or_imp, mem_markers]
    by_cases h0 : b = VSSTRING
    · rw [if_pos h0]
      exact ⟨fun h => absurd h (by decide), fun h => absurd (Or.inl h0) h.1⟩
    by_cases h1 : b = V1STRING
    · rw [if_neg h0, if_pos h1]
      exact ⟨fun h => absurd h (by decide), fun h => absurd (Or.inr (Or.inl h1)) h.1⟩
    by_cases h2 : b = V2STRING
    · rw [if_neg h0, if_neg h1, if_pos h2]
      exact ⟨fun h => absurd h (by decide), fun h => absurd (Or.inr (Or.inr (Or.inl h2))) h.1⟩
    by_cases h3 : b = V3STRING
    · rw [if_neg h0, if_neg h1, if_neg h2, if_pos h3]
      exact ⟨fun h => absurd h (by decide),
        fun h => absurd (Or.inr (Or.inr (Or.inr (Or.inl h3)))) h.1⟩
    by_cases h4 : b = V4STRING
    · rw [if_neg h0, if_neg h1, if_neg h2, if_neg h3, if_pos h4]
      exact ⟨fun h => absurd h (by decide),
        fun h => absurd (Or.inr (Or.inr (Or.inr (Or.inr h4)))) h.1⟩
    rw [if_neg h0, if_neg h1, if_neg h2, if_neg h3, if_neg h4, ih]
    simp [h0, h1, h2, h3, h4, mem_markers]

/-! ## Lemmas: the loops of the version 2, 3 and 4 parsers -/

theorem multi2_line_eq_step (p : Policy) (name : CStr) (st : multi_state) (l : CStr) :
    multi2_line p name st l =
      multi_step p multi2_qualifies (multi2_client p name)
        st l := by
  unfold multi2_line multi_step multi2_qualifies multi2_client client_list_fields client_list_values
    client_values iostats_submit
  dsimp only
  generalize openvpn_strsplit l 10 = fields
  generalize fields.getD 0 [] = f0
  generalize fields.getD 1 [] = f1
  generalize fields.getD 4 [] = f4
  generalize fields.getD 5 [] = f5
  generalize "CLIENT_LIST".toList = cl
  by_cases h1 : fields.length = 8
  · by_cases h2 : f0 = cl
    · cases hc : p.collect_user_count <;> cases hi : p.collect_individual_users <;>
        cases hn : p.new_naming_schema <;> simp [h1, h2]
    · simp [h1, h2]
  · simp [h1]

theorem multi3_line_eq_step (p : Policy) (name : CStr) (st : multi_state) (l : CStr) :
    multi3_line p name st l =
      multi_step p multi3_qualifies (multi3_client p name)
        st l := by
  unfold multi3_line multi_step multi3_qualifies multi3_client client_list_fields client_list_values
    client_values iostats_submit
  dsimp only
  generalize strsplit l 15 = fields
  generalize fields.getD 0 [] = f0
  generalize fields.getD 1 [] = f1
  generalize fields.getD 4 [] = f4
  generalize fields.getD 5 [] = f5
  generalize "CLIENT_LIST".toList = cl
  by_cases h1 : fields.length = 12
  · by_cases h2 : f0 = cl
    · cases hc : p.collect_user_count <;> cases hi : p.collect_individual_users <;>
        cases hn : p.new_naming_schema <;> simp [h1, h2]
    · simp [h1, h2]
  · simp [h1]

theorem multi4_line_eq_step (p : Policy) (name : CStr) (st : multi_state) (l : CStr) :
    multi4_line p name st l =
      multi_step p multi4_qualifies (multi4_client p name)
        st l := by
  unfold multi4_line multi_step multi4_qualifies multi4_client client_list_fields client_list_values
    client_values iostats_submit
  dsimp only
  generalize openvpn_strsplit l 11 = fields
  generalize fields.getD 0 [] = f0
  generalize fields.getD 1 [] = f1
  generalize fields.getD 4 [] = f4
  generalize fields.getD 5 [] = f5
  generalize "CLIENT_LIST".toList = cl
  by_cases h1 : fields.length = 9
  · by_cases h2 : f0 = cl
    · cases hc : p.collect_user_count <;> cases hi : p.collect_individual_users <;>
        cases hn : p.new_naming_schema <;> simp [h1, h2]
    · simp [h1, h2]
  · simp [h1]

theorem foldl_multi_step (p : Policy) (q : CStr → Bool) (o : CStr → value_list_t)
    (lines : List CStr) (st : multi_state) :
    lines.foldl (multi_step p q o) st =
      { sum_users :=
          if p.collect_user_count then st.sum_users + ((lines.filter q).length : Int)
          else st.sum_users,
        read := if lines.filter q = [] then st.read else 1,
        out :=
          if p.collect_individual_users then st.out ++ (lines.filter q).map o else st.out } := by
  induction lines generalizing st with
  | nil => cases st; simp
  | cons b rest ih =>
    rw [List.foldl_cons, ih]
    unfold multi_step
    by_cases hq : q b = true
    · cases hc : p.collect_user_count <;> cases hi : p.collect_individual_users <;>
        simp [hq, List.filter_cons] <;> omega
    · simp [hq, List.filter_cons]

/-! ## Lemmas: the loop of the version 1 parser -/

theorem multi1_loop_found (p : Policy) (name : CStr) (lines : List CStr) (st : multi1_state)
    (hf : st.found_header = true) :
    multi1_loop p name lines st =
      ({ found_header := true,
         sum_users :=
           if p.collect_user_count then
             st.sum_users +
               (((lines.takeWhile (fun l => decide (l ≠ routing_table_line))).filter
                 multi1_data_line).length : Int)
           else st.sum_users,
         out :=
           if p.collect_individual_users then
             st.out ++
               ((lines.takeWhile (fun l => decide (l ≠ routing_table_line))).filter
                 multi1_data_line).map (multi1_client p name)
           else st.out },
       decide (routing_table_line ∉ lines)) := by
  induction lines generalizing st with
  | nil => cases st; simp_all [multi1_loop]
  | cons b rest ih =>
    rw [multi1_loop]
    by_cases hb : b = routing_table_line
    · have hb2 : b = "ROUTING TABLE\n".toList := hb
      rw [if_pos hb2]
      cases st
      simp_all
    · have hb2 : ¬ b = "ROUTING TABLE\n".toList := hb
      rw [if_neg hb2]
      have hmem : decide (routing_table_line ∉ b :: rest) = decide (routing_table_line ∉ rest) := by
        simp [List.mem_cons, Ne.symm hb]
      rw [hmem, List.takeWhile_cons_of_pos (by simpa using hb)]
      by_cases hh : b = V1STRING
      · rw [if_pos hh, ih _ rfl]
        have hd : multi1_data_line b = false := by simp [multi1_data_line, hh]
        simp [List.filter_cons, hd]
      · rw [if_neg hh, if_neg (by simp [hf])]
        dsimp only
        by_cases hlen : (openvpn_strsplit b 10).length < 4
        · rw [if_pos hlen, ih _ hf]
          have hd : multi1_data_line b = false := by
            simp [multi1_data_line, hh]; omega
          simp [List.filter_cons, hd]
        · rw [if_neg hlen]
          have hd : multi1_data_line b = true := by
            simp [multi1_data_line, hh]; omega
          rw [ih]
          · cases hc : p.collect_user_count <;> cases hi : p.collect_individual_users <;>
              cases hn : p.new_naming_schema <;>
              simp [List.filter_cons, hd, multi1_client, client_values, iostats_submit, hn] <;>
              omega
          · cases hc : p.collect_user_count <;> cases hi : p.collect_individual_users <;>
              cases hn : p.new_naming_schema <;> simp [hf]

theorem multi1_loop_seek (p : Policy) (name : CStr) (lines : List CStr) (st : multi1_state)
    (hf : st.found_header = false) :
    multi1_loop p name lines st =
      ({ found_header :=
           decide (V1STRING ∈ lines.takeWhile (fun l => decide (l ≠ routing_table_line))),
         sum_users :=
           if p.collect_user_count then
             st.sum_users + ((multi1_qualifying lines).length : Int)
           else st.sum_users,
         out :=
           if p.collect_individual_users then
             st.out ++ (multi1_qualifying lines).map (multi1_client p name)
           else st.out },
       decide (routing_table_line ∉ lines)) := by
  induction lines generalizing st with
  | nil => cases st; simp_all [multi1_loop, multi1_qualifying]
  | cons b rest ih =>
    rw [multi1_loop]
    by_cases hb : b = routing_table_line
    · have hb2 : b = "ROUTING TABLE\n".toList := hb
      rw [if_pos hb2]
      cases st
      simp_all [multi1_qualifying]
    · have hb2 : ¬ b = "ROUTING TABLE\n".toList := hb
      rw [if_neg hb2]
      have hmem : decide (routing_table_line ∉ b :: rest) = decide (routing_table_line ∉ rest) := by
        simp [List.mem_cons, Ne.symm hb]
      unfold multi1_qualifying
      rw [hmem, List.takeWhile_cons_of_pos (by simpa using hb)]
      by_cases hh : b = V1STRING
      · rw [if_pos hh, multi1_loop_found p name rest _ rfl]
        have hd : multi1_data_line b = false := by simp [multi1_data_line, hh]
        rw [List.dropWhile_cons_of_neg (by simp [hh])]
        subst hh
        simp [List.filter_cons, hd]
      · rw [if_neg hh, if_pos hf, ih st hf]
        rw [List.dropWhile_cons_of_pos (by simpa using hh)]
        have hne : ¬ V1STRING = b := fun h => hh h.symm
        simp [multi1_qualifying, List.mem_cons, hne]

/-! ## Lemmas: what the multi-mode parsers dispatch -/

theorem multi2_loop_eq (p : Policy) (name : CStr) (lines : List CStr) (st : multi_state) :
    multi2_loop p name lines st =
      { sum_users :=
          if p.collect_user_count then
            st.sum_users + ((lines.filter multi2_qualifies).length : Int)
          else st.sum_users,
        read := if lines.filter multi2_qualifies = [] then st.read else 1,
        out :=
          if p.collect_individual_users then
            st.out ++ (lines.filter multi2_qualifies).map (multi2_client p name)
          else st.out } := by
  have h : multi2_line p name = multi_step p multi2_qualifies (multi2_client p name) := by
    funext st l
    exact multi2_line_eq_step p name st l
  unfold multi2_loop
  rw [h, foldl_multi_step]

theorem multi3_loop_eq (p : Policy) (name : CStr) (lines : List CStr) (st : multi_state) :
    multi3_loop p name lines st =
      { sum_users :=
          if p.collect_user_count then
            st.sum_users + ((lines.filter multi3_qualifies).length : Int)
          else st.sum_users,
        read := if lines.filter multi3_qualifies = [] then st.read else 1,
        out :=
          if p.collect_individual_users then
            st.out ++ (lines.filter multi3_qualifies).map (multi3_client p name)
          else st.out } := by
  have h : multi3_line p name = multi_step p multi3_qualifies (multi3_client p name) := by
    funext st l
    exact multi3_line_eq_step p name st l
  unfold multi3_loop
  rw [h, foldl_multi_step]

theorem multi4_loop_eq (p : Policy) (name : CStr) (lines : List CStr) (st : multi_state) :
    multi4_loop p name lines st =
      { sum_users :=
          if p.collect_user_count then
            st.sum_users + ((lines.filter multi4_qualifies).length : Int)
          else st.sum_users,
        read := if lines.filter multi4_qualifies = [] then st.read else 1,
        out :=
          if p.collect_individual_users then
            st.out ++ (lines.filter multi4_qualifies).map (multi4_client p name)
          else st.out } := by
  have h : multi4_line p name = multi_step p multi4_qualifies (multi4_client p name) := by
    funext st l
    exact multi4_line_eq_step p name st l
  unfold multi4_loop
  rw [h, foldl_multi_step]

theorem multi_finish_out (p : Policy) (name : CStr) (st : multi_state) :
    (multi_finish p name st).out =
      st.out ++
        (if p.collect_user_count then [numusers_submit (some name) (some name) st.sum_users]
         else []) := by
  unfold multi_finish
  cases p.collect_user_count <;> simp

theorem multi2_read_out (p : Policy) (name : CStr) (fh : FILE) :
    (multi2_read p name fh).out =
      (if p.collect_individual_users then
         (fh.lines.filter multi2_qualifies).map (multi2_client p name)
       else []) ++
      (if p.collect_user_count then
         [numusers_submit (some name) (some name) ((fh.lines.filter multi2_qualifies).length : Int)]
       else []) := by
  unfold multi2_read
  rw [multi_finish_out, multi2_loop_eq]
  cases p.collect_user_count <;> cases p.collect_individual_users <;> simp [multi_init]

theorem multi3_read_out (p : Policy) (name : CStr) (fh : FILE) :
    (multi3_read p name fh).out =
      (if p.collect_individual_users then
         (fh.lines.filter multi3_qualifies).map (multi3_client p name)
       else []) ++
      (if p.collect_user_count then
         [numusers_submit (some name) (some name) ((fh.lines.filter multi3_qualifies).length : Int)]
       else []) := by
  unfold multi3_read
  rw [multi_finish_out, multi3_loop_eq]
  cases p.collect_user_count <;> cases p.collect_individual_users <;> simp [multi_init]

theorem multi4_read_out (p : Policy) (name : CStr) (fh : FILE) :
    (multi4_read p name fh).out =
      (if p.collect_individual_users then
         (fh.lines.filter multi4_qualifies).map (multi4_client p name)
       else []) ++
      (if p.collect_user_count then
         [numusers_submit (some name) (some name) ((fh.lines.filter multi4_qualifies).length : Int)]
       else []) := by
  unfold multi4_read
  rw [multi_finish_out, multi4_loop_eq]
  cases p.collect_user_count <;> cases p.collect_individual_users <;> simp [multi_init]

theorem multi1_read_out (p : Policy) (name : CStr) (fh : FILE) :
    (multi1_read p name fh).out =
      (if p.collect_individual_users then
         (multi1_qualifying fh.lines).map (multi1_client p name)
       else []) ++
      (if p.collect_user_count && !(decide (routing_table_line ∉ fh.lines) && fh.error) then
         [numusers_submit (some name) (some name) ((multi1_qualifying fh.lines).length : Int)]
       else []) := by
  unfold multi1_read
  rw [multi1_loop_seek p name fh.lines multi1_init rfl]
  dsimp only
  cases p.collect_user_count <;> cases p.collect_individual_users <;> cases fh.error <;>
    by_cases h : routing_table_line ∈ fh.lines <;> simp [multi1_init, h]

/-! ## C1: format detection -/

/-- C1: when the status file opens, `version_detect` returns the version of the
first line that equals one of the five marker strings (VSSTRING gives SINGLE,
V1STRING MULTI1, V2STRING MULTI2, V3STRING MULTI3, V4STRING MULTI4), and it
returns 0 exactly when no line of the file equals any of the five markers. -/
theorem version_detect_first_marker (fopen : CStr → Option FILE) (filename : CStr) (fh : FILE)
    (hname : filename ≠ []) (hopen : fopen filename = some fh) :
    (∀ (pre post : List CStr) (l : CStr), fh.lines = pre ++ l :: post →
        (∀ x ∈ pre, x ∉ markers) →
        (l = VSSTRING → version_detect fopen (some filename) = SINGLE) ∧
        (l = V1STRING → version_detect fopen (some filename) = MULTI1) ∧
        (l = V2STRING → version_detect fopen (some filename) = MULTI2) ∧
        (l = V3STRING → version_detect fopen (some filename) = MULTI3) ∧
        (l = V4STRING → version_detect fopen (some filename) = MULTI4)) ∧
    (version_detect fopen (some filename) = 0 ↔ ∀ x ∈ fh.lines, x ∉ markers) := by
  have hvd : version_detect fopen (some filename) = version_detect_loop fh.lines := by
    cases filename with
    | nil => exact absurd rfl hname
    | cons c cs => simp only [version_detect, hopen]
  rw [hvd]
  refine ⟨?_, version_detect_loop_eq_zero fh.lines⟩
  intro pre post l hl hpre
  rw [hl, version_detect_loop_skip pre (l :: post) hpre]
  refine ⟨?_, ?_, ?_, ?_, ?_⟩ <;> intro h <;> subst h <;> rfl

/-- Witness for C1: a status file whose second line is the version 2 header,
followed by the single-mode banner, is detected as MULTI2. -/
theorem version_detect_first_marker_witness :
    ("/var/run/openvpn.status".toList ≠ [] ∧
      (fun _ => some (FILE.mk ["TITLE,OpenVPN 2.3.2\n".toList, V2STRING, VSSTRING] false))
        "/var/run/openvpn.status".toList =
        some (FILE.mk ["TITLE,OpenVPN 2.3.2\n".toList, V2STRING, VSSTRING] false)) ∧
    version_detect
      (fun _ => some (FILE.mk ["TITLE,OpenVPN 2.3.2\n".toList, V2STRING, VSSTRING] false))
      (some "/var/run/openvpn.status".toList) = MULTI2 :=
  ⟨⟨by decide, rfl⟩,
    ((version_detect_first_marker
      (fun _ => some (FILE.mk ["TITLE,OpenVPN 2.3.2\n".toList, V2STRING, VSSTRING] false))
      "/var/run/openvpn.status".toList
      (FILE.mk ["TITLE,OpenVPN 2.3.2\n".toList, V2STRING, VSSTRING] false)
      (by decide) rfl).1 ["TITLE,OpenVPN 2.3.2\n".toList] [VSSTRING] V2STRING rfl
      (by decide)).2.2.1 rfl⟩

/-! ## Lemmas: sections of a version 1 file and connection records -/

theorem takeWhile_append_stop {α : Type} (f : α → Bool) (xs ys : List α) (y : α)
    (hxs : ∀ x ∈ xs, f x = true) (hy : f y = false) :
    (xs ++ y :: ys).takeWhile f = xs := by
  induction xs with
  | nil => simp [List.takeWhile_cons, hy]
  | cons a xs ih =>
    have ha : f a = true := hxs a (List.mem_cons_self _ _)
    simp only [List.cons_append, List.takeWhile_cons, ha, if_true]
    rw [ih (fun x hx => hxs x (List.mem_cons_of_mem _ hx))]

theorem dropWhile_append_stop {α : Type} (f : α → Bool) (xs ys : List α) (y : α)
    (hxs : ∀ x ∈ xs, f x = true) (hy : f y = false) :
    (xs ++ y :: ys).dropWhile f = y :: ys := by
  induction xs with
  | nil => simp [List.dropWhile_cons, hy]
  | cons a xs ih =>
    have ha : f a = true := hxs a (List.mem_cons_self _ _)
    simp only [List.cons_append, List.dropWhile_cons, ha, if_true]
    exact ih (fun x hx => hxs x (List.mem_cons_of_mem _ hx))

theorem multi1_qualifying_sections (P D R : List CStr)
    (hP : ∀ l ∈ P, l ≠ V1STRING ∧ l ≠ routing_table_line)
    (hD : ∀ l ∈ D, l ≠ V1STRING ∧ l ≠ routing_table_line) :
    multi1_qualifying (P ++ [V1STRING] ++ D ++ [routing_table_line] ++ R) =
      D.filter (fun l => decide (4 ≤ (openvpn_strsplit l 10).length)) := by
  unfold multi1_qualifying
  have h1 : P ++ [V1STRING] ++ D ++ [routing_table_line] ++ R =
      (P ++ V1STRING :: D) ++ routing_table_line :: R := by simp
  rw [h1, takeWhile_append_stop _ _ _ _ _ (by simp)]
  · rw [dropWhile_append_stop _ _ _ _ (fun x hx => by simpa using (hP x hx).1) (by simp)]
    have hv : multi1_data_line V1STRING = false := by simp [multi1_data_line]
    rw [List.filter_cons, hv]
    simp only [Bool.false_eq_true, if_false]
    apply List.filter_congr
    intro l hl
    simp [multi1_data_line, (hD l hl).1]
  · intro x hx
    rcases List.mem_append.1 hx with h | h
    · simpa using (hP x h).2
    · rcases List.mem_cons.1 h with h | h
      · subst h; decide
      · simpa using (hD x h).2

theorem records_append_users (xs us : List value_list_t)
    (hxs : ∀ x ∈ xs, x.type = "if_octets") (hus : ∀ u ∈ us, u.type = "users") :
    records (xs ++ us) = xs := by
  unfold records
  rw [List.filter_append]
  have h1 : ∀ v ∈ xs, decide (v.type = "if_octets") = true := by
    intro v hv
    simp [hxs v hv]
  have h2 : us.filter (fun v => decide (v.type = "if_octets")) = [] := by
    apply List.filter_eq_nil_iff.2
    intro u hu
    simp [hus u hu]
  rw [List.filter_eq_self.2 h1, h2, List.append_nil]

theorem users_tail_type (c : Bool) (v : value_list_t) (hv : v.type = "users") :
    ∀ u ∈ (if c then [v] else []), u.type = "users" := by
  intro u hu
  cases c
  · exact absurd hu (List.not_mem_nil _)
  · rw [List.mem_singleton.1 hu]; exact hv

theorem records_multi1_read (p : Policy) (name : CStr) (fh : FILE) :
    records (multi1_read p name fh).out =
      if p.collect_individual_users then
        (multi1_qualifying fh.lines).map (multi1_client p name)
      else [] := by
  rw [multi1_read_out]
  apply records_append_users _ _ _ (users_tail_type _ _ rfl)
  intro x hx
  cases hi : p.collect_individual_users
  · rw [hi] at hx; exact absurd hx (List.not_mem_nil _)
  · rw [hi] at hx
    obtain ⟨l, _, rfl⟩ := List.mem_map.1 hx
    rfl

theorem records_multi2_read (p : Policy) (name : CStr) (fh : FILE) :
    records (multi2_read p name fh).out =
      if p.collect_individual_users then
        (fh.lines.filter multi2_qualifies).map (multi2_client p name)
      else [] := by
  rw [multi2_read_out]
  apply records_append_users _ _ _ (users_tail_type _ _ rfl)
  intro x hx
  cases hi : p.collect_individual_users
  · rw [hi] at hx; exact absurd hx (List.not_mem_nil _)
  · rw [hi] at hx
    obtain ⟨l, _, rfl⟩ := List.mem_map.1 hx
    rfl

theorem records_multi3_read (p : Policy) (name : CStr) (fh : FILE) :
    records (multi3_read p name fh).out =
      if p.collect_individual_users then
        (fh.lines.filter multi3_qualifies).map (multi3_client p name)
      else [] := by
  rw [multi3_read_out]
  apply records_append_users _ _ _ (users_tail_type _ _ rfl)
  intro x hx
  cases hi : p.collect_individual_users
  · rw [hi] at hx; exact absurd hx (List.not_mem_nil _)
  · rw [hi] at hx
    obtain ⟨l, _, rfl⟩ := List.mem_map.1 hx
    rfl

theorem records_multi4_read (p : Policy) (name : CStr) (fh : FILE) :
    records (multi4_read p name fh).out =
      if p.collect_individual_users then
        (fh.lines.filter multi4_qualifies).map (multi4_client p name)
      else [] := by
  rw [multi4_read_out]
  apply records_append_users _ _ _ (users_tail_type _ _ rfl)
  intro x hx
  cases hi : p.collect_individual_users
  · rw [hi] at hx; exact absurd hx (List.not_mem_nil _)
  · rw [hi] at hx
    obtain ⟨l, _, rfl⟩ := List.mem_map.1 hx
    rfl

theorem filter_map_insert {α β : Type} (q : α → Bool) (o : α → β) (pre post : List α) (l : α) :
    ((pre ++ l :: post).filter q).map o =
      (pre.filter q).map o ++ (if q l then [o l] else []) ++ (post.filter q).map o := by
  rw [List.filter_append, List.filter_cons]
  cases q l <;> simp

/-! ## C2: the client list of a version 1 file -/

/-- C2: in a status-version 1 file `P ++ [header] ++ D ++ ["ROUTING TABLE\n"] ++ R`
where no line of `P` or `D` is the header or the "ROUTING TABLE" line, and with
per-connection metrics enabled, the connection records `multi1_read` dispatches
are exactly one per line of `D` that splits into at least four fields, in file
order, with common name field 0, received bytes the value of field 2 and sent
bytes the value of field 3; no line of `P` or `R` gives a record. In particular
the file made of the header, "alice,1.2.3.4,1000,2000\n" and "ROUTING TABLE\n",
followed by any lines, gives the single record (alice, 1000, 2000). -/
theorem multi1_read_client_section (p : Policy) (name : CStr) (P D R : List CStr) (err : Bool)
    (hind : p.collect_individual_users = true)
    (hP : ∀ l ∈ P, l ≠ V1STRING ∧ l ≠ routing_table_line)
    (hD : ∀ l ∈ D, l ≠ V1STRING ∧ l ≠ routing_table_line) :
    records (multi1_read p name
        (FILE.mk (P ++ [V1STRING] ++ D ++ [routing_table_line] ++ R) err)).out =
      (D.filter (fun l => decide (4 ≤ (openvpn_strsplit l 10).length))).map
        (fun l => client_values p name ((openvpn_strsplit l 10).getD 0 [])
          (to_derive (atoll ((openvpn_strsplit l 10).getD 2 [])))
          (to_derive (atoll ((openvpn_strsplit l 10).getD 3 [])))) ∧
    records (multi1_read p name
        (FILE.mk ([V1STRING, "alice,1.2.3.4,1000,2000\n".toList, routing_table_line] ++ R)
          err)).out =
      [client_values p name "alice".toList 1000 2000] := by
  have key : ∀ (P D : List CStr), (∀ l ∈ P, l ≠ V1STRING ∧ l ≠ routing_table_line) →
      (∀ l ∈ D, l ≠ V1STRING ∧ l ≠ routing_table_line) →
      records (multi1_read p name
        (FILE.mk (P ++ [V1STRING] ++ D ++ [routing_table_line] ++ R) err)).out =
      (D.filter (fun l => decide (4 ≤ (openvpn_strsplit l 10).length))).map
        (fun l => client_values p name ((openvpn_strsplit l 10).getD 0 [])
          (to_derive (atoll ((openvpn_strsplit l 10).getD 2 [])))
          (to_derive (atoll ((openvpn_strsplit l 10).getD 3 [])))) := by
    intro P D hP hD
    rw [records_multi1_read, if_pos hind]
    dsimp only
    rw [multi1_qualifying_sections P D R hP hD]
    rfl
  refine ⟨key P D hP hD, ?_⟩
  have h := key [] ["alice,1.2.3.4,1000,2000\n".toList] (by simp) (by decide)
  have hfile : [] ++ [V1STRING] ++ ["alice,1.2.3.4,1000,2000\n".toList] ++
      [routing_table_line] ++ R =
      [V1STRING, "alice,1.2.3.4,1000,2000\n".toList, routing_table_line] ++ R := by simp
  rw [hfile] at h
  rw [h]
  have hlen : (openvpn_strsplit "alice,1.2.3.4,1000,2000\n".toList 10) =
      ["alice".toList, "1.2.3.4".toList, "1000".toList, "2000\n".toList] := by decide
  have h2 : to_derive (atoll "1000".toList) = 1000 := by decide
  have h3 : to_derive (atoll "2000\n".toList) = 2000 := by decide
  have hfilter : List.filter (fun l => decide (4 ≤ (openvpn_strsplit l 10).length))
      ["alice,1.2.3.4,1000,2000\n".toList] = ["alice,1.2.3.4,1000,2000\n".toList] := by
    rw [List.filter_cons, hlen]
    rfl
  rw [hfilter]
  simp only [List.map_cons, List.map_nil, hlen]
  have h0 : List.getD ["alice".toList, "1.2.3.4".toList, "1000".toList, "2000\n".toList] 0 [] =
      "alice".toList := rfl
  have h2g : List.getD ["alice".toList, "1.2.3.4".toList, "1000".toList, "2000\n".toList] 2 [] =
      "1000".toList := rfl
  have h3g : List.getD ["alice".toList, "1.2.3.4".toList, "1000".toList, "2000\n".toList] 3 [] =
      "2000\n".toList := rfl
  rw [h0, h2g, h3g, h2, h3]

/-- Witness for C2: the default policy on a file with a title line, two client
lines and a routing table. -/
theorem multi1_read_client_section_witness :
    (Policy.default.collect_individual_users = true ∧
      (∀ l ∈ ["OpenVPN CLIENT LIST\n".toList, "Updated,Thu Jun 18 08:12:15 2015\n".toList],
        l ≠ V1STRING ∧ l ≠ routing_table_line) ∧
      (∀ l ∈ ["alice,1.2.3.4:1194,1000,2000,Thu Jun 18 04:23:03 2015\n".toList,
          "bob,5.6.7.8:1194,30,40,Thu Jun 18 04:08:39 2015\n".toList],
        l ≠ V1STRING ∧ l ≠ routing_table_line)) ∧
    records (multi1_read Policy.default "openvpn.status".toList
        (FILE.mk (["OpenVPN CLIENT LIST\n".toList, "Updated,Thu Jun 18 08:12:15 2015\n".toList] ++
          [V1STRING] ++
          ["alice,1.2.3.4:1194,1000,2000,Thu Jun 18 04:23:03 2015\n".toList,
           "bob,5.6.7.8:1194,30,40,Thu Jun 18 04:08:39 2015\n".toList] ++
          [routing_table_line] ++
          ["Virtual Address,Common Name,Real Address,Last Ref\n".toList,
           "10.8.0.2,alice,1.2.3.4:1194,Thu Jun 18 08:12:09 2015\n".toList]) false)).out =
      [iostats_submit (some "alice".toList) none 1000 2000,
       iostats_submit (some "bob".toList) none 30 40] :=
  ⟨⟨rfl, by decide, by decide⟩,
    (multi1_read_client_section Policy.default "openvpn.status".toList
      ["OpenVPN CLIENT LIST\n".toList, "Updated,Thu Jun 18 08:12:15 2015\n".toList]
      ["alice,1.2.3.4:1194,1000,2000,Thu Jun 18 04:23:03 2015\n".toList,
       "bob,5.6.7.8:1194,30,40,Thu Jun 18 04:08:39 2015\n".toList]
      ["Virtual Address,Common Name,Real Address,Last Ref\n".toList,
       "10.8.0.2,alice,1.2.3.4:1194,Thu Jun 18 08:12:09 2015\n".toList] false
      rfl (by decide) (by decide)).1.trans (by decide)⟩

theorem client_list_fields_iff (n : Nat) (fields : List CStr) :
    client_list_fields n fields = true ↔
      fields.length = n ∧ fields.getD 0 [] = "CLIENT_LIST".toList := by
  unfold client_list_fields
  rw [Bool.and_eq_true, decide_eq_true_iff, decide_eq_true_iff]

/-! ## C3: CLIENT_LIST lines of versions 2, 3 and 4 -/

/-- Counterexample to C3: a line with exactly twelve comma-separated fields,
the first being CLIENT_LIST, gives no connection record in `multi3_read`, which
splits lines at white space, not at commas. -/
theorem multi3_read_comma_line_counterexample :
    (openvpn_strsplit "CLIENT_LIST,bob,10.8.0.2,1.2.3.4,500,600,Thu,Jun,18,04:23:03,2015,1434601383\n".toList
        15).length = 12 ∧
    (openvpn_strsplit "CLIENT_LIST,bob,10.8.0.2,1.2.3.4,500,600,Thu,Jun,18,04:23:03,2015,1434601383\n".toList
        15).getD 0 [] = "CLIENT_LIST".toList ∧
    Policy.default.collect_individual_users = true ∧
    (multi3_read Policy.default "openvpn.status".toList
      (FILE.mk ["CLIENT_LIST,bob,10.8.0.2,1.2.3.4,500,600,Thu,Jun,18,04:23:03,2015,1434601383\n".toList]
        false)).out = [] := by
  decide

/-- C3 (amended): with per-connection metrics enabled, a line that
`openvpn_strsplit` splits into exactly 8 (version 2) or 9 (version 4)
comma-separated fields, or that `strsplit` splits into exactly 12
white-space-separated fields (version 3), and whose first field is CLIENT_LIST,
adds exactly one connection record to those of the lines before and after it,
with common name field 1, received bytes the value of field 4 and sent bytes the
value of field 5; with any other first field it adds none. -/
theorem client_list_line_record (p : Policy) (name : CStr) (pre post : List CStr) (l : CStr)
    (err : Bool) (hind : p.collect_individual_users = true) :
    ((openvpn_strsplit l 10).length = 8 →
      ((openvpn_strsplit l 10).getD 0 [] = "CLIENT_LIST".toList →
        records (multi2_read p name (FILE.mk (pre ++ l :: post) err)).out =
          records (multi2_read p name (FILE.mk pre err)).out ++
            [client_values p name ((openvpn_strsplit l 10).getD 1 [])
              (to_derive (atoll ((openvpn_strsplit l 10).getD 4 [])))
              (to_derive (atoll ((openvpn_strsplit l 10).getD 5 [])))] ++
            records (multi2_read p name (FILE.mk post err)).out) ∧
      ((openvpn_strsplit l 10).getD 0 [] ≠ "CLIENT_LIST".toList →
        records (multi2_read p name (FILE.mk (pre ++ l :: post) err)).out =
          records (multi2_read p name (FILE.mk pre err)).out ++
            records (multi2_read p name (FILE.mk post err)).out)) ∧
    ((strsplit l 15).length = 12 →
      ((strsplit l 15).getD 0 [] = "CLIENT_LIST".toList →
        records (multi3_read p name (FILE.mk (pre ++ l :: post) err)).out =
          records (multi3_read p name (FILE.mk pre err)).out ++
            [client_values p name ((strsplit l 15).getD 1 [])
              (to_derive (atoll ((strsplit l 15).getD 4 [])))
              (to_derive (atoll ((strsplit l 15).getD 5 [])))] ++
            records (multi3_read p name (FILE.mk post err)).out) ∧
      ((strsplit l 15).getD 0 [] ≠ "CLIENT_LIST".toList →
        records (multi3_read p name (FILE.mk (pre ++ l :: post) err)).out =
          records (multi3_read p name (FILE.mk pre err)).out ++
            records (multi3_read p name (FILE.mk post err)).out)) ∧
    ((openvpn_strsplit l 11).length = 9 →
      ((openvpn_strsplit l 11).getD 0 [] = "CLIENT_LIST".toList →
        records (multi4_read p name (FILE.mk (pre ++ l :: post) err)).out =
          records (multi4_read p name (FILE.mk pre err)).out ++
            [client_values p name ((openvpn_strsplit l 11).getD 1 [])
              (to_derive (atoll ((openvpn_strsplit l 11).getD 4 [])))
              (to_derive (atoll ((openvpn_strsplit l 11).getD 5 [])))] ++
            records (multi4_read p name (FILE.mk post err)).out) ∧
      ((openvpn_strsplit l 11).getD 0 [] ≠ "CLIENT_LIST".toList →
        records (multi4_read p name (FILE.mk (pre ++ l :: post) err)).out =
          records (multi4_read p name (FILE.mk pre err)).out ++
            records (multi4_read p name (FILE.mk post err)).out)) := by
  simp only [records_multi2_read, records_multi3_read, records_multi4_read, if_pos hind,
    filter_map_insert]
  refine ⟨fun hlen => ⟨fun h0 => ?_, fun h0 => ?_⟩, fun hlen => ⟨fun h0 => ?_, fun h0 => ?_⟩,
    fun hlen => ⟨fun h0 => ?_, fun h0 => ?_⟩⟩
  · have hq : multi2_qualifies l = true := (client_list_fields_iff _ _).2 ⟨hlen, h0⟩
    rw [hq]; rfl
  · have hq : multi2_qualifies l = false :=
      Bool.eq_false_iff.2 (fun h => h0 ((client_list_fields_iff _ _).1 h).2)
    rw [hq]; simp
  · have hq : multi3_qualifies l = true := (client_list_fields_iff _ _).2 ⟨hlen, h0⟩
    rw [hq]; rfl
  · have hq : multi3_qualifies l = false :=
      Bool.eq_false_iff.2 (fun h => h0 ((client_list_fields_iff _ _).1 h).2)
    rw [hq]; simp
  · have hq : multi4_qualifies l = true := (client_list_fields_iff _ _).2 ⟨hlen, h0⟩
    rw [hq]; rfl
  · have hq : multi4_qualifies l = false :=
      Bool.eq_false_iff.2 (fun h => h0 ((client_list_fields_iff _ _).1 h).2)
    rw [hq]; simp

/-- Witness for C3 (amended): the line of client bob, comma-separated with 8
and 9 fields for versions 2 and 4 and tab-separated for version 3, gives the
record (bob, 500, 600) in each parser. -/
theorem client_list_line_record_witness :
    (Policy.default.collect_individual_users = true ∧
      (openvpn_strsplit
        "CLIENT_LIST,bob,10.8.0.2,1.2.3.4,500,600,Thu Jun 18 04:23:03 2015,1434601383\n".toList
        10).length = 8 ∧
      (strsplit
        "CLIENT_LIST\tbob\t10.8.0.2\t1.2.3.4\t500\t600\tThu Jun 18 04:23:03 2015\t1434601383\n".toList
        15).length = 12 ∧
      (openvpn_strsplit
        "CLIENT_LIST,bob,10.8.0.2,1.2.3.4,500,600,Thu Jun 18 04:23:03 2015,1434601383,UNDEF\n".toList
        11).length = 9) ∧
    records (multi2_read Policy.default "openvpn.status".toList
      (FILE.mk ([V2STRING] ++
        "CLIENT_LIST,bob,10.8.0.2,1.2.3.4,500,600,Thu Jun 18 04:23:03 2015,1434601383\n".toList ::
          ["GLOBAL_STATS,Max bcast/mcast queue length,0\n".toList]) false)).out =
      [iostats_submit (some "bob".toList) none 500 600] ∧
    records (multi3_read Policy.default "openvpn.status".toList
      (FILE.mk ([V3STRING] ++
        "CLIENT_LIST\tbob\t10.8.0.2\t1.2.3.4\t500\t600\tThu Jun 18 04:23:03 2015\t1434601383\n".toList ::
          ["END\n".toList]) false)).out =
      [iostats_submit (some "bob".toList) none 500 600] ∧
    records (multi4_read Policy.default "openvpn.status".toList
      (FILE.mk ([V4STRING] ++
        "CLIENT_LIST,bob,10.8.0.2,1.2.3.4,500,600,Thu Jun 18 04:23:03 2015,1434601383,UNDEF\n".toList ::
          ["END\n".toList]) false)).out =
      [iostats_submit (some "bob".toList) none 500 600] :=
  ⟨⟨rfl, by decide, by decide, by decide⟩,
    (((client_list_line_record Policy.default "openvpn.status".toList [V2STRING]
      ["GLOBAL_STATS,Max bcast/mcast queue length,0\n".toList]
      "CLIENT_LIST,bob,10.8.0.2,1.2.3.4,500,600,Thu Jun 18 04:23:03 2015,1434601383\n".toList
      false rfl).1 (by decide)).1 (by decide)).trans (by decide),
    (((client_list_line_record Policy.default "openvpn.status".toList [V3STRING]
      ["END\n".toList]
      "CLIENT_LIST\tbob\t10.8.0.2\t1.2.3.4\t500\t600\tThu Jun 18 04:23:03 2015\t1434601383\n".toList
      false rfl).2.1 (by decide)).1 (by decide)).trans (by decide),
    (((client_list_line_record Policy.default "openvpn.status".toList [V4STRING]
      ["END\n".toList]
      "CLIENT_LIST,bob,10.8.0.2,1.2.3.4,500,600,Thu Jun 18 04:23:03 2015,1434601383,UNDEF\n".toList
      false rfl).2.2 (by decide)).1 (by decide)).trans (by decide)⟩

/-! ## Lemmas: lines that are not data records -/

theorem multi1_loop_short_line (p : Policy) (name : CStr) (pre : List CStr) (l : CStr)
    (st : multi1_state) (hl : (openvpn_strsplit l 10).length < 4) :
    (multi1_loop p name (pre ++ [l]) st).1 = (multi1_loop p name pre st).1 := by
  induction pre generalizing st with
  | nil =>
    have hv : l ≠ V1STRING := by
      intro h
      subst h
      revert hl
      decide
    rw [List.nil_append, multi1_loop, multi1_loop, multi1_loop, if_neg hv]
    dsimp only
    rw [if_pos hl]
    split_ifs <;> rfl
  | cons b pre ih =>
    rw [List.cons_append, multi1_loop, multi1_loop]
    dsimp only
    split_ifs <;> first | rfl | exact ih _

theorem multi1_loop_remove_short (p : Policy) (name : CStr) (pre post : List CStr) (l : CStr)
    (st : multi1_state) (hl : (openvpn_strsplit l 10).length < 4)
    (hr : l ≠ routing_table_line) :
    multi1_loop p name (pre ++ l :: post) st = multi1_loop p name (pre ++ post) st := by
  induction pre generalizing st with
  | nil =>
    have hv : l ≠ V1STRING := by
      intro h
      subst h
      revert hl
      decide
    have hr2 : ¬ l = "ROUTING TABLE\n".toList := hr
    rw [List.nil_append, List.nil_append, multi1_loop, if_neg hr2, if_neg hv]
    dsimp only
    rw [if_pos hl]
    split_ifs <;> rfl
  | cons b pre ih =>
    rw [List.cons_append, List.cons_append, multi1_loop, multi1_loop]
    dsimp only
    split_ifs <;> first | rfl | exact ih _

theorem single_line_skip (st : single_state) (l : CStr)
    (hl : (openvpn_strsplit l 4).length ≠ 2) : single_line st l = st := by
  unfold single_line
  dsimp only
  rw [if_pos hl]

theorem multi2_line_skip (p : Policy) (name : CStr) (st : multi_state) (l : CStr)
    (hl : (openvpn_strsplit l 10).length ≠ 8) : multi2_line p name st l = st := by
  unfold multi2_line
  dsimp only
  rw [if_pos hl]

theorem multi3_line_skip (p : Policy) (name : CStr) (st : multi_state) (l : CStr)
    (hl : (strsplit l 15).length ≠ 12) : multi3_line p name st l = st := by
  unfold multi3_line
  dsimp only
  rw [if_pos hl]

theorem multi4_line_skip (p : Policy) (name : CStr) (st : multi_state) (l : CStr)
    (hl : (openvpn_strsplit l 11).length ≠ 9) : multi4_line p name st l = st := by
  unfold multi4_line
  dsimp only
  rw [if_pos hl]

/-! ## C4: lines with another field count -/

/-- Counterexample to C4: in a status-version 1 file a client line with five
fields, not four, is treated as a data record: it gives a connection record
and is counted as a user. -/
theorem multi1_five_fields_counterexample :
    (openvpn_strsplit "alice,1.2.3.4:1194,1000,2000,Thu Jun 18 04:23:03 2015\n".toList 10).length
      = 5 ∧
    (multi1_read { Policy.default with collect_user_count := true } "openvpn.status".toList
      (FILE.mk [V1STRING, "alice,1.2.3.4:1194,1000,2000,Thu Jun 18 04:23:03 2015\n".toList]
        false)).out =
      [iostats_submit (some "alice".toList) none 1000 2000,
       numusers_submit (some "openvpn.status".toList) (some "openvpn.status".toList) 1] := by
  decide

/-- C4 (amended): a line whose field count differs from 2 (single mode), 8
(version 2), 12 (version 3) or 9 (version 4), or is below 4 (version 1), is
not treated as a data record: wherever it stands in a file, the loop leaves
the counters, the user count and the dispatched value lists as they were
before the line, and the read function returns and dispatches what it does
for the file without that line (in version 1 for a line other than
"ROUTING TABLE", which ends the parse). -/
theorem non_record_line_ignored (p : Policy) (name : CStr) (pre post : List CStr) (l : CStr)
    (err : Bool) :
    ((openvpn_strsplit l 4).length ≠ 2 →
      single_loop (pre ++ [l]) single_init = single_loop pre single_init ∧
      single_read p name (FILE.mk (pre ++ l :: post) err) =
        single_read p name (FILE.mk (pre ++ post) err)) ∧
    ((openvpn_strsplit l 10).length < 4 →
      (multi1_loop p name (pre ++ [l]) multi1_init).1 =
        (multi1_loop p name pre multi1_init).1 ∧
      (l ≠ routing_table_line →
        multi1_read p name (FILE.mk (pre ++ l :: post) err) =
          multi1_read p name (FILE.mk (pre ++ post) err))) ∧
    ((openvpn_strsplit l 10).length ≠ 8 →
      multi2_loop p name (pre ++ [l]) multi_init = multi2_loop p name pre multi_init ∧
      multi2_read p name (FILE.mk (pre ++ l :: post) err) =
        multi2_read p name (FILE.mk (pre ++ post) err)) ∧
    ((strsplit l 15).length ≠ 12 →
      multi3_loop p name (pre ++ [l]) multi_init = multi3_loop p name pre multi_init ∧
      multi3_read p name (FILE.mk (pre ++ l :: post) err) =
        multi3_read p name (FILE.mk (pre ++ post) err)) ∧
    ((openvpn_strsplit l 11).length ≠ 9 →
      multi4_loop p name (pre ++ [l]) multi_init = multi4_loop p name pre multi_init ∧
      multi4_read p name (FILE.mk (pre ++ l :: post) err) =
        multi4_read p name (FILE.mk (pre ++ post) err)) := by
  refine ⟨fun h => ⟨?_, ?_⟩,
    fun h => ⟨multi1_loop_short_line p name pre l _ h, fun hr => ?_⟩,
    fun h => ⟨?_, ?_⟩, fun h => ⟨?_, ?_⟩, fun h => ⟨?_, ?_⟩⟩
  · unfold single_loop
    rw [List.foldl_append, List.foldl_cons, List.foldl_nil, single_line_skip _ _ h]
  · unfold single_read single_loop
    dsimp only
    rw [List.foldl_append, List.foldl_cons, single_line_skip _ _ h, ← List.foldl_append]
  · unfold multi1_read
    dsimp only
    rw [multi1_loop_remove_short p name pre post l _ h hr]
  · unfold multi2_loop
    rw [List.foldl_append, List.foldl_cons, List.foldl_nil, multi2_line_skip _ _ _ _ h]
  · unfold multi2_read multi2_loop
    dsimp only
    rw [List.foldl_append, List.foldl_cons, multi2_line_skip _ _ _ _ h, ← List.foldl_append]
  · unfold multi3_loop
    rw [List.foldl_append, List.foldl_cons, List.foldl_nil, multi3_line_skip _ _ _ _ h]
  · unfold multi3_read multi3_loop
    dsimp only
    rw [List.foldl_append, List.foldl_cons, multi3_line_skip _ _ _ _ h, ← List.foldl_append]
  · unfold multi4_loop
    rw [List.foldl_append, List.foldl_cons, List.foldl_nil, multi4_line_skip _ _ _ _ h]
  · unfold multi4_read multi4_loop
    dsimp only
    rw [List.foldl_append, List.foldl_cons, multi4_line_skip _ _ _ _ h, ← List.foldl_append]

/-- Witness for C4 (amended): a client line cut down to three fields, placed
behind a version 1 header and a full client line, changes nothing in any of the
five loops, nor in what the five read functions return and dispatch. -/
theorem non_record_line_ignored_witness :
    ((openvpn_strsplit "bob,5.6.7.8:1194,30\n".toList 4).length ≠ 2 ∧
      (openvpn_strsplit "bob,5.6.7.8:1194,30\n".toList 10).length < 4 ∧
      "bob,5.6.7.8:1194,30\n".toList ≠ routing_table_line ∧
      (openvpn_strsplit "bob,5.6.7.8:1194,30\n".toList 10).length ≠ 8 ∧
      (strsplit "bob,5.6.7.8:1194,30\n".toList 15).length ≠ 12 ∧
      (openvpn_strsplit "bob,5.6.7.8:1194,30\n".toList 11).length ≠ 9) ∧
    (single_loop
        ([V1STRING, "alice,1.2.3.4:1194,1000,2000,Thu Jun 18 04:23:03 2015\n".toList] ++
          ["bob,5.6.7.8:1194,30\n".toList]) single_init) =
      (single_loop
        [V1STRING, "alice,1.2.3.4:1194,1000,2000,Thu Jun 18 04:23:03 2015\n".toList] single_init) ∧
    single_read Policy.default "openvpn.status".toList
        (FILE.mk ([V1STRING, "alice,1.2.3.4:1194,1000,2000,Thu Jun 18 04:23:03 2015\n".toList] ++
          "bob,5.6.7.8:1194,30\n".toList :: [routing_table_line]) false) =
      single_read Policy.default "openvpn.status".toList
        (FILE.mk ([V1STRING, "alice,1.2.3.4:1194,1000,2000,Thu Jun 18 04:23:03 2015\n".toList] ++
          [routing_table_line]) false) ∧
    (multi1_loop Policy.default "openvpn.status".toList
        ([V1STRING, "alice,1.2.3.4:1194,1000,2000,Thu Jun 18 04:23:03 2015\n".toList] ++
          ["bob,5.6.7.8:1194,30\n".toList]) multi1_init).1 =
      (multi1_loop Policy.default "openvpn.status".toList
        [V1STRING, "alice,1.2.3.4:1194,1000,2000,Thu Jun 18 04:23:03 2015\n".toList] multi1_init).1 ∧
    multi1_read Policy.default "openvpn.status".toList
        (FILE.mk ([V1STRING, "alice,1.2.3.4:1194,1000,2000,Thu Jun 18 04:23:03 2015\n".toList] ++
          "bob,5.6.7.8:1194,30\n".toList :: [routing_table_line]) false) =
      multi1_read Policy.default "openvpn.status".toList
        (FILE.mk ([V1STRING, "alice,1.2.3.4:1194,1000,2000,Thu Jun 18 04:23:03 2015\n".toList] ++
          [routing_table_line]) false) ∧
    (multi2_loop Policy.default "openvpn.status".toList
        ([V1STRING, "alice,1.2.3.4:1194,1000,2000,Thu Jun 18 04:23:03 2015\n".toList] ++
          ["bob,5.6.7.8:1194,30\n".toList]) multi_init) =
      (multi2_loop Policy.default "openvpn.status".toList
        [V1STRING, "alice,1.2.3.4:1194,1000,2000,Thu Jun 18 04:23:03 2015\n".toList] multi_init) ∧
    multi2_read Policy.default "openvpn.status".toList
        (FILE.mk ([V1STRING, "alice,1.2.3.4:1194,1000,2000,Thu Jun 18 04:23:03 2015\n".toList] ++
          "bob,5.6.7.8:1194,30\n".toList :: [routing_table_line]) false) =
      multi2_read Policy.default "openvpn.status".toList
        (FILE.mk ([V1STRING, "alice,1.2.3.4:1194,1000,2000,Thu Jun 18 04:23:03 2015\n".toList] ++
          [routing_table_line]) false) ∧
    (multi3_loop Policy.default "openvpn.status".toList
        ([V1STRING, "alice,1.2.3.4:1194,1000,2000,Thu Jun 18 04:23:03 2015\n".toList] ++
          ["bob,5.6.7.8:1194,30\n".toList]) multi_init) =
      (multi3_loop Policy.default "openvpn.status".toList
        [V1STRING, "alice,1.2.3.4:1194,1000,2000,Thu Jun 18 04:23:03 2015\n".toList] multi_init) ∧
    multi3_read Policy.default "openvpn.status".toList
        (FILE.mk ([V1STRING, "alice,1.2.3.4:1194,1000,2000,Thu Jun 18 04:23:03 2015\n".toList] ++
          "bob,5.6.7.8:1194,30\n".toList :: [routing_table_line]) false) =
      multi3_read Policy.default "openvpn.status".toList
        (FILE.mk ([V1STRING, "alice,1.2.3.4:1194,1000,2000,Thu Jun 18 04:23:03 2015\n".toList] ++
          [routing_table_line]) false) ∧
    (multi4_loop Policy.default "openvpn.status".toList
        ([V1STRING, "alice,1.2.3.4:1194,1000,2000,Thu Jun 18 04:23:03 2015\n".toList] ++
          ["bob,5.6.7.8:1194,30\n".toList]) multi_init) =
      (multi4_loop Policy.default "openvpn.status".toList
        [V1STRING, "alice,1.2.3.4:1194,1000,2000,Thu Jun 18 04:23:03 2015\n".toList] multi_init) ∧
    multi4_read Policy.default "openvpn.status".toList
        (FILE.mk ([V1STRING, "alice,1.2.3.4:1194,1000,2000,Thu Jun 18 04:23:03 2015\n".toList] ++
          "bob,5.6.7.8:1194,30\n".toList :: [routing_table_line]) false) =
      multi4_read Policy.default "openvpn.status".toList
        (FILE.mk ([V1STRING, "alice,1.2.3.4:1194,1000,2000,Thu Jun 18 04:23:03 2015\n".toList] ++
          [routing_table_line]) false) :=
  ⟨⟨by decide, by decide, by decide, by decide, by decide, by decide⟩,
    ((non_record_line_ignored Policy.default "openvpn.status".toList
      [V1STRING, "alice,1.2.3.4:1194,1000,2000,Thu Jun 18 04:23:03 2015\n".toList]
      [routing_table_line] "bob,5.6.7.8:1194,30\n".toList false).1 (by decide)).1,
    ((non_record_line_ignored Policy.default "openvpn.status".toList
      [V1STRING, "alice,1.2.3.4:1194,1000,2000,Thu Jun 18 04:23:03 2015\n".toList]
      [routing_table_line] "bob,5.6.7.8:1194,30\n".toList false).1 (by decide)).2,
    ((non_record_line_ignored Policy.default "openvpn.status".toList
      [V1STRING, "alice,1.2.3.4:1194,1000,2000,Thu Jun 18 04:23:03 2015\n".toList]
      [routing_table_line] "bob,5.6.7.8:1194,30\n".toList false).2.1 (by decide)).1,
    ((non_record_line_ignored Policy.default "openvpn.status".toList
      [V1STRING, "alice,1.2.3.4:1194,1000,2000,Thu Jun 18 04:23:03 2015\n".toList]
      [routing_table_line] "bob,5.6.7.8:1194,30\n".toList false).2.1 (by decide)).2 (by decide),
    ((non_record_line_ignored Policy.default "openvpn.status".toList
      [V1STRING, "alice,1.2.3.4:1194,1000,2000,Thu Jun 18 04:23:03 2015\n".toList]
      [routing_table_line] "bob,5.6.7.8:1194,30\n".toList false).2.2.1 (by decide)).1,
    ((non_record_line_ignored Policy.default "openvpn.status".toList
      [V1STRING, "alice,1.2.3.4:1194,1000,2000,Thu Jun 18 04:23:03 2015\n".toList]
      [routing_table_line] "bob,5.6.7.8:1194,30\n".toList false).2.2.1 (by decide)).2,
    ((non_record_line_ignored Policy.default "openvpn.status".toList
      [V1STRING, "alice,1.2.3.4:1194,1000,2000,Thu Jun 18 04:23:03 2015\n".toList]
      [routing_table_line] "bob,5.6.7.8:1194,30\n".toList false).2.2.2.1 (by decide)).1,
    ((non_record_line_ignored Policy.default "openvpn.status".toList
      [V1STRING, "alice,1.2.3.4:1194,1000,2000,Thu Jun 18 04:23:03 2015\n".toList]
      [routing_table_line] "bob,5.6.7.8:1194,30\n".toList false).2.2.2.1 (by decide)).2,
    ((non_record_line_ignored Policy.default "openvpn.status".toList
      [V1STRING, "alice,1.2.3.4:1194,1000,2000,Thu Jun 18 04:23:03 2015\n".toList]
      [routing_table_line] "bob,5.6.7.8:1194,30\n".toList false).2.2.2.2 (by decide)).1,
    ((non_record_line_ignored Policy.default "openvpn.status".toList
      [V1STRING, "alice,1.2.3.4:1194,1000,2000,Thu Jun 18 04:23:03 2015\n".toList]
      [routing_table_line] "bob,5.6.7.8:1194,30\n".toList false).2.2.2.2 (by decide)).2⟩

/-! ## Lemmas: 64-bit arithmetic and the single-mode counters -/

theorem overhead_int (a b c d : Nat) :
    ((derive_sub (derive_add (derive_sub a b) c) d : Nat) : Int) =
      ((((a : Int) - b) + c) - d) % 2 ^ 64 := by
  unfold derive_sub derive_add
  omega

theorem overhead_exact (a b c d : Nat) (ha : a < 2 ^ 63) (hc : c < 2 ^ 63)
    (hd : d < 2 ^ 63) (hba : b ≤ a) (hcd : c ≤ d) (hdc : d - c ≤ a - b) :
    derive_sub a b = a - b ∧
    derive_add (derive_sub a b) c = a - b + c ∧
    d ≤ a - b + c ∧
    derive_sub (derive_add (derive_sub a b) c) d = a - b + c - d := by
  unfold derive_sub derive_add
  omega

/-! ## C5: the overhead values -/

/-- C5: the "overhead" value list of `single_read` carries
rx = ((link_rx - pre_decompress) + post_decompress) - tun_rx and
tx = ((link_tx - post_compress) + pre_compress) - tun_tx, in 64-bit arithmetic
(the integer value modulo 2 ^ 64), the eight counters being those the loop
parsed from the file; with link_rx = 1000, pre_decompress = 200,
post_decompress = 150, tun_rx = 950, tun_tx = 900, pre_compress = 300,
post_compress = 250, link_tx = 850 both values are 0. -/
theorem single_read_overhead (p : Policy) (name : CStr) (fh : FILE) :
    (single_read p name fh).out[1]? =
      some (iostats_submit (some name) (some "overhead".toList)
        (overhead_rx (single_loop fh.lines single_init))
        (overhead_tx (single_loop fh.lines single_init))) ∧
    ((overhead_rx (single_loop fh.lines single_init) : Nat) : Int) =
      ((((single_loop fh.lines single_init).link_rx : Int) -
          (single_loop fh.lines single_init).pre_decompress +
          (single_loop fh.lines single_init).post_decompress) -
        (single_loop fh.lines single_init).tun_rx) % 2 ^ 64 ∧
    ((overhead_tx (single_loop fh.lines single_init) : Nat) : Int) =
      ((((single_loop fh.lines single_init).link_tx : Int) -
          (single_loop fh.lines single_init).post_compress +
          (single_loop fh.lines single_init).pre_compress) -
        (single_loop fh.lines single_init).tun_tx) % 2 ^ 64 ∧
    (single_loop fh.lines single_init =
        { link_rx := 1000, link_tx := 850, tun_rx := 950, tun_tx := 900,
          pre_compress := 300, post_compress := 250,
          pre_decompress := 200, post_decompress := 150 } →
      (single_read p name fh).out[1]? =
        some (iostats_submit (some name) (some "overhead".toList) 0 0)) := by
  have hout : (single_read p name fh).out[1]? =
      some (iostats_submit (some name) (some "overhead".toList)
        (overhead_rx (single_loop fh.lines single_init))
        (overhead_tx (single_loop fh.lines single_init))) := by
    unfold single_read
    cases p.collect_compression <;> rfl
  refine ⟨hout, overhead_int _ _ _ _, overhead_int _ _ _ _, fun h => ?_⟩
  rw [hout, h]
  rfl

/-- Witness for C5: a single-mode status file with the eight counters of the
example. -/
theorem single_read_overhead_witness :
    single_loop
        ["OpenVPN STATISTICS\n".toList, "Updated,Thu Jun 18 08:12:15 2015\n".toList,
         "TUN/TAP read bytes,900\n".toList, "TUN/TAP write bytes,950\n".toList,
         "TCP/UDP read bytes,1000\n".toList, "TCP/UDP write bytes,850\n".toList,
         "Auth read bytes,960\n".toList,
         "pre-compress bytes,300\n".toList, "post-compress bytes,250\n".toList,
         "pre-decompress bytes,200\n".toList, "post-decompress bytes,150\n".toList,
         "END\n".toList] single_init =
      { link_rx := 1000, link_tx := 850, tun_rx := 950, tun_tx := 900,
        pre_compress := 300, post_compress := 250,
        pre_decompress := 200, post_decompress := 150 } ∧
    (single_read Policy.default "openvpn.status".toList
      (FILE.mk
        ["OpenVPN STATISTICS\n".toList, "Updated,Thu Jun 18 08:12:15 2015\n".toList,
         "TUN/TAP read bytes,900\n".toList, "TUN/TAP write bytes,950\n".toList,
         "TCP/UDP read bytes,1000\n".toList, "TCP/UDP write bytes,850\n".toList,
         "Auth read bytes,960\n".toList,
         "pre-compress bytes,300\n".toList, "post-compress bytes,250\n".toList,
         "pre-decompress bytes,200\n".toList, "post-decompress bytes,150\n".toList,
         "END\n".toList] false)).out[1]? =
      some (iostats_submit (some "openvpn.status".toList) (some "overhead".toList) 0 0) :=
  ⟨by decide,
    (single_read_overhead Policy.default "openvpn.status".toList
      (FILE.mk
        ["OpenVPN STATISTICS\n".toList, "Updated,Thu Jun 18 08:12:15 2015\n".toList,
         "TUN/TAP read bytes,900\n".toList, "TUN/TAP write bytes,950\n".toList,
         "TCP/UDP read bytes,1000\n".toList, "TCP/UDP write bytes,850\n".toList,
         "Auth read bytes,960\n".toList,
         "pre-compress bytes,300\n".toList, "post-compress bytes,250\n".toList,
         "pre-decompress bytes,200\n".toList, "post-decompress bytes,150\n".toList,
         "END\n".toList] false)).2.2.2 (by decide)⟩

/-! ## C6: no wrap-around in the overhead computation -/

/-- C6: when the eight counters parsed from a single-mode file are
non-negative as `long long` (below 2 ^ 63) and consistent
(pre_decompress <= link_rx, post_decompress <= tun_rx,
tun_rx - post_decompress <= link_rx - pre_decompress, and symmetrically
post_compress <= link_tx, pre_compress <= tun_tx,
tun_tx - pre_compress <= link_tx - post_compress), every intermediate value of
the overhead computation in the order ((a - b) + c) - d is non-negative and the
64-bit result of each step is the exact integer value, so the dispatched
overhead is link - stage_out + stage_in - tun without wrap-around. -/
theorem single_read_overhead_no_wrap (p : Policy) (name : CStr) (fh : FILE) (st : single_state)
    (hst : single_loop fh.lines single_init = st)
    (hnn : st.link_rx < 2 ^ 63 ∧ st.link_tx < 2 ^ 63 ∧ st.tun_rx < 2 ^ 63 ∧ st.tun_tx < 2 ^ 63 ∧
      st.pre_compress < 2 ^ 63 ∧ st.post_compress < 2 ^ 63 ∧
      st.pre_decompress < 2 ^ 63 ∧ st.post_decompress < 2 ^ 63)
    (hrx : st.pre_decompress ≤ st.link_rx ∧ st.post_decompress ≤ st.tun_rx ∧
      st.tun_rx - st.post_decompress ≤ st.link_rx - st.pre_decompress)
    (htx : st.post_compress ≤ st.link_tx ∧ st.pre_compress ≤ st.tun_tx ∧
      st.tun_tx - st.pre_compress ≤ st.link_tx - st.post_compress) :
    ((derive_sub st.link_rx st.pre_decompress : Nat) : Int) =
        (st.link_rx : Int) - st.pre_decompress ∧
      (0 : Int) ≤ (st.link_rx : Int) - st.pre_decompress ∧
    ((derive_add (derive_sub st.link_rx st.pre_decompress) st.post_decompress : Nat) : Int) =
        (st.link_rx : Int) - st.pre_decompress + st.post_decompress ∧
      (0 : Int) ≤ (st.link_rx : Int) - st.pre_decompress + st.post_decompress ∧
    ((overhead_rx st : Nat) : Int) =
        (st.link_rx : Int) - st.pre_decompress + st.post_decompress - st.tun_rx ∧
      (0 : Int) ≤ (st.link_rx : Int) - st.pre_decompress + st.post_decompress - st.tun_rx ∧
    ((derive_sub st.link_tx st.post_compress : Nat) : Int) =
        (st.link_tx : Int) - st.post_compress ∧
      (0 : Int) ≤ (st.link_tx : Int) - st.post_compress ∧
    ((derive_add (derive_sub st.link_tx st.post_compress) st.pre_compress : Nat) : Int) =
        (st.link_tx : Int) - st.post_compress + st.pre_compress ∧
      (0 : Int) ≤ (st.link_tx : Int) - st.post_compress + st.pre_compress ∧
    ((overhead_tx st : Nat) : Int) =
        (st.link_tx : Int) - st.post_compress + st.pre_compress - st.tun_tx ∧
      (0 : Int) ≤ (st.link_tx : Int) - st.post_compress + st.pre_compress - st.tun_tx ∧
    (single_read p name fh).out[1]? =
      some (iostats_submit (some name) (some "overhead".toList)
        (st.link_rx - st.pre_decompress + st.post_decompress - st.tun_rx)
        (st.link_tx - st.post_compress + st.pre_compress - st.tun_tx)) := by
  obtain ⟨h1, h2, h3, h4, h5, h6, h7, h8⟩ := hnn
  obtain ⟨r1, r2, r3⟩ := hrx
  obtain ⟨t1, t2, t3⟩ := htx
  have hr := overhead_exact st.link_rx st.pre_decompress st.post_decompress st.tun_rx
    h1 h8 h3 r1 r2 r3
  have ht := overhead_exact st.link_tx st.post_compress st.pre_compress st.tun_tx
    h2 h5 h4 t1 t2 t3
  have hout : (single_read p name fh).out[1]? =
      some (iostats_submit (some name) (some "overhead".toList)
        (overhead_rx st) (overhead_tx st)) := by
    unfold single_read
    rw [hst]
    cases p.collect_compression <;> rfl
  have horx : overhead_rx st =
      st.link_rx - st.pre_decompress + st.post_decompress - st.tun_rx := hr.2.2.2
  have hotx : overhead_tx st =
      st.link_tx - st.post_compress + st.pre_compress - st.tun_tx := ht.2.2.2
  refine ⟨?_, ?_, ?_, ?_, ?_, ?_, ?_, ?_, ?_, ?_, ?_, ?_, ?_⟩
  · rw [hr.1]; omega
  · omega
  · rw [hr.2.1]; omega
  · omega
  · rw [horx]; omega
  · omega
  · rw [ht.1]; omega
  · omega
  · rw [ht.2.1]; omega
  · omega
  · rw [hotx]; omega
  · omega
  · rw [hout, horx, hotx]

/-- Witness for C6: a single-mode file with link_rx = 5000, pre_decompress = 200,
post_decompress = 350, tun_rx = 4000, link_tx = 6000, post_compress = 250,
pre_compress = 300, tun_tx = 5000 dispatches the overhead (1150, 1050). -/
theorem single_read_overhead_no_wrap_witness :
    (single_loop
        ["OpenVPN STATISTICS\n".toList, "Updated,Thu Jun 18 08:12:15 2015\n".toList,
         "TUN/TAP read bytes,5000\n".toList, "TUN/TAP write bytes,4000\n".toList,
         "TCP/UDP read bytes,5000\n".toList, "TCP/UDP write bytes,6000\n".toList,
         "pre-compress bytes,300\n".toList, "post-compress bytes,250\n".toList,
         "pre-decompress bytes,200\n".toList, "post-decompress bytes,350\n".toList,
         "END\n".toList] single_init =
        { link_rx := 5000, link_tx := 6000, tun_rx := 4000, tun_tx := 5000,
          pre_compress := 300, post_compress := 250,
          pre_decompress := 200, post_decompress := 350 } ∧
      ((5000 : Nat) < 2 ^ 63 ∧ (6000 : Nat) < 2 ^ 63 ∧ (4000 : Nat) < 2 ^ 63 ∧
        (5000 : Nat) < 2 ^ 63 ∧ (300 : Nat) < 2 ^ 63 ∧ (250 : Nat) < 2 ^ 63 ∧
        (200 : Nat) < 2 ^ 63 ∧ (350 : Nat) < 2 ^ 63) ∧
      ((200 : Nat) ≤ 5000 ∧ (350 : Nat) ≤ 4000 ∧ (4000 : Nat) - 350 ≤ 5000 - 200) ∧
      ((250 : Nat) ≤ 6000 ∧ (300 : Nat) ≤ 5000 ∧ (5000 : Nat) - 300 ≤ 6000 - 250)) ∧
    (single_read Policy.default "openvpn.status".toList
      (FILE.mk
        ["OpenVPN STATISTICS\n".toList, "Updated,Thu Jun 18 08:12:15 2015\n".toList,
         "TUN/TAP read bytes,5000\n".toList, "TUN/TAP write bytes,4000\n".toList,
         "TCP/UDP read bytes,5000\n".toList, "TCP/UDP write bytes,6000\n".toList,
         "pre-compress bytes,300\n".toList, "post-compress bytes,250\n".toList,
         "pre-decompress bytes,200\n".toList, "post-decompress bytes,350\n".toList,
         "END\n".toList] false)).out[1]? =
      some (iostats_submit (some "openvpn.status".toList) (some "overhead".toList) 1150 1050) :=
  ⟨⟨by decide, by decide, by decide, by decide⟩,
    (single_read_overhead_no_wrap Policy.default "openvpn.status".toList
      (FILE.mk
        ["OpenVPN STATISTICS\n".toList, "Updated,Thu Jun 18 08:12:15 2015\n".toList,
         "TUN/TAP read bytes,5000\n".toList, "TUN/TAP write bytes,4000\n".toList,
         "TCP/UDP read bytes,5000\n".toList, "TCP/UDP write bytes,6000\n".toList,
         "pre-compress bytes,300\n".toList, "post-compress bytes,250\n".toList,
         "pre-decompress bytes,200\n".toList, "post-decompress bytes,350\n".toList,
         "END\n".toList] false)
      { link_rx := 5000, link_tx := 6000, tun_rx := 4000, tun_tx := 5000,
        pre_compress := 300, post_compress := 250,
        pre_decompress := 200, post_decompress := 350 }
      (by decide) (by decide) (by decide) (by decide)).2.2.2.2.2.2.2.2.2.2.2.2⟩

/-! ## C7: user count without per-connection metrics -/

/-- Counterexample to C7: with per-connection metrics disabled and user-count
enabled, `multi1_read` on a stream that delivers the header and three client
lines and then fails with a read error dispatches nothing at all. -/
theorem multi1_read_error_counterexample :
    (multi1_qualifying
      [V1STRING, "alice,1.2.3.4:1194,1000,2000,Thu Jun 18 04:23:03 2015\n".toList,
       "bob,5.6.7.8:1194,30,40,Thu Jun 18 04:08:39 2015\n".toList,
       "carol,9.9.9.9:1194,5,6,Thu Jun 18 05:00:00 2015\n".toList]).length = 3 ∧
    (multi1_read
      { Policy.default with collect_user_count := true, collect_individual_users := false }
      "openvpn.status".toList
      (FILE.mk
        [V1STRING, "alice,1.2.3.4:1194,1000,2000,Thu Jun 18 04:23:03 2015\n".toList,
         "bob,5.6.7.8:1194,30,40,Thu Jun 18 04:08:39 2015\n".toList,
         "carol,9.9.9.9:1194,5,6,Thu Jun 18 05:00:00 2015\n".toList] true)).out = [] := by
  decide

/-- C7 (amended): for every multi-mode parser and every file read without a
read error, with per-connection metrics disabled and user-count enabled the
parser dispatches exactly one value list, of type users, whose gauge is the
number of qualifying connection lines of the file, and no `if_octets` value
list. With user-count disabled no parser dispatches a users value list,
whatever the stream. -/
theorem users_only_policy (p : Policy) (name : CStr) (fh : FILE) :
    (p.collect_individual_users = false → p.collect_user_count = true → fh.error = false →
      (multi1_read p name fh).out =
        [numusers_submit (some name) (some name)
          ((multi1_qualifying fh.lines).length : Int)] ∧
      (multi2_read p name fh).out =
        [numusers_submit (some name) (some name)
          ((fh.lines.filter multi2_qualifies).length : Int)] ∧
      (multi3_read p name fh).out =
        [numusers_submit (some name) (some name)
          ((fh.lines.filter multi3_qualifies).length : Int)] ∧
      (multi4_read p name fh).out =
        [numusers_submit (some name) (some name)
          ((fh.lines.filter multi4_qualifies).length : Int)]) ∧
    (p.collect_user_count = false →
      (∀ v ∈ (multi1_read p name fh).out, v.type ≠ "users") ∧
      (∀ v ∈ (multi2_read p name fh).out, v.type ≠ "users") ∧
      (∀ v ∈ (multi3_read p name fh).out, v.type ≠ "users") ∧
      (∀ v ∈ (multi4_read p name fh).out, v.type ≠ "users")) := by
  constructor
  · intro hi hc he
    rw [multi1_read_out, multi2_read_out, multi3_read_out, multi4_read_out, hi, hc, he]
    exact ⟨by simp, by simp, by simp, by simp⟩
  · intro hc
    have key : ∀ (xs : List CStr) (o : CStr → value_list_t),
        (∀ l, (o l).type = "if_octets") →
        ∀ v ∈ (if p.collect_individual_users then xs.map o else []) ++
          (if false then [numusers_submit (some name) (some name) (xs.length : Int)] else []),
          v.type ≠ "users" := by
      intro xs o ho v hv
      cases hi : p.collect_individual_users
      · rw [hi] at hv; simp at hv
      · rw [hi] at hv
        simp only [if_true, Bool.false_eq_true, if_false, List.append_nil] at hv
        obtain ⟨l, _, rfl⟩ := List.mem_map.1 hv
        rw [ho l]
        decide
    rw [multi1_read_out, multi2_read_out, multi3_read_out, multi4_read_out, hc]
    exact ⟨key _ _ (fun _ => rfl), key _ _ (fun _ => rfl), key _ _ (fun _ => rfl),
      key _ _ (fun _ => rfl)⟩

/-- Witness for C7 (amended): files with three qualifying client lines, read to
end-of-file, give the single users value 3 in `multi1_read` and `multi2_read`. -/
theorem users_only_policy_witness :
    (({ Policy.default with collect_user_count := true, collect_individual_users := false } :
        Policy).collect_individual_users = false ∧
      ({ Policy.default with collect_user_count := true, collect_individual_users := false } :
        Policy).collect_user_count = true ∧
      (FILE.mk
        ["OpenVPN CLIENT LIST\n".toList, V1STRING,
         "alice,1.2.3.4:1194,1000,2000,Thu Jun 18 04:23:03 2015\n".toList,
         "bob,5.6.7.8:1194,30,40,Thu Jun 18 04:08:39 2015\n".toList,
         "carol,9.9.9.9:1194,5,6,Thu Jun 18 05:00:00 2015\n".toList,
         routing_table_line,
         "10.8.0.2,alice,1.2.3.4:1194,Thu Jun 18 08:12:09 2015\n".toList] false).error = false ∧
      (FILE.mk
        [V2STRING,
         "CLIENT_LIST,alice,10.8.0.2,1.2.3.4,1000,2000,Thu Jun 18 04:23:03 2015,1434601383\n".toList,
         "CLIENT_LIST,bob,10.8.0.3,5.6.7.8,500,600,Thu Jun 18 04:23:03 2015,1434601383\n".toList,
         "CLIENT_LIST,carol,10.8.0.4,9.9.9.9,5,6,Thu Jun 18 05:00:00 2015,1434603600\n".toList,
         "ROUTING_TABLE,10.8.0.2,alice,1.2.3.4,Thu Jun 18 08:12:09 2015,1434615129\n".toList,
         "END\n".toList] false).error = false) ∧
    (multi1_read
      { Policy.default with collect_user_count := true, collect_individual_users := false }
      "openvpn.status".toList
      (FILE.mk
        ["OpenVPN CLIENT LIST\n".toList, V1STRING,
         "alice,1.2.3.4:1194,1000,2000,Thu Jun 18 04:23:03 2015\n".toList,
         "bob,5.6.7.8:1194,30,40,Thu Jun 18 04:08:39 2015\n".toList,
         "carol,9.9.9.9:1194,5,6,Thu Jun 18 05:00:00 2015\n".toList,
         routing_table_line,
         "10.8.0.2,alice,1.2.3.4:1194,Thu Jun 18 08:12:09 2015\n".toList] false)).out =
      [numusers_submit (some "openvpn.status".toList) (some "openvpn.status".toList) 3] ∧
    (multi2_read
      { Policy.default with collect_user_count := true, collect_individual_users := false }
      "openvpn.status".toList
      (FILE.mk
        [V2STRING,
         "CLIENT_LIST,alice,10.8.0.2,1.2.3.4,1000,2000,Thu Jun 18 04:23:03 2015,1434601383\n".toList,
         "CLIENT_LIST,bob,10.8.0.3,5.6.7.8,500,600,Thu Jun 18 04:23:03 2015,1434601383\n".toList,
         "CLIENT_LIST,carol,10.8.0.4,9.9.9.9,5,6,Thu Jun 18 05:00:00 2015,1434603600\n".toList,
         "ROUTING_TABLE,10.8.0.2,alice,1.2.3.4,Thu Jun 18 08:12:09 2015,1434615129\n".toList,
         "END\n".toList] false)).out =
      [numusers_submit (some "openvpn.status".toList) (some "openvpn.status".toList) 3] :=
  ⟨⟨rfl, rfl, rfl, rfl⟩,
    ((users_only_policy
      { Policy.default with collect_user_count := true, collect_individual_users := false }
      "openvpn.status".toList
      (FILE.mk
        ["OpenVPN CLIENT LIST\n".toList, V1STRING,
         "alice,1.2.3.4:1194,1000,2000,Thu Jun 18 04:23:03 2015\n".toList,
         "bob,5.6.7.8:1194,30,40,Thu Jun 18 04:08:39 2015\n".toList,
         "carol,9.9.9.9:1194,5,6,Thu Jun 18 05:00:00 2015\n".toList,
         routing_table_line,
         "10.8.0.2,alice,1.2.3.4:1194,Thu Jun 18 08:12:09 2015\n".toList] false)).1
      rfl rfl rfl).1.trans (by decide),
    ((users_only_policy
      { Policy.default with collect_user_count := true, collect_individual_users := false }
      "openvpn.status".toList
      (FILE.mk
        [V2STRING,
         "CLIENT_LIST,alice,10.8.0.2,1.2.3.4,1000,2000,Thu Jun 18 04:23:03 2015,1434601383\n".toList,
         "CLIENT_LIST,bob,10.8.0.3,5.6.7.8,500,600,Thu Jun 18 04:23:03 2015,1434601383\n".toList,
         "CLIENT_LIST,carol,10.8.0.4,9.9.9.9,5,6,Thu Jun 18 05:00:00 2015,1434603600\n".toList,
         "ROUTING_TABLE,10.8.0.2,alice,1.2.3.4,Thu Jun 18 08:12:09 2015,1434615129\n".toList,
         "END\n".toList] false)).1
      rfl rfl rfl).2.1.trans (by decide)⟩

/-! ## Lemmas: a qualifying line at the end of a prefix -/

/-- C9: for every multi-mode parser, policy and stream, the value lists
dispatched are the per-connection observations of the qualifying lines, in the
order of these lines in the file (none when per-connection metrics are
disabled), followed by at most one users value list, which is therefore last
when present: it is there exactly when user-count is enabled and, for
`multi1_read`, the stream did not end in a read error. -/
theorem multi_read_emission_order (p : Policy) (name : CStr) (fh : FILE) :
    (multi1_read p name fh).out =
      (if p.collect_individual_users = true then
         (multi1_qualifying fh.lines).map (multi1_client p name)
       else []) ++
      (if p.collect_user_count = true ∧ ¬ (routing_table_line ∉ fh.lines ∧ fh.error = true) then
         [numusers_submit (some name) (some name) ((multi1_qualifying fh.lines).length : Int)]
       else []) ∧
    (multi2_read p name fh).out =
      (if p.collect_individual_users = true then
         (fh.lines.filter multi2_qualifies).map (multi2_client p name)
       else []) ++
      (if p.collect_user_count = true then
         [numusers_submit (some name) (some name)
           ((fh.lines.filter multi2_qualifies).length : Int)]
       else []) ∧
    (multi3_read p name fh).out =
      (if p.collect_individual_users = true then
         (fh.lines.filter multi3_qualifies).map (multi3_client p name)
       else []) ++
      (if p.collect_user_count = true then
         [numusers_submit (some name) (some name)
           ((fh.lines.filter multi3_qualifies).length : Int)]
       else []) ∧
    (multi4_read p name fh).out =
      (if p.collect_individual_users = true then
         (fh.lines.filter multi4_qualifies).map (multi4_client p name)
       else []) ++
      (if p.collect_user_count = true then
         [numusers_submit (some name) (some name)
           ((fh.lines.filter multi4_qualifies).length : Int)]
       else []) ∧
    (∀ l, (multi1_client p name l).type = "if_octets" ∧
      (multi2_client p name l).type = "if_octets" ∧
      (multi3_client p name l).type = "if_octets" ∧
      (multi4_client p name l).type = "if_octets") ∧
    (∀ n, (numusers_submit (some name) (some name) n).type = "users") := by
  refine ⟨?_, multi2_read_out p name fh, multi3_read_out p name fh, multi4_read_out p name fh,
    fun _ => ⟨rfl, rfl, rfl, rfl⟩, fun _ => rfl⟩
  rw [multi1_read_out]
  congr 1
  cases p.collect_user_count <;> cases fh.error <;>
    by_cases h : routing_table_line ∈ fh.lines <;> simp [h]

/-! ## C10: what `single_read` dispatches -/

theorem multi2_loop_read (p : Policy) (name : CStr) (lines : List CStr) :
    (multi2_loop p name lines multi_init).read = 0 ∨
      (multi2_loop p name lines multi_init).read = 1 := by
  rw [multi2_loop_eq]
  by_cases h : lines.filter multi2_qualifies = [] <;> simp [h, multi_init]

theorem multi3_loop_read (p : Policy) (name : CStr) (lines : List CStr) :
    (multi3_loop p name lines multi_init).read = 0 ∨
      (multi3_loop p name lines multi_init).read = 1 := by
  rw [multi3_loop_eq]
  by_cases h : lines.filter multi3_qualifies = [] <;> simp [h, multi_init]

theorem multi4_loop_read (p : Policy) (name : CStr) (lines : List CStr) :
    (multi4_loop p name lines multi_init).read = 0 ∨
      (multi4_loop p name lines multi_init).read = 1 := by
  rw [multi4_loop_eq]
  by_cases h : lines.filter multi4_qualifies = [] <;> simp [h, multi_init]

theorem multi_finish_ret (p : Policy) (name : CStr) (st : multi_state)
    (h : st.read = 0 ∨ st.read = 1) :
    (multi_finish p name st).ret = 0 ∨ (multi_finish p name st).ret = 1 := by
  unfold multi_finish
  cases p.collect_user_count
  · simpa using h
  · simp

theorem multi1_read_ret (p : Policy) (name : CStr) (fh : FILE) :
    (multi1_read p name fh).ret = 0 ∨ (multi1_read p name fh).ret = 1 := by
  unfold multi1_read
  dsimp only
  split_ifs <;> simp

theorem vpn_read_ret (p : Policy) (e : vpn_status_t) (fh : FILE) :
    (vpn_read p e fh).ret = 0 ∨ (vpn_read p e fh).ret = 1 := by
  unfold vpn_read
  split_ifs
  · exact Or.inr rfl
  · exact multi1_read_ret p e.name fh
  · exact multi_finish_ret p e.name _ (multi2_loop_read p e.name fh.lines)
  · exact multi_finish_ret p e.name _ (multi3_loop_read p e.name fh.lines)
  · exact multi_finish_ret p e.name _ (multi4_loop_read p e.name fh.lines)
  · exact Or.inl rfl

theorem openvpn_read_loop_eq (fopen : CStr → Option FILE) (p : Policy) (l : List vpn_status_t)
    (read : Int) (out : List value_list_t) :
    openvpn_read_loop fopen p l.length l read out =
      some (read + ((opened fopen l).map (fun x => (vpn_read p x.1 x.2).ret)).sum,
        out ++ ((opened fopen l).map (fun x => (vpn_read p x.1 x.2).out)).flatten) := by
  induction l generalizing read out with
  | nil => simp [openvpn_read_loop, opened]
  | cons e rest ih =>
    rw [List.length_cons, openvpn_read_loop]
    cases h : fopen e.file with
    | none =>
      simp only [opened, List.filterMap_cons, h, Option.map_none']
      exact ih read out
    | some fh =>
      simp only [opened, List.filterMap_cons, h, Option.map_some', List.map_cons, List.sum_cons,
        List.flatten_cons]
      rw [ih]
      simp only [opened, add_assoc, List.append_assoc]

theorem sum_rets_ne_zero (p : Policy) (xs : List (vpn_status_t × FILE)) :
    0 ≤ (xs.map (fun x => (vpn_read p x.1 x.2).ret)).sum ∧
    ((xs.map (fun x => (vpn_read p x.1 x.2).ret)).sum ≠ 0 ↔
      ∃ x ∈ xs, (vpn_read p x.1 x.2).ret ≠ 0) := by
  induction xs with
  | nil => simp
  | cons x xs ih =>
    simp only [List.map_cons, List.sum_cons, List.mem_cons, exists_eq_or_imp]
    obtain ⟨h0, h1⟩ := ih
    rcases vpn_read_ret p x.1 x.2 with h | h
    · rw [h]
      simp only [zero_add, ne_eq, not_true_eq_false, false_or]
      exact ⟨h0, h1⟩
    · rw [h]
      refine ⟨by omega, ?_⟩
      constructor
      · intro _
        exact Or.inl (by decide)
      · intro _
        omega

theorem mem_opened (fopen : CStr → Option FILE) (l : List vpn_status_t)
    (x : vpn_status_t × FILE) :
    x ∈ opened fopen l ↔ x.1 ∈ l ∧ fopen x.1.file = some x.2 := by
  unfold opened
  rw [List.mem_filterMap]
  constructor
  · rintro ⟨e, he, h⟩
    cases hf : fopen e.file with
    | none => rw [hf] at h; simp at h
    | some fh =>
      rw [hf] at h
      simp only [Option.map_some', Option.some.injEq] at h
      subst h
      exact ⟨he, hf⟩
  · rintro ⟨he, hf⟩
    exact ⟨x.1, he, by rw [hf]; rfl⟩

theorem opened_skip (fopen : CStr → Option FILE) (pre post : List vpn_status_t)
    (e : vpn_status_t) (h : fopen e.file = none) :
    opened fopen (pre ++ e :: post) = opened fopen (pre ++ post) := by
  unfold opened
  rw [List.filterMap_append, List.filterMap_cons, h, List.filterMap_append]
  rfl

/-! ## C11: the result of a collection cycle -/

/-- C11: for every list of configured sources, `openvpn_read` returns 0 if and
only if some source opens and the read function selected by its stored version
returns non-zero, and returns -1 otherwise, in particular for the empty list;
what it dispatches is what the selected read functions of the sources that
open dispatch, in list order, so a source that does not open is skipped: the
cycle is the cycle of the list without it. -/
theorem openvpn_read_result (fopen : CStr → Option FILE) (p : Policy) (l : List vpn_status_t) :
    ∃ r, openvpn_read fopen (plugin_state.mk l l.length p) = some r ∧
      (r.ret = 0 ↔ ∃ e ∈ l, ∃ fh, fopen e.file = some fh ∧
        ((e.version = SINGLE ∧ (single_read p e.name fh).ret ≠ 0) ∨
         (e.version = MULTI1 ∧ (multi1_read p e.name fh).ret ≠ 0) ∨
         (e.version = MULTI2 ∧ (multi2_read p e.name fh).ret ≠ 0) ∨
         (e.version = MULTI3 ∧ (multi3_read p e.name fh).ret ≠ 0) ∨
         (e.version = MULTI4 ∧ (multi4_read p e.name fh).ret ≠ 0))) ∧
      (r.ret ≠ 0 → r.ret = -1) ∧
      (l = [] → r.ret = -1) ∧
      r.out = ((opened fopen l).map (fun x => (vpn_read p x.1 x.2).out)).flatten ∧
      (∀ pre post e, l = pre ++ e :: post → fopen e.file = none →
        openvpn_read fopen (plugin_state.mk (pre ++ post) (pre ++ post).length p) = some r) := by
  have hrun : ∀ l : List vpn_status_t,
      openvpn_read fopen (plugin_state.mk l l.length p) =
        some { ret := if ((opened fopen l).map (fun x => (vpn_read p x.1 x.2).ret)).sum ≠ 0
                 then 0 else -1,
               out := ((opened fopen l).map (fun x => (vpn_read p x.1 x.2).out)).flatten } := by
    intro l
    unfold openvpn_read
    dsimp only
    rw [openvpn_read_loop_eq]
    simp
  refine ⟨_, hrun l, ?_, ?_, ?_, rfl, ?_⟩
  · dsimp only
    have hs := (sum_rets_ne_zero p (opened fopen l)).2
    constructor
    · intro h
      have hne : ((opened fopen l).map (fun x => (vpn_read p x.1 x.2).ret)).sum ≠ 0 := by
        intro hc
        rw [if_neg (not_not.2 hc)] at h
        exact absurd h (by decide)
      obtain ⟨x, hx, hr⟩ := hs.1 hne
      obtain ⟨hmem, hopen⟩ := (mem_opened fopen l x).1 hx
      refine ⟨x.1, hmem, x.2, hopen, ?_⟩
      unfold vpn_read at hr
      split_ifs at hr with h1 h2 h3 h4 h5
      · exact Or.inl ⟨h1, hr⟩
      · exact Or.inr (Or.inl ⟨h2, hr⟩)
      · exact Or.inr (Or.inr (Or.inl ⟨h3, hr⟩))
      · exact Or.inr (Or.inr (Or.inr (Or.inl ⟨h4, hr⟩)))
      · exact Or.inr (Or.inr (Or.inr (Or.inr ⟨h5, hr⟩)))
      · exact absurd rfl hr
    · rintro ⟨e, he, fh, hopen, hv⟩
      have hr : (vpn_read p e fh).ret ≠ 0 := by
        unfold vpn_read
        rcases hv with ⟨h, hr⟩ | ⟨h, hr⟩ | ⟨h, hr⟩ | ⟨h, hr⟩ | ⟨h, hr⟩
        · rw [if_pos h]; exact hr
        · rw [if_neg (by rw [h]; decide), if_pos h]; exact hr
        · rw [if_neg (by rw [h]; decide), if_neg (by rw [h]; decide), if_pos h]; exact hr
        · rw [if_neg (by rw [h]; decide), if_neg (by rw [h]; decide),
            if_neg (by rw [h]; decide), if_pos h]; exact hr
        · rw [if_neg (by rw [h]; decide), if_neg (by rw [h]; decide),
            if_neg (by rw [h]; decide), if_neg (by rw [h]; decide), if_pos h]; exact hr
      have hne := hs.2 ⟨(e, fh), (mem_opened fopen l (e, fh)).2 ⟨he, hopen⟩, hr⟩
      rw [if_pos hne]
  · dsimp only
    intro h
    split_ifs at h ⊢
    · exact absurd rfl h
    · rfl
  · intro h
    subst h
    rfl
  · intro pre post e hl hopen
    rw [hrun (pre ++ post), hl, opened_skip fopen pre post e hopen]

/-- Witness for C11: a first source that does not open is skipped; the cycle
over it and a version 2 source with one client is the cycle over the second
source alone, returns 0 and dispatches the record of the client. -/
theorem openvpn_read_result_witness :
    sample_fopen "/var/run/gone.status".toList = none ∧
    openvpn_read sample_fopen
        (plugin_state.mk
          [vpn_status_t.mk "/var/run/gone.status".toList SINGLE "gone.status".toList,
           vpn_status_t.mk "/var/run/openvpn/server.status".toList MULTI2
             "server.status".toList] 2 Policy.default) =
      openvpn_read sample_fopen
        (plugin_state.mk
          [vpn_status_t.mk "/var/run/openvpn/server.status".toList MULTI2
             "server.status".toList] 1 Policy.default) ∧
    openvpn_read sample_fopen
        (plugin_state.mk
          [vpn_status_t.mk "/var/run/gone.status".toList SINGLE "gone.status".toList,
           vpn_status_t.mk "/var/run/openvpn/server.status".toList MULTI2
             "server.status".toList] 2 Policy.default) =
      some { ret := 0, out := [iostats_submit (some "bob".toList) none 500 600] } :=
  match openvpn_read_result sample_fopen Policy.default
      [vpn_status_t.mk "/var/run/gone.status".toList SINGLE "gone.status".toList,
       vpn_status_t.mk "/var/run/openvpn/server.status".toList MULTI2
         "server.status".toList] with
  | ⟨_, hr, _, _, _, _, hskip⟩ =>
    ⟨by decide,
      hr.trans (hskip []
        [vpn_status_t.mk "/var/run/openvpn/server.status".toList MULTI2 "server.status".toList]
        (vpn_status_t.mk "/var/run/gone.status".toList SINGLE "gone.status".toList)
        rfl (by decide)).symm,
      by decide⟩

/-! ## Lemmas: return values of the read functions -/

theorem multi_finish_ret_eq (p : Policy) (name : CStr) (st : multi_state) :
    (multi_finish p name st).ret = if p.collect_user_count = true then 1 else st.read := by
  unfold multi_finish
  cases p.collect_user_count <;> simp

theorem multi2_read_ret (p : Policy) (name : CStr) (fh : FILE) :
    (multi2_read p name fh).ret =
      if p.collect_user_count = true ∨ fh.lines.filter multi2_qualifies ≠ [] then 1 else 0 := by
  unfold multi2_read
  rw [multi_finish_ret_eq, multi2_loop_eq]
  cases p.collect_user_count <;>
    by_cases h : fh.lines.filter multi2_qualifies = [] <;> simp [h, multi_init]

theorem multi3_read_ret (p : Policy) (name : CStr) (fh : FILE) :
    (multi3_read p name fh).ret =
      if p.collect_user_count = true ∨ fh.lines.filter multi3_qualifies ≠ [] then 1 else 0 := by
  unfold multi3_read
  rw [multi_finish_ret_eq, multi3_loop_eq]
  cases p.collect_user_count <;>
    by_cases h : fh.lines.filter multi3_qualifies = [] <;> simp [h, multi_init]

theorem multi4_read_ret (p : Policy) (name : CStr) (fh : FILE) :
    (multi4_read p name fh).ret =
      if p.collect_user_count = true ∨ fh.lines.filter multi4_qualifies ≠ [] then 1 else 0 := by
  unfold multi4_read
  rw [multi_finish_ret_eq, multi4_loop_eq]
  cases p.collect_user_count <;>
    by_cases h : fh.lines.filter multi4_qualifies = [] <;> simp [h, multi_init]

theorem multi1_read_ret_eq (p : Policy) (name : CStr) (fh : FILE) :
    (multi1_read p name fh).ret =
      if routing_table_line ∉ fh.lines ∧ fh.error = true then 0 else 1 := by
  unfold multi1_read
  rw [multi1_loop_seek p name fh.lines multi1_init rfl]
  dsimp only
  cases p.collect_user_count <;> cases fh.error <;>
    by_cases h : routing_table_line ∈ fh.lines <;> simp [h]

theorem single_read_ret (p : Policy) (name : CStr) (fh : FILE) :
    (single_read p name fh).ret = 1 := rfl

/-! ## C12: read errors -/

/-- C12 (evaluation at failing inputs): on a stream that delivers lines and
then fails with a read error, `single_read`, `multi2_read`, `multi3_read` and
`multi4_read` return 1 and dispatch what they have read, while `multi1_read`
returns 0. -/
theorem read_error_not_reported :
    (single_read Policy.default "openvpn.status".toList
      (FILE.mk [VSSTRING, "TCP/UDP read bytes,1000\n".toList] true)) =
      { ret := 1,
        out := [iostats_submit (some "openvpn.status".toList) (some "traffic".toList) 1000 0,
                iostats_submit (some "openvpn.status".toList) (some "overhead".toList) 1000 0,
                compression_submit (some "openvpn.status".toList) (some "data_in".toList) 0 0,
                compression_submit (some "openvpn.status".toList) (some "data_out".toList)
                  0 0] } ∧
    (multi2_read Policy.default "openvpn.status".toList
      (FILE.mk
        [V2STRING,
         "CLIENT_LIST,bob,10.8.0.2,1.2.3.4,500,600,Thu Jun 18 04:23:03 2015,1434601383\n".toList]
        true)) =
      { ret := 1, out := [iostats_submit (some "bob".toList) none 500 600] } ∧
    (multi3_read Policy.default "openvpn.status".toList
      (FILE.mk
        [V3STRING,
         "CLIENT_LIST\tbob\t10.8.0.2\t1.2.3.4\t500\t600\tThu Jun 18 04:23:03 2015\t1434601383\n".toList]
        true)) =
      { ret := 1, out := [iostats_submit (some "bob".toList) none 500 600] } ∧
    (multi4_read Policy.default "openvpn.status".toList
      (FILE.mk
        [V4STRING,
         "CLIENT_LIST,bob,10.8.0.2,1.2.3.4,500,600,Thu Jun 18 04:23:03 2015,1434601383,UNDEF\n".toList]
        true)) =
      { ret := 1, out := [iostats_submit (some "bob".toList) none 500 600] } ∧
    (multi1_read Policy.default "openvpn.status".toList
      (FILE.mk [V1STRING, "bob,1.2.3.4:1194,500,600,Thu Jun 18 04:23:03 2015\n".toList]
        true)).ret = 0 := by
  decide

/-! ## C13: no data and nothing dispatched -/

/-- C13: on a file read to end-of-file without a read error, each of the five
read functions returns 0 only if it dispatched no value list at all. -/
theorem no_data_nothing_dispatched (p : Policy) (name : CStr) (fh : FILE)
    (herr : fh.error = false) :
    ((single_read p name fh).ret = 0 → (single_read p name fh).out = []) ∧
    ((multi1_read p name fh).ret = 0 → (multi1_read p name fh).out = []) ∧
    ((multi2_read p name fh).ret = 0 → (multi2_read p name fh).out = []) ∧
    ((multi3_read p name fh).ret = 0 → (multi3_read p name fh).out = []) ∧
    ((multi4_read p name fh).ret = 0 → (multi4_read p name fh).out = []) := by
  refine ⟨fun h => ?_, fun h => ?_, fun h => ?_, fun h => ?_, fun h => ?_⟩
  · rw [single_read_ret] at h
    exact absurd h (by decide)
  · rw [multi1_read_ret_eq, herr] at h
    simp at h
  · rw [multi2_read_ret] at h
    rw [multi2_read_out]
    split_ifs at h with hc
    · exact absurd h (by decide)
    · rw [not_or, not_not] at hc
      simp [hc.1, hc.2]
  · rw [multi3_read_ret] at h
    rw [multi3_read_out]
    split_ifs at h with hc
    · exact absurd h (by decide)
    · rw [not_or, not_not] at hc
      simp [hc.1, hc.2]
  · rw [multi4_read_ret] at h
    rw [multi4_read_out]
    split_ifs at h with hc
    · exact absurd h (by decide)
    · rw [not_or, not_not] at hc
      simp [hc.1, hc.2]

/-- Witness for C13: a version 2 file without client lines, read to its end
under the default flags, makes `multi2_read` return 0 and dispatch nothing. -/
theorem no_data_nothing_dispatched_witness :
    ((FILE.mk [V2STRING, "GLOBAL_STATS,Max bcast/mcast queue length,0\n".toList,
        "END\n".toList] false).error = false ∧
      (multi2_read Policy.default "openvpn.status".toList
        (FILE.mk [V2STRING, "GLOBAL_STATS,Max bcast/mcast queue length,0\n".toList,
          "END\n".toList] false)).ret = 0) ∧
    (multi2_read Policy.default "openvpn.status".toList
      (FILE.mk [V2STRING, "GLOBAL_STATS,Max bcast/mcast queue length,0\n".toList,
        "END\n".toList] false)).out = [] :=
  ⟨⟨rfl, by decide⟩,
    (no_data_nothing_dispatched Policy.default "openvpn.status".toList
      (FILE.mk [V2STRING, "GLOBAL_STATS,Max bcast/mcast queue length,0\n".toList,
        "END\n".toList] false) rfl).2.2.1 (by decide)⟩

/-! ## Lemmas: configuration -/

theorem version_detect_loop_known (lines : List CStr) :
    version_detect_loop lines = 0 ∨ version_known (version_detect_loop lines) := by
  induction lines with
  | nil => exact Or.inl rfl
  | cons b rest ih =>
    rw [version_detect_loop]
    unfold version_known
    split_ifs
    · exact Or.inr (Or.inl rfl)
    · exact Or.inr (Or.inr (Or.inl rfl))
    · exact Or.inr (Or.inr (Or.inr (Or.inl rfl)))
    · exact Or.inr (Or.inr (Or.inr (Or.inr (Or.inl rfl))))
    · exact Or.inr (Or.inr (Or.inr (Or.inr (Or.inr rfl))))
    · exact ih

theorem version_detect_known (fopen : CStr → Option FILE) (filename : Option CStr) :
    version_detect fopen filename = 0 ∨ version_known (version_detect fopen filename) := by
  unfold version_detect
  split
  · exact Or.inl rfl
  · exact Or.inl rfl
  · split
    · exact Or.inl rfl
    · exact version_detect_loop_known _

theorem clone_scan_eq (name : CStr) (l : List vpn_status_t) :
    clone_scan name l.length l =
      some (l.any (fun e => decide (strcasecmp e.name name = 0))) := by
  induction l with
  | nil => rfl
  | cons e rest ih =>
    rw [List.length_cons, clone_scan, ih]
    by_cases h : strcasecmp e.name name = 0 <;> simp [h]

theorem clone_scan_nil (name : CStr) (n : Nat) :
    clone_scan name n [] = if n = 0 then some false else none := by
  cases n <;> rfl

theorem strrchr_spec (c : Char) (s : CStr) :
    (strrchr s c = none ∧ c ∉ s) ∨
    (∃ pre suf, strrchr s c = some (c :: suf) ∧ s = pre ++ c :: suf ∧ c ∉ suf) := by
  induction s with
  | nil => exact Or.inl ⟨rfl, List.not_mem_nil _⟩
  | cons x xs ih =>
    rw [strrchr]
    rcases ih with ⟨h, hn⟩ | ⟨pre, suf, h, hs, hn⟩
    · rw [h]
      dsimp only
      by_cases hx : x = c
      · rw [if_pos hx]
        exact Or.inr ⟨[], xs, by rw [hx], by rw [hx]; rfl, hn⟩
      · rw [if_neg hx]
        refine Or.inl ⟨rfl, ?_⟩
        intro hm
        rcases List.mem_cons.1 hm with h1 | h1
        · exact hx h1.symm
        · exact hn h1
    · rw [h]
      exact Or.inr ⟨x :: pre, suf, rfl, by rw [hs]; rfl, hn⟩

theorem status_name_spec (path : CStr) :
    ('/' ∉ path ∧ status_name path = path) ∨
    (∃ pre, path = pre ++ '/' :: status_name path ∧ '/' ∉ status_name path) := by
  unfold status_name
  rcases strrchr_spec '/' path with ⟨h, hn⟩ | ⟨pre, suf, h, hs, hn⟩
  · rw [h]
    exact Or.inl ⟨hn, rfl⟩
  · rw [h]
    exact Or.inr ⟨pre, hs, hn⟩

theorem names_distinct_snoc (l : List vpn_status_t) (e : vpn_status_t)
    (hl : names_distinct l)
    (hscan : l.any (fun a => decide (strcasecmp a.name e.name = 0)) = false) :
    names_distinct (l ++ [e]) := by
  unfold names_distinct at hl ⊢
  rw [List.pairwise_append]
  refine ⟨hl, List.pairwise_singleton _ _, ?_⟩
  intro a ha b hb
  rw [List.mem_singleton.1 hb]
  intro h0
  have : l.any (fun a => decide (strcasecmp a.name e.name = 0)) = true :=
    List.any_eq_true.2 ⟨a, ha, by simpa using h0⟩
  rw [hscan] at this
  exact absurd this (by decide)

theorem openvpn_config_status_file (IS_TRUE IS_FALSE : CStr → Bool)
    (fopen : CStr → Option FILE) (alloc : alloc_t) (st : plugin_state) (key value : CStr)
    (hkey : strcasecmp "StatusFile".toList key = 0) (hwf : st.vpn_num = st.vpn_list.length) :
    openvpn_config IS_TRUE IS_FALSE fopen alloc st key value =
      if version_detect fopen (some value) = 0 then some (1, st)
      else if alloc.sstrdup_ok = false then some (1, st)
      else if st.vpn_list.any (fun e => decide (strcasecmp e.name (status_name value) = 0)) = true
        then some (1, st)
      else if alloc.malloc_ok = false then some (1, st)
      else if alloc.realloc_ok = false then some (1, { st with vpn_list := [] })
      else
        some (0, { st with
          vpn_list := st.vpn_list ++
            [{ file := value, version := version_detect fopen (some value),
               name := status_name value }],
          vpn_num := st.vpn_num + 1 }) := by
  unfold openvpn_config
  rw [if_pos hkey, hwf, clone_scan_eq, List.take_length]
  cases hany : st.vpn_list.any (fun e => decide (strcasecmp e.name (status_name value) = 0)) <;>
    simp

theorem openvpn_config_inv (IS_TRUE IS_FALSE : CStr → Bool)
    (fopen : CStr → Option FILE) (alloc : alloc_t) (st : plugin_state) (key value : CStr)
    (r : Int × plugin_state)
    (h : openvpn_config IS_TRUE IS_FALSE fopen alloc st key value = some r)
    (h1 : names_distinct st.vpn_list) (h2 : ∀ e ∈ st.vpn_list, version_known e.version)
    (h3 : st.vpn_list = [] ∨ st.vpn_num = st.vpn_list.length) :
    names_distinct r.2.vpn_list ∧ (∀ e ∈ r.2.vpn_list, version_known e.version) ∧
      (r.2.vpn_list = [] ∨ r.2.vpn_num = r.2.vpn_list.length) := by
  have hnil : names_distinct ([] : List vpn_status_t) := List.Pairwise.nil
  by_cases hk : strcasecmp "StatusFile".toList key = 0
  · by_cases hwf : st.vpn_num = st.vpn_list.length
    · rw [openvpn_config_status_file IS_TRUE IS_FALSE fopen alloc st key value hk hwf] at h
      split_ifs at h with hv hs hany hm hr
      · cases h; exact ⟨h1, h2, h3⟩
      · cases h; exact ⟨h1, h2, h3⟩
      · cases h; exact ⟨h1, h2, h3⟩
      · cases h; exact ⟨h1, h2, h3⟩
      · cases h; exact ⟨hnil, by simp, Or.inl rfl⟩
      · cases h
        dsimp only
        have hver : version_known (version_detect fopen (some value)) :=
          (version_detect_known fopen (some value)).resolve_left hv
        refine ⟨names_distinct_snoc _ _ h1 (by simpa using hany), ?_, Or.inr ?_⟩
        · intro e he
          rcases List.mem_append.1 he with he | he
          · exact h2 e he
          · rw [List.mem_singleton.1 he]
            exact hver
        · rw [List.length_append, List.length_singleton, hwf]
    · have hl : st.vpn_list = [] := h3.resolve_right hwf
      have hn : st.vpn_num ≠ 0 := by
        intro h0
        apply hwf
        rw [h0, hl]
        rfl
      unfold openvpn_config at h
      rw [if_pos hk, hl, clone_scan_nil, if_neg hn] at h
      dsimp only at h
      split_ifs at h
      · cases h; exact ⟨h1, h2, h3⟩
      · cases h; exact ⟨h1, h2, h3⟩
  · unfold openvpn_config at h
    rw [if_neg hk] at h
    split_ifs at h <;> cases h <;> exact ⟨h1, h2, h3⟩

theorem run_config_inv (IS_TRUE IS_FALSE : CStr → Bool) (calls : List config_call)
    (st0 st : plugin_state) (h : run_config IS_TRUE IS_FALSE st0 calls = some st)
    (h1 : names_distinct st0.vpn_list) (h2 : ∀ e ∈ st0.vpn_list, version_known e.version)
    (h3 : st0.vpn_list = [] ∨ st0.vpn_num = st0.vpn_list.length) :
    names_distinct st.vpn_list ∧ (∀ e ∈ st.vpn_list, version_known e.version) := by
  induction calls generalizing st0 with
  | nil =>
    rw [run_config] at h
    cases h
    exact ⟨h1, h2⟩
  | cons c cs ih =>
    rw [run_config] at h
    cases hc : openvpn_config IS_TRUE IS_FALSE c.fopen c.alloc st0 c.key c.value with
    | none => rw [hc] at h; cases h
    | some r =>
      rw [hc] at h
      obtain ⟨i1, i2, i3⟩ :=
        openvpn_config_inv IS_TRUE IS_FALSE c.fopen c.alloc st0 c.key c.value r hc h1 h2 h3
      exact ih r.2 h i1 i2 i3

theorem openvpn_config_defined (IS_TRUE IS_FALSE : CStr → Bool)
    (fopen : CStr → Option FILE) (alloc : alloc_t) (st : plugin_state) (key value : CStr)
    (hwf : st.vpn_num = st.vpn_list.length) (hr : alloc.realloc_ok = true) :
    ∃ r, openvpn_config IS_TRUE IS_FALSE fopen alloc st key value = some r ∧
      r.2.vpn_num = r.2.vpn_list.length := by
  by_cases hk : strcasecmp "StatusFile".toList key = 0
  · rw [openvpn_config_status_file IS_TRUE IS_FALSE fopen alloc st key value hk hwf]
    split_ifs with hv hs hany hm hre
    · exact ⟨_, rfl, hwf⟩
    · exact ⟨_, rfl, hwf⟩
    · exact ⟨_, rfl, hwf⟩
    · exact ⟨_, rfl, hwf⟩
    · rw [hr] at hre; exact absurd hre (by decide)
    · refine ⟨_, rfl, ?_⟩
      dsimp only
      rw [List.length_append, List.length_singleton, hwf]
  · unfold openvpn_config
    rw [if_neg hk]
    split_ifs <;> exact ⟨_, rfl, hwf⟩

theorem run_config_defined (IS_TRUE IS_FALSE : CStr → Bool) (calls : List config_call)
    (st0 : plugin_state) (hwf : st0.vpn_num = st0.vpn_list.length)
    (hr : ∀ c ∈ calls, c.alloc.realloc_ok = true) :
    ∃ st, run_config IS_TRUE IS_FALSE st0 calls = some st ∧
      st.vpn_num = st.vpn_list.length := by
  induction calls generalizing st0 with
  | nil => exact ⟨st0, rfl, hwf⟩
  | cons c cs ih =>
    obtain ⟨r, hc, hw⟩ := openvpn_config_defined IS_TRUE IS_FALSE c.fopen c.alloc st0 c.key
      c.value hwf (hr c (List.mem_cons_self _ _))
    rw [run_config, hc]
    exact ih r.2 hw (fun c' hc' => hr c' (List.mem_cons_of_mem _ hc'))

/-! ## C14: the invariant of the source list -/

/-- C14: starting from the empty list, after any sequence of `openvpn_config`
calls, with any keys, values, file contents and answers of the allocator, the
display names of the sources in the list are pairwise distinct under
`strcasecmp` and every stored version is one of SINGLE, MULTI1, MULTI2, MULTI3,
MULTI4, never 0. The sequence runs through without undefined access whenever
no `realloc` fails, and `vpn_num` is then the length of the list. -/
theorem source_list_invariant (IS_TRUE IS_FALSE : CStr → Bool) (calls : List config_call) :
    (∀ st, run_config IS_TRUE IS_FALSE plugin_init calls = some st →
      st.vpn_list.Pairwise (fun a b => strcasecmp a.name b.name ≠ 0) ∧
      ∀ e ∈ st.vpn_list,
        (e.version = SINGLE ∨ e.version = MULTI1 ∨ e.version = MULTI2 ∨
          e.version = MULTI3 ∨ e.version = MULTI4) ∧ e.version ≠ 0) ∧
    ((∀ c ∈ calls, c.alloc.realloc_ok = true) →
      ∃ st, run_config IS_TRUE IS_FALSE plugin_init calls = some st ∧
        st.vpn_num = st.vpn_list.length) := by
  refine ⟨fun st h => ?_, fun hr => run_config_defined IS_TRUE IS_FALSE calls plugin_init rfl hr⟩
  obtain ⟨i1, i2⟩ := run_config_inv IS_TRUE IS_FALSE calls plugin_init st h List.Pairwise.nil
    (fun e he => absurd he (List.not_mem_nil _)) (Or.inl rfl)
  refine ⟨i1, fun e he => ⟨i2 e he, ?_⟩⟩
  rcases i2 e he with h | h | h | h | h <;> rw [h] <;> decide

/-- Witness for C14: the sample configuration ends with two sources,
server.status (version 2) and tunnel.status (single mode); the file with the
name SERVER.STATUS and the file of unknown format are not in the list. -/
theorem source_list_invariant_witness :
    (run_config sample_is_true sample_is_false plugin_init sample_calls =
        some (plugin_state.mk
          [vpn_status_t.mk "/var/run/openvpn/server.status".toList MULTI2
             "server.status".toList,
           vpn_status_t.mk "tunnel.status".toList SINGLE "tunnel.status".toList]
          2 { Policy.default with collect_user_count := true }) ∧
      ∀ c ∈ sample_calls, c.alloc.realloc_ok = true) ∧
    ([vpn_status_t.mk "/var/run/openvpn/server.status".toList MULTI2 "server.status".toList,
      vpn_status_t.mk "tunnel.status".toList SINGLE "tunnel.status".toList].Pairwise
        (fun a b => strcasecmp a.name b.name ≠ 0) ∧
      ∀ e ∈ [vpn_status_t.mk "/var/run/openvpn/server.status".toList MULTI2
               "server.status".toList,
             vpn_status_t.mk "tunnel.status".toList SINGLE "tunnel.status".toList],
        (e.version = SINGLE ∨ e.version = MULTI1 ∨ e.version = MULTI2 ∨
          e.version = MULTI3 ∨ e.version = MULTI4) ∧ e.version ≠ 0) ∧
    (∃ st, run_config sample_is_true sample_is_false plugin_init sample_calls = some st ∧
      st.vpn_num = st.vpn_list.length) :=
  ⟨⟨by decide, by decide⟩,
    (source_list_invariant sample_is_true sample_is_false sample_calls).1
      (plugin_state.mk
        [vpn_status_t.mk "/var/run/openvpn/server.status".toList MULTI2 "server.status".toList,
         vpn_status_t.mk "tunnel.status".toList SINGLE "tunnel.status".toList]
        2 { Policy.default with collect_user_count := true }) (by decide),
    (source_list_invariant sample_is_true sample_is_false sample_calls).2 (by decide)⟩

/-! ## C15: a StatusFile directive -/

/-- C15: for a StatusFile directive issued in a state reached by earlier calls
in which no `realloc` failed: an empty or unreadable path is detected as 0; if
detection yields 0 or the derived name equals, under `strcasecmp`, the name of a
source in the list, `openvpn_config` returns a non-zero value and leaves the
list, `vpn_num` and the four flags as they were; otherwise, when the
allocations of the call succeed, it returns 0 and appends one entry with the
given path, the derived name and the detected version at the end of the list,
the flags staying as they were. -/
theorem status_file_directive (IS_TRUE IS_FALSE : CStr → Bool) (fopen : CStr → Option FILE)
    (alloc : alloc_t) (calls : List config_call) (st : plugin_state) (key value : CStr)
    (hkey : strcasecmp "StatusFile".toList key = 0)
    (hcalls : ∀ c ∈ calls, c.alloc.realloc_ok = true)
    (hst : run_config IS_TRUE IS_FALSE plugin_init calls = some st) :
    ((value = [] ∨ fopen value = none) → version_detect fopen (some value) = 0) ∧
    ((version_detect fopen (some value) = 0 ∨
        ∃ e ∈ st.vpn_list, strcasecmp e.name (status_name value) = 0) →
      ∃ r, openvpn_config IS_TRUE IS_FALSE fopen alloc st key value = some (r, st) ∧ r ≠ 0) ∧
    (¬ (version_detect fopen (some value) = 0 ∨
        ∃ e ∈ st.vpn_list, strcasecmp e.name (status_name value) = 0) →
      alloc.sstrdup_ok = true → alloc.malloc_ok = true → alloc.realloc_ok = true →
      openvpn_config IS_TRUE IS_FALSE fopen alloc st key value =
        some (0, { vpn_list := st.vpn_list ++
                     [{ file := value, version := version_detect fopen (some value),
                        name := status_name value }],
                   vpn_num := st.vpn_num + 1,
                   policy := st.policy })) := by
  have hwf : st.vpn_num = st.vpn_list.length := by
    obtain ⟨st2, h2, hw⟩ := run_config_defined IS_TRUE IS_FALSE calls plugin_init rfl hcalls
    rw [hst] at h2
    cases h2
    exact hw
  have hany : (st.vpn_list.any (fun e => decide (strcasecmp e.name (status_name value) = 0))
      = true) ↔ ∃ e ∈ st.vpn_list, strcasecmp e.name (status_name value) = 0 := by
    rw [List.any_eq_true]
    constructor
    · rintro ⟨e, he, h⟩
      exact ⟨e, he, by simpa using h⟩
    · rintro ⟨e, he, h⟩
      exact ⟨e, he, by simpa using h⟩
  rw [openvpn_config_status_file IS_TRUE IS_FALSE fopen alloc st key value hkey hwf]
  refine ⟨?_, ?_, ?_⟩
  · intro h
    unfold version_detect
    rcases h with h | h
    · rw [h]
    · cases value with
      | nil => rfl
      | cons c cs => simp only [h]
  · intro h
    by_cases hv : version_detect fopen (some value) = 0
    · rw [if_pos hv]
      exact ⟨1, rfl, by decide⟩
    · rw [if_neg hv]
      by_cases hs : alloc.sstrdup_ok = false
      · rw [if_pos hs]
        exact ⟨1, rfl, by decide⟩
      · rw [if_neg hs, if_pos (hany.2 (h.resolve_left hv))]
        exact ⟨1, rfl, by decide⟩
  · intro h hs hm hr
    rw [not_or] at h
    rw [if_neg h.1, if_neg (by rw [hs]; decide), if_neg (fun ha => h.2 (hany.1 ha)),
      if_neg (by rw [hm]; decide), if_neg (by rw [hr]; decide)]

/-- Witness for C15: after the first call of the sample configuration, the
path /etc/openvpn/SERVER.STATUS, whose name is server.status up to case, is
rejected and the state stays as it was, and the path tunnel.status is accepted
and appended as a single-mode source. -/
theorem status_file_directive_witness :
    (strcasecmp "StatusFile".toList "statusfile".toList = 0 ∧
      (∀ c ∈ sample_calls.take 1, c.alloc.realloc_ok = true) ∧
      run_config sample_is_true sample_is_false plugin_init (sample_calls.take 1) =
        some (plugin_state.mk
          [vpn_status_t.mk "/var/run/openvpn/server.status".toList MULTI2
            "server.status".toList] 1 Policy.default) ∧
      (∃ e ∈ [vpn_status_t.mk "/var/run/openvpn/server.status".toList MULTI2
                "server.status".toList],
        strcasecmp e.name (status_name "/etc/openvpn/SERVER.STATUS".toList) = 0) ∧
      ¬ (version_detect sample_fopen (some "tunnel.status".toList) = 0 ∨
        ∃ e ∈ [vpn_status_t.mk "/var/run/openvpn/server.status".toList MULTI2
                "server.status".toList],
          strcasecmp e.name (status_name "tunnel.status".toList) = 0)) ∧
    (∃ r, openvpn_config sample_is_true sample_is_false sample_fopen (alloc_t.mk true true true)
        (plugin_state.mk
          [vpn_status_t.mk "/var/run/openvpn/server.status".toList MULTI2
            "server.status".toList] 1 Policy.default)
        "statusfile".toList "/etc/openvpn/SERVER.STATUS".toList =
      some (r, plugin_state.mk
          [vpn_status_t.mk "/var/run/openvpn/server.status".toList MULTI2
            "server.status".toList] 1 Policy.default) ∧ r ≠ 0) ∧
    openvpn_config sample_is_true sample_is_false sample_fopen (alloc_t.mk true true true)
        (plugin_state.mk
          [vpn_status_t.mk "/var/run/openvpn/server.status".toList MULTI2
            "server.status".toList] 1 Policy.default)
        "statusfile".toList "tunnel.status".toList =
      some (0, plugin_state.mk
          [vpn_status_t.mk "/var/run/openvpn/server.status".toList MULTI2
            "server.status".toList,
           vpn_status_t.mk "tunnel.status".toList SINGLE "tunnel.status".toList]
          2 Policy.default) :=
  ⟨⟨by decide, by decide, by decide, by decide, by decide⟩,
    (status_file_directive sample_is_true sample_is_false sample_fopen
      (alloc_t.mk true true true) (sample_calls.take 1)
      (plugin_state.mk
        [vpn_status_t.mk "/var/run/openvpn/server.status".toList MULTI2
          "server.status".toList] 1 Policy.default)
      "statusfile".toList "/etc/openvpn/SERVER.STATUS".toList
      (by decide) (by decide) (by decide)).2.1 (Or.inr (by decide)),
    ((status_file_directive sample_is_true sample_is_false sample_fopen
      (alloc_t.mk true true true) (sample_calls.take 1)
      (plugin_state.mk
        [vpn_status_t.mk "/var/run/openvpn/server.status".toList MULTI2
          "server.status".toList] 1 Policy.default)
      "statusfile".toList "tunnel.status".toList
      (by decide) (by decide) (by decide)).2.2 (by decide) rfl rfl rfl).trans (by decide)⟩

/-! ## C16: the display name -/

theorem last_separator_unique (c : Char) (xs ys a b : CStr)
    (h : xs ++ c :: a = ys ++ c :: b) (ha : c ∉ a) (hb : c ∉ b) : a = b := by
  induction xs generalizing ys with
  | nil =>
    cases ys with
    | nil => simpa using h
    | cons y ys =>
      simp only [List.nil_append, List.cons_append, List.cons.injEq] at h
      exact absurd (h.2 ▸ List.mem_append_right ys (List.mem_cons_self c b)) ha
  | cons x xs ih =>
    cases ys with
    | nil =>
      simp only [List.nil_append, List.cons_append, List.cons.injEq] at h
      exact absurd (h.2 ▸ List.mem_append_right xs (List.mem_cons_self c a)) hb
    | cons y ys =>
      simp only [List.cons_append, List.cons.injEq] at h
      exact ih ys h.2

theorem openvpn_config_accepted (IS_TRUE IS_FALSE : CStr → Bool) (fopen : CStr → Option FILE)
    (alloc : alloc_t) (st st2 : plugin_state) (key value : CStr)
    (hkey : strcasecmp "StatusFile".toList key = 0)
    (hacc : openvpn_config IS_TRUE IS_FALSE fopen alloc st key value = some (0, st2)) :
    st2.vpn_list = st.vpn_list.take st.vpn_num ++
      [{ file := value, version := version_detect fopen (some value),
         name := status_name value }] := by
  unfold openvpn_config at hacc
  rw [if_pos hkey] at hacc
  by_cases hv : version_detect fopen (some value) = 0
  · rw [if_pos hv] at hacc
    cases hacc
  · rw [if_neg hv] at hacc
    by_cases hs : alloc.sstrdup_ok = false
    · rw [if_pos hs] at hacc
      cases hacc
    · rw [if_neg hs] at hacc
      cases hscan : clone_scan (status_name value) st.vpn_num st.vpn_list with
      | none => rw [hscan] at hacc; cases hacc
      | some b =>
        rw [hscan] at hacc
        cases b with
        | true => cases hacc
        | false =>
          dsimp only at hacc
          by_cases hm : alloc.malloc_ok = false
          · rw [if_pos hm] at hacc
            cases hacc
          · rw [if_neg hm] at hacc
            by_cases hr : alloc.realloc_ok = false
            · rw [if_pos hr] at hacc
              cases hacc
            · rw [if_neg hr] at hacc
              cases hacc
              rfl

/-- C16: when `openvpn_config` accepts a StatusFile directive, the entry it
appends carries the given path and, as display name, the part of the path
behind its last '/', or the whole path when the path has no '/'; so the
display name has no '/', and the path is a prefix, empty or ending in '/',
followed by the display name. -/
theorem display_name_of_path (IS_TRUE IS_FALSE : CStr → Bool) (fopen : CStr → Option FILE)
    (alloc : alloc_t) (st st2 : plugin_state) (key value : CStr)
    (hkey : strcasecmp "StatusFile".toList key = 0)
    (hacc : openvpn_config IS_TRUE IS_FALSE fopen alloc st key value = some (0, st2)) :
    (∃ e, st2.vpn_list.getLast? = some e ∧ e.file = value ∧
      ('/' ∉ value → e.name = value) ∧
      (∀ pre suf, value = pre ++ '/' :: suf → '/' ∉ suf → e.name = suf) ∧
      '/' ∉ e.name ∧
      ∃ pre, value = pre ++ e.name ∧ (pre = [] ∨ pre.getLast? = some '/')) := by
  refine ⟨{ file := value, version := version_detect fopen (some value),
            name := status_name value }, ?_, rfl, ?_, ?_, ?_, ?_⟩
  · rw [openvpn_config_accepted IS_TRUE IS_FALSE fopen alloc st st2 key value hkey hacc]
    simp
  · intro hn
    rcases status_name_spec value with ⟨_, h⟩ | ⟨pre, h, _⟩
    · exact h
    · exact absurd (h ▸ List.mem_append_right pre (List.mem_cons_self _ _)) hn
  · intro pre suf hval hsuf
    rcases status_name_spec value with ⟨hn, _⟩ | ⟨pre2, h, hn⟩
    · exact absurd (hval ▸ List.mem_append_right pre (List.mem_cons_self _ _)) hn
    · exact last_separator_unique '/' pre2 pre _ _ (h.symm.trans hval) hn hsuf
  · rcases status_name_spec value with ⟨hn, h⟩ | ⟨pre2, _, hn⟩
    · dsimp only
      rw [h]
      exact hn
    · exact hn
  · rcases status_name_spec value with ⟨_, h⟩ | ⟨pre2, h, _⟩
    · exact ⟨[], by dsimp only; rw [h]; rfl, Or.inl rfl⟩
    · refine ⟨pre2 ++ ['/'], ?_, Or.inr (by simp)⟩
      dsimp only
      rw [List.append_assoc]
      exact h

/-- Witness for C16: the sample path /var/run/openvpn/server.status, accepted
in the initial state, is stored with the display name server.status. -/
theorem display_name_of_path_witness :
    (strcasecmp "StatusFile".toList "StatusFile".toList = 0 ∧
      openvpn_config sample_is_true sample_is_false sample_fopen (alloc_t.mk true true true)
        plugin_init "StatusFile".toList "/var/run/openvpn/server.status".toList =
        some (0, plugin_state.mk
          [vpn_status_t.mk "/var/run/openvpn/server.status".toList MULTI2
            "server.status".toList] 1 Policy.default)) ∧
    (∃ e, [vpn_status_t.mk "/var/run/openvpn/server.status".toList MULTI2
            "server.status".toList].getLast? = some e ∧
      e.name = "server.status".toList) :=
  ⟨⟨by decide, by decide⟩,
    match display_name_of_path sample_is_true sample_is_false sample_fopen
        (alloc_t.mk true true true) plugin_init
        (plugin_state.mk
          [vpn_status_t.mk "/var/run/openvpn/server.status".toList MULTI2
            "server.status".toList] 1 Policy.default)
        "StatusFile".toList "/var/run/openvpn/server.status".toList (by decide) (by decide) with
    | ⟨e, he, _, _, hsuf, _, _⟩ =>
      ⟨e, he, hsuf "/var/run/openvpn".toList "server.status".toList (by decide) (by decide)⟩⟩

/-! ## C17: initialisation -/

/-- C17: `openvpn_init` returns -1, and registers no callback, if and only if
the per-connection, user-count and compression flags are all disabled; with
one of them enabled it returns 0 and registers the read callback. With the
flags as initialised (compression on, per-connection on, user-count off) it
returns 0. -/
theorem openvpn_init_result (p : Policy) :
    ((openvpn_init p).1 = -1 ↔
      (p.collect_individual_users = false ∧ p.collect_user_count = false ∧
        p.collect_compression = false)) ∧
    ((openvpn_init p).1 = -1 → (openvpn_init p).2 = []) ∧
    ((p.collect_individual_users = true ∨ p.collect_user_count = true ∨
        p.collect_compression = true) →
      (openvpn_init p).1 = 0 ∧ callback_t.read ∈ (openvpn_init p).2) ∧
    (Policy.default.collect_compression = true ∧
      Policy.default.collect_individual_users = true ∧
      Policy.default.collect_user_count = false ∧
      (openvpn_init Policy.default).1 = 0) := by
  unfold openvpn_init
  cases p.collect_individual_users <;> cases p.collect_user_count <;>
    cases p.collect_compression <;> decide

/-- Witness for C17: with only user-count enabled the plugin starts; with the
three flags disabled it does not. The flags of `Policy.mk` stand in the order
naming schema, compression, user-count, per-connection. -/
theorem openvpn_init_result_witness :
    ((Policy.mk false false true false).collect_individual_users = true ∨
      (Policy.mk false false true false).collect_user_count = true ∨
      (Policy.mk false false true false).collect_compression = true) ∧
    ((openvpn_init (Policy.mk false false true false)).1 = 0 ∧
      callback_t.read ∈ (openvpn_init (Policy.mk false false true false)).2) ∧
    (openvpn_init (Policy.mk true false false false)).2 = [] :=
  ⟨by decide,
    (openvpn_init_result (Policy.mk false false true false)).2.2.1 (by decide),
    (openvpn_init_result (Policy.mk true false false false)).2.1 (by decide)⟩

/-! ## Lemmas: the field splitter -/

theorem takeWhile_dropWhile_spec {α : Type} (f : α → Bool) (s : List α) :
    (∀ x ∈ s.takeWhile f, f x = true) ∧ s = s.takeWhile f ++ s.dropWhile f ∧
      (s.dropWhile f = [] ∨ ∃ y ys, s.dropWhile f = y :: ys ∧ f y = false) := by
  induction s with
  | nil => simp
  | cons a s ih =>
    cases ha : f a
    · simp [List.takeWhile_cons, List.dropWhile_cons, ha]
    · obtain ⟨h1, h2, h3⟩ := ih
      rw [List.takeWhile_cons, List.dropWhile_cons, ha]
      simp only [if_true]
      refine ⟨?_, ?_, h3⟩
      · intro x hx
        rcases List.mem_cons.1 hx with h | h
        · rw [h]; exact ha
        · exact h1 x h
      · rw [List.cons_append, ← h2]

theorem strtok_r_spec (delim : List Char) (s : CStr) :
    (strtok_r delim s = none ∧ ∀ c ∈ s, c ∈ delim) ∨
    (∃ pre tok post rest, strtok_r delim s = some (tok, rest) ∧
      (∀ c ∈ pre, c ∈ delim) ∧ tok ≠ [] ∧ (∀ c ∈ tok, c ∉ delim) ∧
      s = pre ++ tok ++ post ∧
      ((post = [] ∧ rest = []) ∨ ∃ d, d ∈ delim ∧ post = d :: rest)) := by
  obtain ⟨h1, h2, h3⟩ := takeWhile_dropWhile_spec (fun c => delim.contains c) s
  unfold strtok_r
  rcases h3 with h3 | ⟨y, ys, h3, hy⟩
  · left
    rw [h3]
    refine ⟨rfl, ?_⟩
    intro c hc
    rw [h2, h3, List.append_nil] at hc
    simpa using h1 c hc
  · right
    rw [h3]
    dsimp only
    obtain ⟨g1, g2, g3⟩ := takeWhile_dropWhile_spec (fun d => !delim.contains d) (y :: ys)
    refine ⟨s.takeWhile (fun c => delim.contains c),
      (y :: ys).takeWhile (fun d => !delim.contains d),
      (y :: ys).dropWhile (fun d => !delim.contains d), _, rfl, ?_, ?_, ?_, ?_, ?_⟩
    · intro c hc
      simpa using h1 c hc
    · rw [List.takeWhile_cons]
      have : (!delim.contains y) = true := by simpa using hy
      rw [this]
      simp
    · intro c hc
      simpa using g1 c hc
    · rw [List.append_assoc, ← g2, ← h3]
      exact h2
    · rcases g3 with g3 | ⟨d, ds, g3, hd⟩
      · left
        rw [g3]
        exact ⟨rfl, rfl⟩
      · right
        rw [g3]
        exact ⟨d, by simpa using hd, rfl⟩

theorem strsplit_loop_spec (delim : List Char) (r : Nat) (s : CStr) :
    (strsplit_loop delim r s).length ≤ r + 1 ∧
    (∀ f ∈ strsplit_loop delim r s, f ≠ [] ∧ ∀ c ∈ f, c ∉ delim) ∧
    laid_out delim (strsplit_loop delim r s) s := by
  induction r generalizing s with
  | zero =>
    rw [strsplit_loop]
    rcases strtok_r_spec delim s with ⟨h, _⟩ | ⟨pre, tok, post, rest, h, hp, ht, htd, hs, hpost⟩
    · rw [h]
      simp [laid_out]
    · rw [h]
      dsimp only
      refine ⟨by simp, ?_, ?_⟩
      · intro f hf
        rw [List.mem_singleton.1 hf]
        exact ⟨ht, htd⟩
      · refine ⟨pre, post, hp, hs, ?_⟩
        rcases hpost with ⟨h1, _⟩ | ⟨d, hd, h1⟩
        · exact Or.inl ⟨h1, rfl⟩
        · exact Or.inr ⟨d, rest, hd, h1, trivial⟩
  | succ r ih =>
    rw [strsplit_loop]
    rcases strtok_r_spec delim s with ⟨h, _⟩ | ⟨pre, tok, post, rest, h, hp, ht, htd, hs, hpost⟩
    · rw [h]
      simp [laid_out]
    · rw [h]
      dsimp only
      obtain ⟨i1, i2, i3⟩ := ih rest
      refine ⟨by simp only [List.length_cons]; omega, ?_, ?_⟩
      · intro f hf
        rcases List.mem_cons.1 hf with hf | hf
        · rw [hf]
          exact ⟨ht, htd⟩
        · exact i2 f hf
      · refine ⟨pre, post, hp, hs, ?_⟩
        rcases hpost with ⟨h1, h2⟩ | ⟨d, hd, h1⟩
        · left
          refine ⟨h1, ?_⟩
          rw [h2, strsplit_loop]
          have : strtok_r delim [] = none := rfl
          rw [this]
        · exact Or.inr ⟨d, rest, hd, h1, i3⟩

/-! ## C18: bounded splitting -/

/-- Counterexample to C18: with room for four fields, a line of five fields
gives the first four tokens; the fourth field is the fourth token alone, not
the remainder of the line with its commas. -/
theorem strsplit_last_field_counterexample :
    openvpn_strsplit "TUN/TAP read bytes,900,extra,more,fields\n".toList 4 =
      ["TUN/TAP read bytes".toList, "900".toList, "extra".toList, "more".toList] ∧
    (openvpn_strsplit "TUN/TAP read bytes,900,extra,more,fields\n".toList 4).getD 3 [] ≠
      "more,fields\n".toList := by
  decide

/-- C18 (amended): for every line and every maximum field count N >= 1,
`openvpn_strsplit` returns at most N fields, the fields lie in the line from
left to right, each preceded by commas only and followed by a comma or by the
end of the line, and no field is empty or contains a comma: also the Nth field
ends at the next comma, and what follows it in the line is not returned. -/
theorem strsplit_fields_bounded (l : CStr) (N : Nat) (hN : 1 ≤ N) :
    (openvpn_strsplit l N).length ≤ N ∧
    (∀ f ∈ openvpn_strsplit l N, f ≠ [] ∧ ',' ∉ f) ∧
    laid_out [','] (openvpn_strsplit l N) l := by
  unfold openvpn_strsplit
  obtain ⟨h1, h2, h3⟩ := strsplit_loop_spec [','] (N - 1) l
  refine ⟨by omega, ?_, h3⟩
  intro f hf
  refine ⟨(h2 f hf).1, ?_⟩
  intro hc
  exact (h2 f hf).2 ',' hc (List.mem_singleton.2 rfl)

/-- Witness for C18 (amended): the line of five fields, split with room for
four. -/
theorem strsplit_fields_bounded_witness :
    1 ≤ 4 ∧
    (openvpn_strsplit "TUN/TAP read bytes,900,extra,more,fields\n".toList 4).length ≤ 4 ∧
    (∀ f ∈ openvpn_strsplit "TUN/TAP read bytes,900,extra,more,fields\n".toList 4,
      f ≠ [] ∧ ',' ∉ f) ∧
    laid_out [',']
      (openvpn_strsplit "TUN/TAP read bytes,900,extra,more,fields\n".toList 4)
      "TUN/TAP read bytes,900,extra,more,fields\n".toList :=
  ⟨by decide,
    strsplit_fields_bounded "TUN/TAP read bytes,900,extra,more,fields\n".toList 4 (by decide)⟩

/-! ## Lemmas: the counters of single mode -/

theorem single_line_eq (st : single_state) (l : CStr) :
    single_line st l =
      { link_rx := if label_line "TCP/UDP read bytes".toList l then line_value l
          else st.link_rx,
        link_tx := if label_line "TCP/UDP write bytes".toList l then line_value l
          else st.link_tx,
        tun_rx := if label_line "TUN/TAP write bytes".toList l then line_value l
          else st.tun_rx,
        tun_tx := if label_line "TUN/TAP read bytes".toList l then line_value l
          else st.tun_tx,
        pre_compress := if label_line "pre-compress bytes".toList l then line_value l
          else st.pre_compress,
        post_compress := if label_line "post-compress bytes".toList l then line_value l
          else st.post_compress,
        pre_decompress := if label_line "pre-decompress bytes".toList l then line_value l
          else st.pre_decompress,
        post_decompress := if label_line "post-decompress bytes".toList l then line_value l
          else st.post_decompress } := by
  unfold single_line label_line line_value
  dsimp only
  generalize openvpn_strsplit l 4 = fields
  generalize fields.getD 0 [] = f0
  generalize fields.getD 1 [] = f1
  by_cases hlen : fields.length = 2
  · simp only [hlen, ne_eq, not_true_eq_false, if_false, decide_True, Bool.true_and,
      decide_eq_true_eq]
    by_cases h1 : f0 = "TUN/TAP read bytes".toList
    · subst h1; simp +decide
    by_cases h2 : f0 = "TUN/TAP write bytes".toList
    · subst h2; simp +decide
    by_cases h3 : f0 = "TCP/UDP read bytes".toList
    · subst h3; simp +decide
    by_cases h4 : f0 = "TCP/UDP write bytes".toList
    · subst h4; simp +decide
    by_cases h5 : f0 = "pre-compress bytes".toList
    · subst h5; simp +decide
    by_cases h6 : f0 = "post-compress bytes".toList
    · subst h6; simp +decide
    by_cases h7 : f0 = "pre-decompress bytes".toList
    · subst h7; simp +decide
    by_cases h8 : f0 = "post-decompress bytes".toList
    · subst h8; simp +decide
    simp only [h1, h2, h3, h4, h5, h6, h7, h8, if_false]
  · cases st
    simp [hlen]

theorem last_value_from_cons (d : Nat) (label b : CStr) (rest : List CStr) :
    last_value_from d label (b :: rest) =
      last_value_from (if label_line label b then line_value b else d) label rest := by
  unfold last_value_from
  rw [List.filter_cons]
  cases hq : label_line label b
  · simp
  · simp only [if_true]
    cases hf : rest.filter (label_line label) with
    | nil => rfl
    | cons y ys =>
      rw [List.getLast?_cons_cons]
      cases hg : (y :: ys).getLast? with
      | none => simp at hg
      | some z => rfl

theorem single_loop_eq (lines : List CStr) (st : single_state) :
    single_loop lines st =
      { link_rx := last_value_from st.link_rx "TCP/UDP read bytes".toList lines,
        link_tx := last_value_from st.link_tx "TCP/UDP write bytes".toList lines,
        tun_rx := last_value_from st.tun_rx "TUN/TAP write bytes".toList lines,
        tun_tx := last_value_from st.tun_tx "TUN/TAP read bytes".toList lines,
        pre_compress := last_value_from st.pre_compress "pre-compress bytes".toList lines,
        post_compress := last_value_from st.post_compress "post-compress bytes".toList lines,
        pre_decompress :=
          last_value_from st.pre_decompress "pre-decompress bytes".toList lines,
        post_decompress :=
          last_value_from st.post_decompress "post-decompress bytes".toList lines } := by
  induction lines generalizing st with
  | nil => rfl
  | cons b rest ih =>
    have hstep : single_loop (b :: rest) st = single_loop rest (single_line st b) := rfl
    rw [hstep, ih, single_line_eq]
    simp only [last_value_from_cons]

theorem single_line_unknown_label (st : single_state) (l : CStr)
    (h0 : (openvpn_strsplit l 4).getD 0 [] ∉ single_labels) : single_line st l = st := by
  have hq : ∀ label ∈ single_labels, label_line label l = false := by
    intro label hl
    unfold label_line
    have : ¬ (openvpn_strsplit l 4).getD 0 [] = label := fun h => h0 (h ▸ hl)
    rw [decide_eq_false this, Bool.and_false]
  rw [single_line_eq,
    hq "TCP/UDP read bytes".toList (by decide), hq "TCP/UDP write bytes".toList (by decide),
    hq "TUN/TAP write bytes".toList (by decide), hq "TUN/TAP read bytes".toList (by decide),
    hq "pre-compress bytes".toList (by decide), hq "post-compress bytes".toList (by decide),
    hq "pre-decompress bytes".toList (by decide), hq "post-decompress bytes".toList (by decide)]
  rfl

/-! ## C19: the counters of single mode -/

/-- C19: after the loop of `single_read` has consumed a file, each counter is
the numeric value of the second field of the last line that splits into
exactly two fields with the label of the counter as first field, or 0 when
there is no such line; "TUN/TAP read bytes" feeds tun_tx, "TUN/TAP write bytes"
tun_rx, "TCP/UDP read bytes" link_rx, "TCP/UDP write bytes" link_tx, and the
four compression labels the counters of their name. A two-field line with any
other first field leaves every counter as it is. -/
theorem single_counters (lines : List CStr) :
    single_loop lines single_init =
      { link_rx := last_value "TCP/UDP read bytes".toList lines,
        link_tx := last_value "TCP/UDP write bytes".toList lines,
        tun_rx := last_value "TUN/TAP write bytes".toList lines,
        tun_tx := last_value "TUN/TAP read bytes".toList lines,
        pre_compress := last_value "pre-compress bytes".toList lines,
        post_compress := last_value "post-compress bytes".toList lines,
        pre_decompress := last_value "pre-decompress bytes".toList lines,
        post_decompress := last_value "post-decompress bytes".toList lines } ∧
    (∀ (st : single_state) (l : CStr), (openvpn_strsplit l 4).length = 2 →
      (openvpn_strsplit l 4).getD 0 [] ∉ single_labels → single_line st l = st) :=
  ⟨single_loop_eq lines single_init, fun st l _ h0 => single_line_unknown_label st l h0⟩

/-- Witness for C19: the line "Auth read bytes,960\n" has two fields and an
unknown label; it leaves the counters of a running parse as they are, and in a
file the last "TCP/UDP read bytes" line is the one that counts. -/
theorem single_counters_witness :
    ((openvpn_strsplit "Auth read bytes,960\n".toList 4).length = 2 ∧
      (openvpn_strsplit "Auth read bytes,960\n".toList 4).getD 0 [] ∉ single_labels) ∧
    single_line (single_loop ["TCP/UDP read bytes,1000\n".toList] single_init)
        "Auth read bytes,960\n".toList =
      single_loop ["TCP/UDP read bytes,1000\n".toList] single_init ∧
    (single_loop
        ["TCP/UDP read bytes,1000\n".toList, "TUN/TAP read bytes,7\n".toList,
         "TCP/UDP read bytes,1200\n".toList, "TCP/UDP read bytes,1300,9\n".toList]
        single_init).link_rx = 1200 :=
  ⟨by decide,
    (single_counters []).2 (single_loop ["TCP/UDP read bytes,1000\n".toList] single_init)
      "Auth read bytes,960\n".toList (by decide) (by decide),
    (congrArg single_state.link_rx (single_counters
      ["TCP/UDP read bytes,1000\n".toList, "TUN/TAP read bytes,7\n".toList,
       "TCP/UDP read bytes,1200\n".toList, "TCP/UDP read bytes,1300,9\n".toList]).1).trans
      (by decide)⟩

/-! ## Lemmas: the labels of single mode -/

theorem recognized_iff (L : CStr) : recognized L ↔ L ∈ single_labels := by
  constructor
  · rintro ⟨p, name, pre, post, l, err, _, h0, hne⟩
    by_contra hL
    apply hne
    have hskip : ∀ st, single_line st l = st :=
      fun st => single_line_unknown_label st l (by rw [h0]; exact hL)
    have hloop : single_loop (pre ++ l :: post) single_init =
        single_loop (pre ++ post) single_init := by
      unfold single_loop
      rw [List.foldl_append, List.foldl_cons, hskip, ← List.foldl_append]
    unfold single_read
    dsimp only
    rw [hloop]
  · intro hL
    simp only [single_labels, List.mem_cons, List.mem_singleton, List.not_mem_nil,
      or_false] at hL
    rcases hL with h | h | h | h | h | h | h | h
    · exact ⟨Policy.default, [], [], [], "TUN/TAP read bytes,1\n".toList, false,
        by decide, by rw [h]; decide, by decide⟩
    · exact ⟨Policy.default, [], [], [], "TUN/TAP write bytes,1\n".toList, false,
        by decide, by rw [h]; decide, by decide⟩
    · exact ⟨Policy.default, [], [], [], "TCP/UDP read bytes,1\n".toList, false,
        by decide, by rw [h]; decide, by decide⟩
    · exact ⟨Policy.default, [], [], [], "TCP/UDP write bytes,1\n".toList, false,
        by decide, by rw [h]; decide, by decide⟩
    · exact ⟨Policy.default, [], [], [], "pre-compress bytes,1\n".toList, false,
        by decide, by rw [h]; decide, by decide⟩
    · exact ⟨Policy.default, [], [], [], "post-compress bytes,1\n".toList, false,
        by decide, by rw [h]; decide, by decide⟩
    · exact ⟨Policy.default, [], [], [], "pre-decompress bytes,1\n".toList, false,
        by decide, by rw [h]; decide, by decide⟩
    · exact ⟨Policy.default, [], [], [], "post-decompress bytes,1\n".toList, false,
        by decide, by rw [h]; decide, by decide⟩

/-! ## C20: the number of labels -/

/-- Counterexample to C20: there is no list of nine distinct labels that
contains exactly the recognised ones. -/
theorem nine_labels_counterexample :
    ¬ ∃ ls : List CStr, ls.Nodup ∧ ls.length = 9 ∧ ∀ L, recognized L ↔ L ∈ ls := by
  rintro ⟨ls, hnd, hlen, hls⟩
  have hperm : ls.Perm single_labels :=
    (List.perm_ext_iff_of_nodup hnd (by decide)).2
      (fun L => (hls L).symm.trans (recognized_iff L))
  have h := hperm.length_eq
  rw [hlen] at h
  exact absurd h (by decide)

/-- C20 (amended): the single-mode parser recognises exactly eight distinct
labels: a label can, as first field of a two-field line, change what
`single_read` dispatches if and only if it is one of "TUN/TAP read bytes",
"TUN/TAP write bytes", "TCP/UDP read bytes", "TCP/UDP write bytes",
"pre-compress bytes", "post-compress bytes", "pre-decompress bytes",
"post-decompress bytes"; every other label is ignored. -/
theorem eight_labels :
    (∀ L, recognized L ↔
      L = "TUN/TAP read bytes".toList ∨ L = "TUN/TAP write bytes".toList ∨
      L = "TCP/UDP read bytes".toList ∨ L = "TCP/UDP write bytes".toList ∨
      L = "pre-compress bytes".toList ∨ L = "post-compress bytes".toList ∨
      L = "pre-decompress bytes".toList ∨ L = "post-decompress bytes".toList) ∧
    single_labels.Nodup ∧ single_labels.length = 8 ∧
    (∀ L, L ∉ single_labels → ∀ (p : Policy) (name : CStr) (pre post : List CStr) (l : CStr)
      (err : Bool), (openvpn_strsplit l 4).getD 0 [] = L →
      single_read p name (FILE.mk (pre ++ l :: post) err) =
        single_read p name (FILE.mk (pre ++ post) err)) := by
  refine ⟨fun L => ?_, by decide, rfl, ?_⟩
  · rw [recognized_iff]
    simp only [single_labels, List.mem_cons, List.mem_singleton, List.not_mem_nil, or_false]
  · intro L hL p name pre post l err h0
    have hskip : ∀ st, single_line st l = st :=
      fun st => single_line_unknown_label st l (by rw [h0]; exact hL)
    unfold single_read single_loop
    dsimp only
    rw [List.foldl_append, List.foldl_cons, hskip, ← List.foldl_append]
/-- Witness for C20 (amended): "TCP/UDP read bytes" is recognised, while the
ninth statistic of a status file, "Auth read bytes", is not: a file reads the
same with and without its line. -/
theorem eight_labels_witness :
    ("Auth read bytes".toList ∉ single_labels ∧
      (openvpn_strsplit "Auth read bytes,960\n".toList 4).getD 0 [] =
        "Auth read bytes".toList) ∧
    single_read Policy.default "openvpn.status".toList
        (FILE.mk ([VSSTRING, "TCP/UDP read bytes,1000\n".toList] ++
          "Auth read bytes,960\n".toList :: ["END\n".toList]) false) =
      single_read Policy.default "openvpn.status".toList
        (FILE.mk ([VSSTRING, "TCP/UDP read bytes,1000\n".toList] ++ ["END\n".toList]) false) ∧
    recognized "TCP/UDP read bytes".toList ∧
    ¬ recognized "Auth read bytes".toList :=
  ⟨by decide,
    eight_labels.2.2.2 "Auth read bytes".toList (by decide) Policy.default
      "openvpn.status".toList [VSSTRING, "TCP/UDP read bytes,1000\n".toList]
      ["END\n".toList] "Auth read bytes,960\n".toList false (by decide),
    (eight_labels.1 "TCP/UDP read bytes".toList).2 (Or.inr (Or.inr (Or.inl rfl))),
    fun h => absurd ((eight_labels.1 "Auth read bytes".toList).1 h) (by decide)⟩

/-! ## Lemmas: the comma-free runs of a line -/

theorem splitOn_comma_cons (s : CStr) : (',' :: s).splitOn ',' = [] :: s.splitOn ',' := by
  simp [List.splitOn]

theorem splitOn_append_comma (a b : CStr) :
    (a ++ ',' :: b).splitOn ',' = a.splitOn ',' ++ b.splitOn ',' := by
  induction a with
  | nil => simp [List.splitOn]
  | cons c a ih =>
    unfold List.splitOn at ih ⊢
    rw [List.cons_append, List.splitOnP_cons, List.splitOnP_cons, ih]
    by_cases hc : (c == ',') = true
    · simp [hc]
    · simp only [hc, if_false]
      cases h : List.splitOnP (fun x => x == ',') a with
      | nil => exact absurd h (List.splitOnP_ne_nil _ _)
      | cons x xs => rfl

theorem splitOn_comma_free (l : CStr) : ∀ f ∈ l.splitOn ',', ',' ∉ f := by
  induction l with
  | nil => simp
  | cons c l ih =>
    unfold List.splitOn at ih ⊢
    rw [List.splitOnP_cons]
    by_cases hc : (c == ',') = true
    · simp only [hc, if_true]
      intro f hf
      rcases List.mem_cons.1 hf with h | h
      · rw [h]; simp
      · exact ih f h
    · simp only [hc, if_false]
      cases h : List.splitOnP (fun x => x == ',') l with
      | nil => exact absurd h (List.splitOnP_ne_nil _ _)
      | cons x xs =>
        rw [h] at ih
        intro f hf
        rcases List.mem_cons.1 hf with h1 | h1
        · rw [h1]
          intro hm
          rcases List.mem_cons.1 hm with h2 | h2
          · exact hc (by rw [← h2]; simp)
          · exact ih x (List.mem_cons_self _ _) h2
        · exact ih f (List.mem_cons_of_mem _ h1)

theorem comma_runs_nil : comma_runs [] = [] := rfl

theorem comma_runs_comma (s : CStr) : comma_runs (',' :: s) = comma_runs s := by
  unfold comma_runs
  rw [splitOn_comma_cons]
  simp

theorem comma_runs_append_comma (a b : CStr) :
    comma_runs (a ++ ',' :: b) = comma_runs a ++ comma_runs b := by
  unfold comma_runs
  rw [splitOn_append_comma, List.filter_append]

theorem comma_runs_single (tok : CStr) (ht : tok ≠ []) (hc : ',' ∉ tok) :
    comma_runs tok = [tok] := by
  unfold comma_runs List.splitOn
  rw [List.splitOnP_eq_single]
  · simp [ht]
  · intro x hx h
    rw [eq_of_beq h] at hx
    exact hc hx

theorem comma_runs_pre (pre s : CStr) (hp : ∀ c ∈ pre, c ∈ [',']) :
    comma_runs (pre ++ s) = comma_runs s := by
  induction pre with
  | nil => rfl
  | cons c pre ih =>
    have hc : c = ',' := List.mem_singleton.1 (hp c (List.mem_cons_self _ _))
    rw [hc, List.cons_append, comma_runs_comma]
    exact ih (fun d hd => hp d (List.mem_cons_of_mem _ hd))

theorem strsplit_loop_runs (r : Nat) (s : CStr) :
    strsplit_loop [','] r s = (comma_runs s).take (r + 1) := by
  induction r generalizing s with
  | zero =>
    rw [strsplit_loop]
    rcases strtok_r_spec [','] s with ⟨h, hall⟩ | ⟨pre, tok, post, rest, h, hp, ht, htd, hs, hpost⟩
    · rw [h]
      have := comma_runs_pre s [] hall
      rw [List.append_nil] at this
      rw [this, comma_runs_nil]
      rfl
    · rw [h]
      dsimp only
      have hc : ',' ∉ tok := fun hm => htd ',' hm (List.mem_singleton.2 rfl)
      rw [hs, List.append_assoc, comma_runs_pre _ _ hp]
      rcases hpost with ⟨h1, _⟩ | ⟨d, hd, h1⟩
      · rw [h1, List.append_nil, comma_runs_single tok ht hc]
        rfl
      · rw [h1, List.mem_singleton.1 hd, comma_runs_append_comma, comma_runs_single tok ht hc]
        rfl
  | succ r ih =>
    rw [strsplit_loop]
    rcases strtok_r_spec [','] s with ⟨h, hall⟩ | ⟨pre, tok, post, rest, h, hp, ht, htd, hs, hpost⟩
    · rw [h]
      have := comma_runs_pre s [] hall
      rw [List.append_nil] at this
      rw [this, comma_runs_nil]
      rfl
    · rw [h]
      dsimp only
      have hc : ',' ∉ tok := fun hm => htd ',' hm (List.mem_singleton.2 rfl)
      rw [hs, List.append_assoc, comma_runs_pre _ _ hp, ih]
      rcases hpost with ⟨h1, h2⟩ | ⟨d, hd, h1⟩
      · rw [h1, h2, List.append_nil, comma_runs_single tok ht hc, comma_runs_nil]
        rfl
      · rw [h1, List.mem_singleton.1 hd, comma_runs_append_comma, comma_runs_single tok ht hc]
        rfl

theorem openvpn_strsplit_runs (l : CStr) (N : Nat) (hN : 1 ≤ N) :
    openvpn_strsplit l N = (comma_runs l).take N := by
  unfold openvpn_strsplit
  rw [strsplit_loop_runs, Nat.sub_add_cancel hN]

theorem comma_runs_intercalate (ps : List CStr) (hne : ps ≠ []) (hc : ∀ f ∈ ps, ',' ∉ f) :
    comma_runs ([','].intercalate ps) = ps.filter (fun f => decide (f ≠ [])) := by
  unfold comma_runs
  rw [List.splitOn_intercalate ps ',' hc hne]

theorem length_filter_ne_nil (ps : List CStr) :
    (ps.filter (fun f => decide (f ≠ []))).length + ps.count [] = ps.length := by
  induction ps with
  | nil => rfl
  | cons a ps ih =>
    cases a with
    | nil => simp at ih ⊢; omega
    | cons c cs => simp at ih ⊢; omega

/-! ## C21: the fields are the comma-free runs -/

/-- C21: for every line and every N >= 1, the fields returned by
`openvpn_strsplit` are the first min(N, k) of the k maximal non-empty
comma-free runs of the line (the pieces between the commas, which joined by
commas give the line back, the empty ones left out); no returned field is
empty or contains a comma; a leading comma, a trailing comma and a comma
behind a comma produce no field. Consequently a line of 8 comma-separated
positions of which one is empty has field count 7, does not qualify as a
version 2 client line, and leaves the locals of `multi2_read` as they are: no
connection record and no user counted. -/
theorem strsplit_fields_are_runs (l : CStr) (N : Nat) (hN : 1 ≤ N) :
    openvpn_strsplit l N = (comma_runs l).take N ∧
    (openvpn_strsplit l N).length = min N (comma_runs l).length ∧
    ([','].intercalate (l.splitOn ',') = l ∧ ∀ f ∈ l.splitOn ',', ',' ∉ f) ∧
    (∀ f ∈ openvpn_strsplit l N, f ≠ [] ∧ ',' ∉ f) ∧
    openvpn_strsplit (',' :: l) N = openvpn_strsplit l N ∧
    openvpn_strsplit (l ++ [',']) N = openvpn_strsplit l N ∧
    (∀ a b, l = a ++ ',' :: ',' :: b →
      openvpn_strsplit l N = openvpn_strsplit (a ++ ',' :: b) N) ∧
    (∀ ps : List CStr, ps.length = 8 → (∀ f ∈ ps, ',' ∉ f) → ps.count [] = 1 →
      l = [','].intercalate ps →
      (openvpn_strsplit l 10).length = 7 ∧ multi2_qualifies l = false ∧
      ∀ p name st, multi2_line p name st l = st) := by
  refine ⟨openvpn_strsplit_runs l N hN, ?_, ⟨List.intercalate_splitOn l ',', splitOn_comma_free l⟩,
    ?_, ?_, ?_, ?_, ?_⟩
  · rw [openvpn_strsplit_runs l N hN, List.length_take]
  · intro f hf
    unfold openvpn_strsplit at hf
    obtain ⟨_, h2, _⟩ := strsplit_loop_spec [','] (N - 1) l
    exact ⟨(h2 f hf).1, fun hc => (h2 f hf).2 ',' hc (List.mem_singleton.2 rfl)⟩
  · rw [openvpn_strsplit_runs _ N hN, openvpn_strsplit_runs l N hN, comma_runs_comma]
  · rw [openvpn_strsplit_runs _ N hN, openvpn_strsplit_runs l N hN, comma_runs_append_comma,
      comma_runs_nil, List.append_nil]
  · intro a b hl
    rw [openvpn_strsplit_runs _ N hN, openvpn_strsplit_runs _ N hN, hl,
      comma_runs_append_comma, comma_runs_comma, comma_runs_append_comma]
  · intro ps hlen hc hcount hl
    have hne : ps ≠ [] := by
      intro h
      rw [h] at hlen
      exact absurd hlen (by decide)
    have h7 : (openvpn_strsplit l 10).length = 7 := by
      rw [openvpn_strsplit_runs l 10 (by decide), hl, comma_runs_intercalate ps hne hc,
        List.length_take]
      have := length_filter_ne_nil ps
      omega
    refine ⟨h7, ?_, ?_⟩
    · unfold multi2_qualifies client_list_fields
      rw [h7]
      rfl
    · intro p name st
      exact multi2_line_skip p name st l (by rw [h7]; decide)

/-- Witness for C21: the line "CLIENT_LIST,bob,,1.2.3.4,500,600,date,ts\n",
split with room for ten fields, has the seven fields that are its non-empty
runs; its third position is empty, so it is no version 2 client line. -/
theorem strsplit_fields_are_runs_witness :
    (1 ≤ 10 ∧
      ["CLIENT_LIST".toList, "bob".toList, [], "1.2.3.4".toList, "500".toList, "600".toList,
        "date".toList, "ts\n".toList].length = 8 ∧
      (∀ f ∈ ["CLIENT_LIST".toList, "bob".toList, [], "1.2.3.4".toList, "500".toList,
        "600".toList, "date".toList, "ts\n".toList], ',' ∉ f) ∧
      ["CLIENT_LIST".toList, "bob".toList, [], "1.2.3.4".toList, "500".toList, "600".toList,
        "date".toList, "ts\n".toList].count [] = 1 ∧
      "CLIENT_LIST,bob,,1.2.3.4,500,600,date,ts\n".toList =
        [','].intercalate ["CLIENT_LIST".toList, "bob".toList, [], "1.2.3.4".toList,
          "500".toList, "600".toList, "date".toList, "ts\n".toList]) ∧
    comma_runs "CLIENT_LIST,bob,,1.2.3.4,500,600,date,ts\n".toList =
      ["CLIENT_LIST".toList, "bob".toList, "1.2.3.4".toList, "500".toList, "600".toList,
        "date".toList, "ts\n".toList] ∧
    openvpn_strsplit "CLIENT_LIST,bob,,1.2.3.4,500,600,date,ts\n".toList 10 =
      (comma_runs "CLIENT_LIST,bob,,1.2.3.4,500,600,date,ts\n".toList).take 10 ∧
    (openvpn_strsplit "CLIENT_LIST,bob,,1.2.3.4,500,600,date,ts\n".toList 10).length = 7 ∧
    multi2_qualifies "CLIENT_LIST,bob,,1.2.3.4,500,600,date,ts\n".toList = false ∧
    (∀ p name st,
      multi2_line p name st "CLIENT_LIST,bob,,1.2.3.4,500,600,date,ts\n".toList = st) :=
  ⟨⟨by decide, by decide, by decide, by decide, by decide⟩, by decide,
    (strsplit_fields_are_runs "CLIENT_LIST,bob,,1.2.3.4,500,600,date,ts\n".toList 10
      (by decide)).1,
    (strsplit_fields_are_runs "CLIENT_LIST,bob,,1.2.3.4,500,600,date,ts\n".toList 10
      (by decide)).2.2.2.2.2.2.2
      ["CLIENT_LIST".toList, "bob".toList, [], "1.2.3.4".toList, "500".toList, "600".toList,
        "date".toList, "ts\n".toList] (by decide) (by decide) (by decide) (by decide)⟩

/-! ## C22: which read functions always report data -/

/-- C22: `single_read` returns 1 for every stream, the empty file included;
`multi1_read` returns 1 for every stream that ends without a read error, and
with the user count disabled and either the per-connection metrics disabled
or no header line in the file it returns 1 having dispatched nothing;
consequently `openvpn_read` returns 0 as soon as one source of version
`MULTI1` opens and reads without error or one source of version `SINGLE`
opens. By contrast `multi2_read`, `multi3_read` and `multi4_read` return 0 or
1, and 0 exactly when the user count is disabled and no line of the file is a
qualifying CLIENT_LIST line. -/
theorem data_produced_report (p : Policy) (name : CStr) (fh : FILE) :
    (single_read p name fh).ret = 1 ∧
    (∀ err, (single_read p name (FILE.mk [] err)).ret = 1) ∧
    (fh.error = false → (multi1_read p name fh).ret = 1) ∧
    (fh.error = false → p.collect_user_count = false →
      (p.collect_individual_users = false ∨ V1STRING ∉ fh.lines) →
      multi1_read p name fh = { ret := 1, out := [] }) ∧
    (∀ (fopen : CStr → Option FILE) (l : List vpn_status_t),
      (∃ e ∈ l, ∃ f, fopen e.file = some f ∧
        ((e.version = MULTI1 ∧ f.error = false) ∨ e.version = SINGLE)) →
      ∃ r, openvpn_read fopen (plugin_state.mk l l.length p) = some r ∧ r.ret = 0) ∧
    (((multi2_read p name fh).ret = 0 ∨ (multi2_read p name fh).ret = 1) ∧
      ((multi2_read p name fh).ret = 0 ↔
        p.collect_user_count = false ∧ ∀ l ∈ fh.lines, multi2_qualifies l = false)) ∧
    (((multi3_read p name fh).ret = 0 ∨ (multi3_read p name fh).ret = 1) ∧
      ((multi3_read p name fh).ret = 0 ↔
        p.collect_user_count = false ∧ ∀ l ∈ fh.lines, multi3_qualifies l = false)) ∧
    (((multi4_read p name fh).ret = 0 ∨ (multi4_read p name fh).ret = 1) ∧
      ((multi4_read p name fh).ret = 0 ↔
        p.collect_user_count = false ∧ ∀ l ∈ fh.lines, multi4_qualifies l = false)) := by
  have hm1 : ∀ f : FILE, f.error = false → (multi1_read p name f).ret = 1 := by
    intro f hf
    rw [multi1_read_ret_eq, hf]
    simp
  refine ⟨rfl, fun _ => rfl, hm1 fh, ?_, ?_, ?_, ?_, ?_⟩
  · intro herr hu hi
    have hret := hm1 fh herr
    have hout : (multi1_read p name fh).out = [] := by
      rw [multi1_read_out, hu]
      rcases hi with hi | hi
      · rw [hi]
        rfl
      · have hq : multi1_qualifying fh.lines = [] := by
          unfold multi1_qualifying
          have hd : (fh.lines.takeWhile (fun l => decide (l ≠ routing_table_line))).dropWhile
              (fun l => decide (l ≠ V1STRING)) = [] := by
            rw [List.dropWhile_eq_nil_iff]
            intro x hx
            have hx1 : x ∈ fh.lines := List.takeWhile_subset _ hx
            exact decide_eq_true (fun hxe => hi (hxe ▸ hx1))
          rw [hd]
          rfl
        rw [hq]
        cases p.collect_individual_users <;> rfl
    cases hr : multi1_read p name fh with
    | mk ret out =>
      rw [hr] at hret hout
      dsimp only at hret hout
      rw [hret, hout]
  · intro fopen l h
    obtain ⟨e, he, f, hopen, hv⟩ := h
    have hr : (vpn_read p e f).ret ≠ 0 := by
      unfold vpn_read
      rcases hv with ⟨h1, herr⟩ | h1
      · rw [if_neg (by rw [h1]; decide), if_pos h1, multi1_read_ret_eq, herr]
        simp
      · rw [if_pos h1]
        exact (by decide : (1 : Int) ≠ 0)
    have hne := (sum_rets_ne_zero p (opened fopen l)).2.2
      ⟨(e, f), (mem_opened fopen l (e, f)).2 ⟨he, hopen⟩, hr⟩
    have hrun : openvpn_read fopen (plugin_state.mk l l.length p) =
        some { ret := if ((opened fopen l).map (fun x => (vpn_read p x.1 x.2).ret)).sum ≠ 0
                 then 0 else -1,
               out := ((opened fopen l).map (fun x => (vpn_read p x.1 x.2).out)).flatten } := by
      unfold openvpn_read
      dsimp only
      rw [openvpn_read_loop_eq]
      simp
    refine ⟨_, hrun, ?_⟩
    dsimp only
    rw [if_pos hne]
  · rw [multi2_read_ret]
    cases p.collect_user_count <;>
      by_cases h : fh.lines.filter multi2_qualifies = [] <;>
      simp [h, List.filter_eq_nil_iff] <;> simpa [List.filter_eq_nil_iff] using h
  · rw [multi3_read_ret]
    cases p.collect_user_count <;>
      by_cases h : fh.lines.filter multi3_qualifies = [] <;>
      simp [h, List.filter_eq_nil_iff] <;> simpa [List.filter_eq_nil_iff] using h
  · rw [multi4_read_ret]
    cases p.collect_user_count <;>
      by_cases h : fh.lines.filter multi4_qualifies = [] <;>
      simp [h, List.filter_eq_nil_iff] <;> simpa [List.filter_eq_nil_iff] using h

/-- Witness for C22: a version 1 file without header line, read to its end
with the user count and the per-connection metrics disabled (flags in the
order naming schema, compression, user count, per-connection): `multi1_read`
returns 1 and dispatches nothing, a cycle over that source alone returns 0
and dispatches nothing, and `multi2_read` returns 0 on that file. -/
theorem data_produced_report_witness :
    ((FILE.mk ["TITLE\n".toList, "bob,1.2.3.4:1194,500,600\n".toList] false).error = false ∧
      (Policy.mk false true false false).collect_user_count = false ∧
      ((Policy.mk false true false false).collect_individual_users = false ∨
        V1STRING ∉ (FILE.mk ["TITLE\n".toList, "bob,1.2.3.4:1194,500,600\n".toList] false).lines)) ∧
    multi1_read (Policy.mk false true false false) "v1.status".toList
        (FILE.mk ["TITLE\n".toList, "bob,1.2.3.4:1194,500,600\n".toList] false) =
      { ret := 1, out := [] } ∧
    (∃ r, openvpn_read
        (fun path => if path = "/var/run/v1.status".toList then
          some (FILE.mk ["TITLE\n".toList, "bob,1.2.3.4:1194,500,600\n".toList] false) else none)
        (plugin_state.mk [vpn_status_t.mk "/var/run/v1.status".toList MULTI1 "v1.status".toList]
          [vpn_status_t.mk "/var/run/v1.status".toList MULTI1 "v1.status".toList].length
          (Policy.mk false true false false)) = some r ∧ r.ret = 0) ∧
    openvpn_read
        (fun path => if path = "/var/run/v1.status".toList then
          some (FILE.mk ["TITLE\n".toList, "bob,1.2.3.4:1194,500,600\n".toList] false) else none)
        (plugin_state.mk [vpn_status_t.mk "/var/run/v1.status".toList MULTI1 "v1.status".toList]
          1 (Policy.mk false true false false)) = some { ret := 0, out := [] } ∧
    (multi2_read (Policy.mk false true false false) "v1.status".toList
      (FILE.mk ["TITLE\n".toList, "bob,1.2.3.4:1194,500,600\n".toList] false)).ret = 0 :=
  ⟨⟨rfl, rfl, Or.inl rfl⟩,
    (data_produced_report (Policy.mk false true false false) "v1.status".toList
      (FILE.mk ["TITLE\n".toList, "bob,1.2.3.4:1194,500,600\n".toList] false)).2.2.2.1
      rfl rfl (Or.inl rfl),
    (data_produced_report (Policy.mk false true false false) "v1.status".toList
      (FILE.mk ["TITLE\n".toList, "bob,1.2.3.4:1194,500,600\n".toList] false)).2.2.2.2.1
      (fun path => if path = "/var/run/v1.status".toList then
        some (FILE.mk ["TITLE\n".toList, "bob,1.2.3.4:1194,500,600\n".toList] false) else none)
      [vpn_status_t.mk "/var/run/v1.status".toList MULTI1 "v1.status".toList]
      ⟨vpn_status_t.mk "/var/run/v1.status".toList MULTI1 "v1.status".toList,
        List.mem_singleton.2 rfl,
        FILE.mk ["TITLE\n".toList, "bob,1.2.3.4:1194,500,600\n".toList] false,
        by decide, Or.inl ⟨rfl, rfl⟩⟩,
    by decide,
    ((data_produced_report (Policy.mk false true false false) "v1.status".toList
      (FILE.mk ["TITLE\n".toList, "bob,1.2.3.4:1194,500,600\n".toList] false)).2.2.2.2.2.1).2.2
      ⟨rfl, by decide⟩⟩

end OpenVPN
